import Mathlib

/-!
# Edu-flow attendance backend: shallow embedding of `Src/index.js`

The Express handlers of `Src/index.js` are embedded as pure functions over an
explicit store (the PostgreSQL tables created by `initializeDatabase`).  Library
calls whose code is not part of the repository (HMAC, JWT, bcrypt, the `Date`
constructor, PostgreSQL's date/time input) are fields of `Env`.
-/

namespace EduFlow

/-! ## JavaScript and PostgreSQL primitives -/

/-- Fields of a character list separated by `sep`, as `String.prototype.split`
with a one-character separator: there is always at least one field. -/
def splitChars (sep : Char) : List Char → List (List Char)
  | [] => [[]]
  | c :: cs =>
    if c = sep then [] :: splitChars sep cs
    else
      match splitChars sep cs with
      | [] => [[c]]
      | f :: fs => (c :: f) :: fs

/-- The JavaScript call `s.split(sep)` for a one-character separator. -/
def jsSplit (s : String) (sep : Char) : List String :=
  (splitChars sep s.toList).map String.mk

/-- A value of a JSON request body, as far as the handlers distinguish them:
absent or `null`, an integer number, a string of Unicode characters, or a
number that is no integer, given by the decimal text JavaScript prints for it
(`-1.2921`). -/
inductive Param where
  | null
  | num (n : Int)
  | str (s : String)
  | frac (text : String)
deriving DecidableEq, Repr

/-- JavaScript truthiness of a body value (`radius || 100`); a number that is no
integer is not zero. -/
def Param.truthy : Param → Bool
  | .null => false
  | .num n => decide (n ≠ 0)
  | .str s => decide (s ≠ "")
  | .frac _ => true

/-- White space skipped by PostgreSQL's integer input. -/
def isPgSpace (c : Char) : Bool :=
  decide (c.toNat = 32 ∨ (9 ≤ c.toNat ∧ c.toNat ≤ 13))

/-- ASCII decimal digit. -/
def isDecDigit (c : Char) : Bool :=
  decide (48 ≤ c.toNat ∧ c.toNat ≤ 57)

/-- Value of a character as a digit of the base 2, 8, 10 or 16; `none` when it
is no digit of that base. -/
def digitValue (base : Nat) (c : Char) : Option Nat :=
  let v : Option Nat :=
    if isDecDigit c then some (c.toNat - 48)
    else if 97 ≤ c.toNat ∧ c.toNat ≤ 102 then some (c.toNat - 87)
    else if 65 ≤ c.toNat ∧ c.toNat ≤ 70 then some (c.toNat - 55)
    else none
  match v with
  | some d => if d < base then some d else none
  | none => none

/-- Value of a run of digits of the base in which a `_` may stand before a
digit, followed only by white space; `none` when another character occurs. -/
def readDigits (base : Nat) : List Char → Nat → Option Nat
  | [], acc => some acc
  | c :: cs, acc =>
    match digitValue base c with
    | some d => readDigits base cs (acc * base + d)
    | none =>
      if c = '_' then
        match cs with
        | [] => none
        | d :: _ => if (digitValue base d).isSome then readDigits base cs acc else none
      else if (c :: cs).all isPgSpace then some acc
      else none

/-- Smallest value of the PostgreSQL type `INTEGER`. -/
def int4Min : Int := -2147483648

/-- Largest value of the PostgreSQL type `INTEGER`. -/
def int4Max : Int := 2147483647

/-- Range check of the PostgreSQL type `INTEGER`. -/
def inInt4 (n : Int) : Option Int :=
  if int4Min ≤ n ∧ n ≤ int4Max then some n else none

/-- The digits of PostgreSQL's integer input, after the sign: a decimal number
that starts with a digit, or one of the prefixes `0x`, `0o`, `0b` (in either
case) followed by a number of base 16, 8 or 2, which may start with `_`. -/
def int4Digits (cs : List Char) : Option Nat :=
  let decimal : Option Nat :=
    match cs with
    | [] => none
    | c :: _ => if isDecDigit c then readDigits 10 cs 0 else none
  let prefixed (base : Nat) (rest : List Char) : Option Nat :=
    match rest with
    | [] => none
    | c :: _ =>
      if (digitValue base c).isSome ∨ c = '_' then readDigits base rest 0 else none
  match cs with
  | z :: x :: rest =>
    if z = '0' ∧ (x = 'x' ∨ x = 'X') then prefixed 16 rest
    else if z = '0' ∧ (x = 'o' ∨ x = 'O') then prefixed 8 rest
    else if z = '0' ∧ (x = 'b' ∨ x = 'B') then prefixed 2 rest
    else decimal
  | _ => decimal

/-- PostgreSQL's text input of an `INTEGER`, as version 16 and later read it:
optional white space, an optional sign, a number in decimal form or in the
hexadecimal, octal or binary form of `int4Digits`, optional white space; `none`
is the error `invalid input syntax for type integer` or `out of range`. -/
def int4in (s : String) : Option Int :=
  match s.toList.dropWhile isPgSpace with
  | [] => none
  | c :: cs =>
    if c = '-' then (int4Digits cs).bind (fun n => inInt4 (-(n : Int)))
    else if c = '+' then (int4Digits cs).bind (fun n => inInt4 (n : Int))
    else (int4Digits (c :: cs)).bind (fun n => inInt4 (n : Int))

/-- A query parameter bound to an `INTEGER` column: the outer `none` is a query
error, the inner `none` is SQL `NULL`.  A number that is no integer is sent as
its decimal text, which the integer input rejects. -/
def Param.toInt4 : Param → Option (Option Int)
  | .null => some none
  | .num n => (inInt4 n).map some
  | .str s => (int4in s).map some
  | .frac _ => none

/-- A query parameter bound to a text column: `none` is SQL `NULL`; a number is
sent in its decimal form. -/
def Param.toText : Param → Option String
  | .null => none
  | .num n => some (toString n)
  | .str s => some s
  | .frac text => some text

/-- PostgreSQL's `JSONB` input of the text `JSON.stringify` writes for a body
value.  `JSON.stringify` writes the character U+0000 of a string as the escape
`\u0000`, which `JSONB` refuses (`unsupported Unicode escape sequence`); `null`,
numbers and every other string are stored.  A JavaScript string with a lone
surrogate, which `JSONB` refuses as well, is no value of `Param`: a `String`
holds Unicode scalar values only. -/
def Param.jsonbAccepts : Param → Bool
  | .str s => s.toList.all (fun c => decide (c.toNat ≠ 0))
  | _ => true

/-! ## Data model: the tables of `initializeDatabase` -/

/-- Row of `users`. -/
structure User where
  id : Int
  registration_number : Option String
  email : String
  password : String
  first_name : String
  last_name : String
  role : String
  department : Option String
  phone_number : Option String
  profile_picture : Option String
  is_active : Option Bool
  created_at : Int
  updated_at : Int
deriving DecidableEq, Repr

/-- A `users` row after `const { password: _, ...userWithoutPassword } = row`. -/
structure UserWithoutPassword where
  id : Int
  registration_number : Option String
  email : String
  first_name : String
  last_name : String
  role : String
  department : Option String
  phone_number : Option String
  profile_picture : Option String
  is_active : Option Bool
  created_at : Int
  updated_at : Int
deriving DecidableEq, Repr

/-- Row of `courses`. -/
structure Course where
  id : Int
  course_code : String
  course_name : String
  department : Option String
  credit_hours : Option Int
  lecturer_id : Option Int
  semester : Option String
  academic_year : Option String
  created_at : Int
deriving DecidableEq, Repr

/-- Row of `enrollments`. -/
structure Enrollment where
  id : Int
  student_id : Option Int
  course_id : Option Int
  enrollment_date : Int
  status : Option String
deriving DecidableEq, Repr

/-- Row of `attendance_sessions`; times are epoch milliseconds. -/
structure Session where
  id : Int
  course_id : Option Int
  lecturer_id : Option Int
  session_date : String
  start_time : String
  end_time : Option String
  qr_code_data : Option String
  qr_code_expiry : Option Int
  latitude : Option String
  longitude : Option String
  radius : Option Int
  status : Option String
  created_at : Int
deriving DecidableEq, Repr

/-- The JSON object `{ latitude, longitude }` stored in `location_data`. -/
structure Location where
  latitude : Param
  longitude : Param
deriving DecidableEq, Repr

/-- PostgreSQL's `JSONB` input of `JSON.stringify({ latitude, longitude })`: the
object is stored when both values are. -/
def Location.jsonbAccepts (loc : Location) : Bool :=
  loc.latitude.jsonbAccepts && loc.longitude.jsonbAccepts

/-- The coercion of `req.ip` to the column `ip_address VARCHAR(45)`: a text of
more than 45 characters is an error.  `req.ip` is the peer address of the
socket in text form, which holds no space, so PostgreSQL's rule that cuts
excess spaces off an over-long value has nothing to cut. -/
def ipFits : Option String → Bool
  | none => true
  | some ip => decide (ip.length ≤ 45)

/-- Row of `attendance_records`. -/
structure AttendanceRecord where
  id : Int
  session_id : Option Int
  student_id : Option Int
  marked_at : Int
  status : Option String
  marked_by : String
  ip_address : Option String
  device_info : Option String
  location_data : Option Location
deriving DecidableEq, Repr

/-- The external relational store: the tables and their `SERIAL` sequences. -/
structure Store where
  users : List User
  courses : List Course
  enrollments : List Enrollment
  attendance_sessions : List Session
  attendance_records : List AttendanceRecord
  users_id_seq : Int
  courses_id_seq : Int
  enrollments_id_seq : Int
  attendance_sessions_id_seq : Int
  attendance_records_id_seq : Int
deriving DecidableEq, Repr

/-- The claims `jwt.verify` hands to the handlers as `req.user`. -/
structure Claims where
  id : Int
  email : String
  role : String
  registration_number : Option String
  iat : Int
  exp : Int
deriving DecidableEq, Repr

/-- The errors `jwt.verify` reports: the token's `exp` has passed, the token's
`nbf` is still to come, or any other defect (malformed token, bad signature). -/
inductive JwtError where
  | TokenExpiredError
  | NotBeforeError
  | JsonWebTokenError
deriving DecidableEq, Repr

/-- What `jwt.verify` hands to its callback: the claims or an error. -/
inductive JwtResult where
  | ok (user : Claims)
  | error (err : JwtError)
deriving DecidableEq, Repr

/-- The process environment of the server: its configuration and the library
functions used by the handlers whose code is not in the repository. -/
structure Env where
  /-- The constant `JWT_SECRET`. -/
  JWT_SECRET : String
  /-- The call `jwt.sign(claims, secret, options)`. -/
  jwtSign : Claims → String → String
  /-- The call `crypto.createHmac('sha256', key).update(msg).digest('hex')`. -/
  hmacSha256Hex : String → String → String
  /-- The call `jwt.verify(token, secret)` when the clock shows the given second:
  the claims handed to the callback, or its error. -/
  jwtVerify : String → String → Int → JwtResult
  /-- The call `bcrypt.compare(password, hash)` on two strings. -/
  bcryptCompare : String → String → Bool
  /-- The instant of `new Date(text)` in epoch milliseconds; `none` is `Invalid Date`. -/
  newDate : String → Option Int
  /-- Text the driver's value of a `DATE` column takes inside a template literal. -/
  showDate : String → String
  /-- The call `QRCode.toDataURL`. -/
  toDataURL : String → String
  /-- PostgreSQL's input of a `DATE`; `none` is an error. -/
  dateIn : String → Option String
  /-- PostgreSQL's input of a `TIME`; `none` is an error. -/
  timeIn : String → Option String
  /-- PostgreSQL's input of a `DECIMAL(p, s)`; `none` is an error. -/
  decimalIn : Nat → Nat → String → Option String
  /-- PostgreSQL's `TO_CHAR(t, 'HH24:MI:SS')` of a timestamp. -/
  toCharTime : Int → String
  /-- The call `bcrypt.hash(password, salt)` on two strings. -/
  bcryptHash : String → String → String

/-- Row of the session attendance listing. -/
structure AttendanceListRow where
  id : Int
  registration_number : Option String
  first_name : String
  last_name : String
  status : Option String
  marked_time : String
  device_info : Option String
deriving DecidableEq, Repr

/-- Row of the admin user listing. -/
structure UserListRow where
  id : Int
  registration_number : Option String
  email : String
  first_name : String
  last_name : String
  role : String
  department : Option String
  phone_number : Option String
  profile_picture : Option String
  is_active : Option Bool
  created_at : Int
deriving DecidableEq, Repr

/-- The object `pagination` of the admin user listing; `totalPages` is `none`
when `Math.ceil` gives no finite number, which JSON renders as `null`. -/
structure Pagination where
  page : Nat
  limit : Nat
  total : Nat
  totalPages : Option Nat
deriving DecidableEq, Repr

/-! ## Responses -/

/-- JSON bodies sent by the handlers. -/
inductive Body where
  /-- The body `{ error }`. -/
  | error (msg : String)
  /-- Body of a successful mark-attendance: `{ message, attendance, status }`. -/
  | marked (message : String) (attendance : AttendanceRecord) (status : String)
  /-- The body `{ message }`. -/
  | message (msg : String)
  /-- Body of a successful create-session: `{ message, session, qr_code_url, qr_data }`. -/
  | sessionCreated (message : String) (session : Session) (qr_code_url : String)
      (qr_data : String)
  /-- Body of a successful login: `{ message, token, user }`. -/
  | loggedIn (message : String) (token : String) (user : UserWithoutPassword)
  /-- Body of the session attendance listing: the array of rows. -/
  | attendanceList (rows : List AttendanceListRow)
  /-- Body of a successful register: `{ message, user }`. -/
  | registered (message : String) (user : UserWithoutPassword)
  /-- Body of a successful enroll: `{ message, enrollment }`. -/
  | enrolled (message : String) (enrollment : Enrollment)
  /-- Body of the admin user listing: `{ users, pagination }`. -/
  | userPage (users : List UserListRow) (pagination : Pagination)
deriving DecidableEq, Repr

/-- An HTTP response: status code and JSON body. -/
structure Response where
  status : Nat
  body : Body
deriving DecidableEq, Repr

/-- The response of every `catch` block: `res.status(500).json(...)`. -/
def internalError : Response := ⟨500, .error "Internal server error"⟩

/-! ## Store queries -/

/-- SQL equality of two nullable integers in a `WHERE` clause: true only when
both are non-null and equal. -/
def sqlEq (a b : Option Int) : Bool :=
  match a, b with
  | some x, some y => decide (x = y)
  | _, _ => false

/-- The query `SELECT * FROM attendance_sessions WHERE id = $1 AND status = 'active'
AND qr_code_expiry > NOW()`; `none` is a query error. -/
def selectActiveSession (st : Store) (sessionId : Param) (now : Int) :
    Option (List Session) :=
  match sessionId.toInt4 with
  | none => none
  | some k =>
    some (st.attendance_sessions.filter (fun s =>
      sqlEq (some s.id) k && decide (s.status = some "active") &&
        (match s.qr_code_expiry with
         | some e => decide (e > now)
         | none => false)))

/-- The query `SELECT * FROM enrollments e JOIN courses c ON e.course_id = c.id
WHERE e.student_id = $1 AND c.id = $2`; `none` is a query error. -/
def selectEnrollment (st : Store) (studentId : Param) (courseId : Option Int) :
    Option (List (Enrollment × Course)) :=
  match studentId.toInt4 with
  | none => none
  | some sid =>
    some (st.enrollments.flatMap (fun e =>
      (st.courses.filter (fun c =>
        sqlEq e.course_id (some c.id) && sqlEq e.student_id sid &&
          sqlEq (some c.id) courseId)).map (fun c => (e, c))))

/-- The query `SELECT * FROM attendance_records WHERE session_id = $1 AND
student_id = $2`; `none` is a query error. -/
def selectRecords (st : Store) (sessionId studentId : Param) :
    Option (List AttendanceRecord) :=
  match sessionId.toInt4, studentId.toInt4 with
  | some k, some u =>
    some (st.attendance_records.filter (fun r =>
      sqlEq r.session_id k && sqlEq r.student_id u))
  | _, _ => none

/-- The constraint `CHECK (status IN ('present', 'absent', 'late', 'excused'))`,
which a `NULL` status passes. -/
def statusCheck : Option String → Bool
  | none => true
  | some s => decide (s = "present" ∨ s = "absent" ∨ s = "late" ∨ s = "excused")

/-- The constraints of `attendance_records` on a new row: primary key, status
check, the two foreign keys and `UNIQUE(session_id, student_id)`. -/
def recordAdmissible (st : Store) (row : AttendanceRecord) : Bool :=
  !(st.attendance_records.any (fun r => decide (r.id = row.id))) &&
  statusCheck row.status &&
  (match row.session_id with
   | none => true
   | some k => st.attendance_sessions.any (fun s => decide (s.id = k))) &&
  (match row.student_id with
   | none => true
   | some u => st.users.any (fun x => decide (x.id = u))) &&
  !(st.attendance_records.any (fun r =>
      sqlEq r.session_id row.session_id && sqlEq r.student_id row.student_id))

/-- An `INSERT INTO attendance_records ... RETURNING *` of one row whose `id` is
the next value of the sequence.  The sequence advances even when the insert
fails; the first component is the inserted row, `none` on a constraint error. -/
def insertRecord (st : Store) (session_id student_id : Option Int)
    (status : Option String) (marked_at : Int) (marked_by : String)
    (ip_address : Option String) (location_data : Option Location) :
    Option AttendanceRecord × Store :=
  let row : AttendanceRecord :=
    { id := st.attendance_records_id_seq, session_id := session_id,
      student_id := student_id, marked_at := marked_at, status := status,
      marked_by := marked_by, ip_address := ip_address, device_info := none,
      location_data := location_data }
  let st1 : Store :=
    { st with attendance_records_id_seq := st.attendance_records_id_seq + 1 }
  if recordAdmissible st row then
    (some row, { st1 with attendance_records := st.attendance_records ++ [row] })
  else (none, st1)

/-- The statement `UPDATE attendance_records SET status = $1, marked_at = NOW()
WHERE id = $2`; `none` is a constraint error. -/
def updateRecordStatus (st : Store) (status : Option String) (now : Int) (id : Int) :
    Option Store :=
  if st.attendance_records.any (fun r => decide (r.id = id)) && !(statusCheck status) then
    none
  else
    some { st with attendance_records := st.attendance_records.map (fun r =>
      if r.id = id then { r with status := status, marked_at := now } else r) }

/-! ## `authenticateToken` -/

/-- Outcome of a middleware: a response was sent, or `next()` was called with
`req.user` set. -/
inductive AuthResult where
  | reject (r : Response)
  | next (user : Claims)
deriving DecidableEq, Repr

/-- The middleware `authenticateToken(roles)` applied to a request with the given
`authorization` header, when the clock shows the second `nowSec`. -/
def authenticateToken (env : Env) (roles : List String) (authHeader : Option String)
    (nowSec : Int) : AuthResult :=
  match authHeader.bind (fun h => (jsSplit h ' ').get? 1) with
  | none => .reject ⟨401, .error "Access token required"⟩
  | some token =>
    if token = "" then .reject ⟨401, .error "Access token required"⟩
    else
      match env.jwtVerify token env.JWT_SECRET nowSec with
      | .error _ => .reject ⟨403, .error "Invalid or expired token"⟩
      | .ok user =>
        if roles.length > 0 ∧ ¬ roles.contains user.role then
          .reject ⟨403, .error "Insufficient permissions"⟩
        else .next user

/-- The middleware `isAdmin`. -/
def isAdmin (env : Env) : Option String → Int → AuthResult := authenticateToken env ["admin"]

/-- The middleware `isLecturer`. -/
def isLecturer (env : Env) : Option String → Int → AuthResult :=
  authenticateToken env ["lecturer"]

/-- The middleware `isStudent`. -/
def isStudent (env : Env) : Option String → Int → AuthResult :=
  authenticateToken env ["student"]

/-- The middleware `isLecturerOrAdmin`. -/
def isLecturerOrAdmin (env : Env) : Option String → Int → AuthResult :=
  authenticateToken env ["lecturer", "admin"]

/-- The middleware `isStudentOrLecturer`. -/
def isStudentOrLecturer (env : Env) : Option String → Int → AuthResult :=
  authenticateToken env ["student", "lecturer"]

/-! ## `POST /api/auth/login` -/

/-- Body of a login request. -/
structure LoginBody where
  identifier : Param
  password : Param
  role : Param
deriving DecidableEq, Repr

/-- The query `SELECT * FROM users WHERE (email = $1 OR registration_number = $1)
AND role = $2 AND is_active = TRUE`. -/
def selectLoginUsers (st : Store) (identifier role : Param) : List User :=
  st.users.filter (fun u =>
    (match identifier.toText with
     | none => false
     | some i => decide (u.email = i) || decide (u.registration_number = some i)) &&
    (match role.toText with
     | none => false
     | some r => decide (u.role = r)) &&
    decide (u.is_active = some true))

/-- The destructuring `const { password: _, ...userWithoutPassword } = row`. -/
def User.withoutPassword (u : User) : UserWithoutPassword :=
  { id := u.id, registration_number := u.registration_number, email := u.email,
    first_name := u.first_name, last_name := u.last_name, role := u.role,
    department := u.department, phone_number := u.phone_number,
    profile_picture := u.profile_picture, is_active := u.is_active,
    created_at := u.created_at, updated_at := u.updated_at }

/-- The login handler; `nowSec` is the clock in seconds read by `jwt.sign`, whose
option `expiresIn: '24h'` sets `exp` 24 hours after `iat`. -/
def login (env : Env) (st : Store) (body : LoginBody) (nowSec : Int) : Response :=
  match selectLoginUsers st body.identifier body.role with
  | [] => ⟨401, .error "Invalid credentials"⟩
  | u :: _ =>
    match body.password with
    | .str password =>
      if env.bcryptCompare password u.password then
        let token := env.jwtSign
          { id := u.id, email := u.email, role := u.role,
            registration_number := u.registration_number,
            iat := nowSec, exp := nowSec + 24 * 60 * 60 } env.JWT_SECRET
        ⟨200, .loggedIn "Login successful" token u.withoutPassword⟩
      else ⟨401, .error "Invalid credentials"⟩
    | _ => internalError

/-- The claims login signs for a user row at the second `nowSec`. -/
def loginClaims (u : User) (nowSec : Int) : Claims :=
  { id := u.id, email := u.email, role := u.role,
    registration_number := u.registration_number,
    iat := nowSec, exp := nowSec + 24 * 60 * 60 }

/-- Login succeeds: it answers 200 with a token and a user. -/
def LoginSucceeds (env : Env) (st : Store) (body : LoginBody) (nowSec : Int) : Prop :=
  ∃ token user, login env st body nowSec = ⟨200, .loggedIn "Login successful" token user⟩

/-- The user row is an active identity of the requested role whose email or
registration number equals the presented identifier. -/
def IdentityMatches (u : User) (body : LoginBody) : Prop :=
  u.is_active = some true ∧ body.role.toText = some u.role ∧
    ∃ i, body.identifier.toText = some i ∧ (u.email = i ∨ u.registration_number = some i)

/-! ## `POST /api/student/mark-attendance` -/

/-- Body of a mark-attendance request. -/
structure MarkBody where
  qr_data : Param
  latitude : Param
  longitude : Param
deriving DecidableEq, Repr

/-- Clock readings of one mark-attendance request: `NOW()` in the session query,
`new Date()` in the handler, `NOW()` in the insert. -/
structure MarkClock where
  sessionQueryNow : Int
  jsNow : Int
  insertNow : Int
deriving DecidableEq, Repr

/-- The first element of `qr_data.split(':')`, bound to `sessionId`; `none` when
`qr_data` is not a string and the call throws. -/
def qrSessionId : Param → Option String
  | .str qr => (jsSplit qr ':').head?
  | _ => none

/-- The status computed by the handler: `sessionStart` is
`new Date(session_date + 'T' + start_time)`, `minutesLate` is
`(now - sessionStart) / (1000 * 60)` and an invalid date makes it `NaN`, for
which `minutesLate > 15` is false. -/
def attendanceStatus (env : Env) (session : Session) (now : Int) : String :=
  match env.newDate (env.showDate session.session_date ++ "T" ++ session.start_time) with
  | none => "present"
  | some sessionStart =>
    let minutesLate : ℚ := ((now - sessionStart : Int) : ℚ) / (1000 * 60)
    if minutesLate > 15 then "late" else "present"

/-- Lines 489-514 of the handler: compute the status, insert the record and
answer.  The session id and the student id are bound to `INTEGER` columns,
`req.ip` to `VARCHAR(45)` and `JSON.stringify({ latitude, longitude })` to
`JSONB`; a parameter the store cannot read for its column is an error raised
before the statement runs, which leaves the store as it was. -/
def markInsert (env : Env) (st : Store) (user : Claims) (body : MarkBody)
    (ip : Option String) (clk : MarkClock) (sessionId : String) (session : Session) :
    Response × Store :=
  let status := attendanceStatus env session clk.jsNow
  match (Param.str sessionId).toInt4, (Param.num user.id).toInt4 with
  | some k, some u =>
    if (Location.mk body.latitude body.longitude).jsonbAccepts && ipFits ip then
      match insertRecord st k u (some status) clk.insertNow "system" ip
          (some ⟨body.latitude, body.longitude⟩) with
      | (none, st1) => (internalError, st1)
      | (some row, st1) => (⟨200, .marked "Attendance marked successfully" row status⟩, st1)
    else (internalError, st)
  | _, _ => (internalError, st)

/-- Lines 479-487 of the handler: the check that attendance is not yet marked,
followed by the rest of the handler. -/
def markCheckExisting (env : Env) (st : Store) (user : Claims) (body : MarkBody)
    (ip : Option String) (clk : MarkClock) (sessionId : String) (session : Session) :
    Response × Store :=
  match selectRecords st (.str sessionId) (.num user.id) with
  | none => (internalError, st)
  | some (_ :: _) => (⟨400, .error "Attendance already marked"⟩, st)
  | some [] => markInsert env st user body ip clk sessionId session

/-- Lines 468-477 of the handler: the enrollment check, followed by the rest of
the handler. -/
def markCheckEnrollment (env : Env) (st : Store) (user : Claims) (body : MarkBody)
    (ip : Option String) (clk : MarkClock) (sessionId : String) (session : Session) :
    Response × Store :=
  match selectEnrollment st (.num user.id) session.course_id with
  | none => (internalError, st)
  | some [] => (⟨403, .error "Not enrolled in this course"⟩, st)
  | some (_ :: _) => markCheckExisting env st user body ip clk sessionId session

/-- The mark-attendance handler, run without interruption on the store. -/
def markAttendance (env : Env) (st : Store) (user : Claims) (body : MarkBody)
    (ip : Option String) (clk : MarkClock) : Response × Store :=
  match qrSessionId body.qr_data with
  | none => (internalError, st)
  | some sessionId =>
    match selectActiveSession st (.str sessionId) clk.sessionQueryNow with
    | none => (internalError, st)
    | some [] => (⟨400, .error "Invalid or expired QR code"⟩, st)
    | some (session :: _) => markCheckEnrollment env st user body ip clk sessionId session

/-- Where a mark-attendance handler stands between two store calls, with the
local variables it holds. -/
inductive MarkPc where
  /-- Before the session query. -/
  | start
  /-- After the session query, before the enrollment query. -/
  | gotSession (sessionId : String) (session : Session)
  /-- After the enrollment query, before the query for an existing record. -/
  | gotEnrollment (sessionId : String) (session : Session)
  /-- After the query for an existing record, before the insert. -/
  | gotNoRecord (sessionId : String) (session : Session)
  /-- The response was sent. -/
  | done (r : Response)
deriving DecidableEq, Repr

/-- One store call of a mark-attendance handler and the code up to the next
store call. -/
def markStep (env : Env) (user : Claims) (body : MarkBody) (ip : Option String)
    (clk : MarkClock) (st : Store) : MarkPc → MarkPc × Store
  | .start =>
    match qrSessionId body.qr_data with
    | none => (.done internalError, st)
    | some sessionId =>
      match selectActiveSession st (.str sessionId) clk.sessionQueryNow with
      | none => (.done internalError, st)
      | some [] => (.done ⟨400, .error "Invalid or expired QR code"⟩, st)
      | some (session :: _) => (.gotSession sessionId session, st)
  | .gotSession sessionId session =>
    match selectEnrollment st (.num user.id) session.course_id with
    | none => (.done internalError, st)
    | some [] => (.done ⟨403, .error "Not enrolled in this course"⟩, st)
    | some (_ :: _) => (.gotEnrollment sessionId session, st)
  | .gotEnrollment sessionId session =>
    match selectRecords st (.str sessionId) (.num user.id) with
    | none => (.done internalError, st)
    | some (_ :: _) => (.done ⟨400, .error "Attendance already marked"⟩, st)
    | some [] => (.gotNoRecord sessionId session, st)
  | .gotNoRecord sessionId session =>
    let r := markInsert env st user body ip clk sessionId session
    (.done r.1, r.2)
  | .done r => (.done r, st)

/-- A mark-attendance request in flight. -/
structure MarkRequest where
  user : Claims
  body : MarkBody
  ip : Option String
  clk : MarkClock
deriving DecidableEq, Repr

/-- Two mark-attendance handlers running on one store. -/
structure TwoMarks where
  store : Store
  first : MarkPc
  second : MarkPc
deriving DecidableEq, Repr

/-- One step of two concurrent handlers: `true` lets the first handler make its
next store call, `false` the second. -/
def stepTwo (env : Env) (a b : MarkRequest) (c : TwoMarks) (pick : Bool) : TwoMarks :=
  if pick then
    let r := markStep env a.user a.body a.ip a.clk c.store c.first
    { store := r.2, first := r.1, second := c.second }
  else
    let r := markStep env b.user b.body b.ip b.clk c.store c.second
    { store := r.2, first := c.first, second := r.1 }

/-- The run of two concurrent handlers under an interleaving of their store calls. -/
def runTwo (env : Env) (a b : MarkRequest) (st : Store) (schedule : List Bool) : TwoMarks :=
  schedule.foldl (stepTwo env a b) { store := st, first := .start, second := .start }

/-! ## `POST /api/lecturer/manual-attendance` -/

/-- Body of a manual-attendance request. -/
structure ManualBody where
  session_id : Param
  student_id : Param
  status : Param
deriving DecidableEq, Repr

/-- The manual-attendance handler, run without interruption on the store; `now`
is the store clock. -/
def manualAttendance (st : Store) (body : ManualBody) (now : Int) : Response × Store :=
  match selectRecords st body.session_id body.student_id with
  | none => (internalError, st)
  | some (existing :: _) =>
    match updateRecordStatus st body.status.toText now existing.id with
    | none => (internalError, st)
    | some st1 => (⟨200, .message "Attendance marked successfully"⟩, st1)
  | some [] =>
    match body.session_id.toInt4, body.student_id.toInt4 with
    | some k, some u =>
      match insertRecord st k u body.status.toText now "manual" none none with
      | (none, st1) => (internalError, st1)
      | (some _, st1) => (⟨200, .message "Attendance marked successfully"⟩, st1)
    | _, _ => (internalError, st)

/-! ## `POST /api/lecturer/create-session` -/

/-- Digit of `Number.prototype.toString(36)`: `0`-`9`, then `a`-`z`. -/
def base36Digit (d : Nat) : Char :=
  if d < 10 then Char.ofNat (48 + d) else Char.ofNat (87 + d)

/-- Digits of `n` in base 36 in front of `acc`; `fuel` bounds the number of digits. -/
def toBase36Aux : Nat → Nat → List Char → List Char
  | 0, _, acc => acc
  | fuel + 1, n, acc =>
    if n < 36 then base36Digit n :: acc
    else toBase36Aux fuel (n / 36) (base36Digit (n % 36) :: acc)

/-- The call `n.toString(36)` on a non-negative integer. -/
def toBase36 (n : Nat) : String :=
  String.mk (toBase36Aux (n + 1) n [])

/-- Body of a create-session request. -/
structure CreateSessionBody where
  course_id : Param
  session_date : Param
  start_time : Param
  end_time : Param
  latitude : Param
  longitude : Param
  radius : Param
deriving DecidableEq, Repr

/-- What a create-session request reads from outside: `Date.now()` for the
session id, `Math.random().toString(36).substr(2)`, `Date.now()` for the
timestamp, `new Date()` for the expiry and the store clock of the insert. -/
structure CreateClock where
  idNow : Nat
  randomTail : String
  timestampNow : Nat
  expiryBase : Int
  insertNow : Int
deriving DecidableEq, Repr

/-- A parameter bound to a nullable column with a text input function: the outer
`none` is a query error, the inner `none` is SQL `NULL`. -/
def nullableIn (f : String → Option String) (p : Param) : Option (Option String) :=
  match p.toText with
  | none => some none
  | some t => (f t).map some

/-- The constraints of `attendance_sessions` on a new row: primary key and the
two foreign keys. -/
def sessionAdmissible (st : Store) (row : Session) : Bool :=
  !(st.attendance_sessions.any (fun s => decide (s.id = row.id))) &&
  (match row.course_id with
   | none => true
   | some k => st.courses.any (fun c => decide (c.id = k))) &&
  (match row.lecturer_id with
   | none => true
   | some u => st.users.any (fun x => decide (x.id = u)))

/-- The `INSERT INTO attendance_sessions ... RETURNING *` of create-session.  A
parameter that its column type rejects fails the query before a row is formed;
a `NULL` in a `NOT NULL` column or a violated constraint fails it after the
sequence has advanced. -/
def insertSession (env : Env) (st : Store) (course_id lecturer_id session_date start_time
    end_time : Param) (qr_code_data : String) (qr_code_expiry : Int)
    (latitude longitude radius : Param) (now : Int) : Option Session × Store :=
  match course_id.toInt4, lecturer_id.toInt4, nullableIn env.dateIn session_date,
      nullableIn env.timeIn start_time, nullableIn env.timeIn end_time,
      nullableIn (env.decimalIn 10 8) latitude, nullableIn (env.decimalIn 11 8) longitude,
      radius.toInt4 with
  | some c, some l, some d, some t, some e, some la, some lo, some r =>
    let st1 : Store :=
      { st with attendance_sessions_id_seq := st.attendance_sessions_id_seq + 1 }
    match d, t with
    | some d1, some t1 =>
      let row : Session :=
        { id := st.attendance_sessions_id_seq, course_id := c, lecturer_id := l,
          session_date := d1, start_time := t1, end_time := e,
          qr_code_data := some qr_code_data, qr_code_expiry := some qr_code_expiry,
          latitude := la, longitude := lo, radius := r, status := some "active",
          created_at := now }
      if sessionAdmissible st row then
        (some row, { st1 with attendance_sessions := st.attendance_sessions ++ [row] })
      else (none, st1)
    | _, _ => (none, st1)
  | _, _, _, _, _, _, _, _ => (none, st)

/-- The session id minted by create-session:
`Date.now().toString(36) + Math.random().toString(36).substr(2)`. -/
def mintSessionId (clk : CreateClock) : String :=
  toBase36 clk.idNow ++ clk.randomTail

/-- The signed payload minted by create-session. -/
def mintQrData (env : Env) (clk : CreateClock) : String :=
  let sessionId := mintSessionId clk
  let timestamp := clk.timestampNow
  let signature := env.hmacSha256Hex env.JWT_SECRET (sessionId ++ ":" ++ toString timestamp)
  sessionId ++ ":" ++ toString timestamp ++ ":" ++ signature

/-- The create-session handler; `setMinutes(getMinutes() + 30)` moves the expiry
30 minutes past `new Date()`. -/
def createSession (env : Env) (st : Store) (user : Claims) (body : CreateSessionBody)
    (clk : CreateClock) : Response × Store :=
  let qrData := mintQrData env clk
  let qrCodeUrl := env.toDataURL qrData
  let expiryTime := clk.expiryBase + 30 * 60 * 1000
  match insertSession env st body.course_id (.num user.id) body.session_date
      body.start_time body.end_time qrData expiryTime body.latitude body.longitude
      (if body.radius.truthy then body.radius else .num 100) clk.insertNow with
  | (none, st1) => (internalError, st1)
  | (some row, st1) =>
    (⟨200, .sessionCreated "Attendance session created" row qrCodeUrl qrData⟩, st1)

/-! ## `GET /api/lecturer/session/:sessionId/attendance` -/

/-- Insertion of `x` into a list ordered by `key`, before the first element whose
key is not smaller. -/
def insertByKey {α : Type} (key : α → Int) (x : α) : List α → List α
  | [] => [x]
  | y :: ys => if key x ≤ key y then x :: y :: ys else y :: insertByKey key x ys

/-- The rows in ascending order of `key`; rows with equal keys keep their order. -/
def sortByKey {α : Type} (key : α → Int) : List α → List α
  | [] => []
  | x :: xs => insertByKey key x (sortByKey key xs)

/-- The query of the listing: the records of the session joined with their
users, ordered by `marked_at`; `none` is a query error. -/
def selectSessionAttendance (env : Env) (st : Store) (sessionId : Param) :
    Option (List AttendanceListRow) :=
  match sessionId.toInt4 with
  | none => none
  | some k =>
    some ((sortByKey (fun ru : AttendanceRecord × User => ru.1.marked_at)
      ((st.attendance_records.filter (fun r => sqlEq r.session_id k)).flatMap (fun r =>
        (st.users.filter (fun u => sqlEq r.student_id (some u.id))).map (fun u => (r, u))))).map
      (fun ru =>
        { id := ru.1.id, registration_number := ru.2.registration_number,
          first_name := ru.2.first_name, last_name := ru.2.last_name,
          status := ru.1.status, marked_time := env.toCharTime ru.1.marked_at,
          device_info := ru.1.device_info }))

/-- The handler of the session attendance listing; it does not write. -/
def sessionAttendance (env : Env) (st : Store) (sessionId : String) : Response × Store :=
  match selectSessionAttendance env st (.str sessionId) with
  | none => (internalError, st)
  | some rows => (⟨200, .attendanceList rows⟩, st)

/-! ## Routes: a middleware in front of a handler -/

/-- The route `POST /api/student/mark-attendance`, gated by `isStudent`. -/
def routeMarkAttendance (env : Env) (st : Store) (authHeader : Option String)
    (nowSec : Int) (body : MarkBody) (ip : Option String) (clk : MarkClock) :
    Response × Store :=
  match isStudent env authHeader nowSec with
  | .reject r => (r, st)
  | .next user => markAttendance env st user body ip clk

/-- The route `POST /api/lecturer/create-session`, gated by `isLecturer`. -/
def routeCreateSession (env : Env) (st : Store) (authHeader : Option String)
    (nowSec : Int) (body : CreateSessionBody) (clk : CreateClock) : Response × Store :=
  match isLecturer env authHeader nowSec with
  | .reject r => (r, st)
  | .next user => createSession env st user body clk

/-- The route `POST /api/lecturer/manual-attendance`, gated by `isLecturer`. -/
def routeManualAttendance (env : Env) (st : Store) (authHeader : Option String)
    (nowSec : Int) (body : ManualBody) (now : Int) : Response × Store :=
  match isLecturer env authHeader nowSec with
  | .reject r => (r, st)
  | .next _ => manualAttendance st body now

/-- The route `GET /api/lecturer/session/:sessionId/attendance`, gated by
`isLecturer`. -/
def routeSessionAttendance (env : Env) (st : Store) (authHeader : Option String)
    (nowSec : Int) (sessionId : String) : Response × Store :=
  match isLecturer env authHeader nowSec with
  | .reject r => (r, st)
  | .next _ => sessionAttendance env st sessionId

/-- A request to one of the routes that read or write roll-call events and
attendance records. -/
inductive AttendanceRequest where
  | markAttendance (body : MarkBody) (ip : Option String) (clk : MarkClock)
  | createSession (body : CreateSessionBody) (clk : CreateClock)
  | manualAttendance (body : ManualBody) (now : Int)
  | sessionAttendance (sessionId : String)
deriving DecidableEq, Repr

/-- The response to a request and the store after it. -/
def handleRequest (env : Env) (st : Store) (authHeader : Option String) (nowSec : Int) :
    AttendanceRequest → Response × Store
  | .markAttendance body ip clk => routeMarkAttendance env st authHeader nowSec body ip clk
  | .createSession body clk => routeCreateSession env st authHeader nowSec body clk
  | .manualAttendance body now => routeManualAttendance env st authHeader nowSec body now
  | .sessionAttendance sessionId => routeSessionAttendance env st authHeader nowSec sessionId

/-! ## `POST /api/auth/register` -/

/-- Body of a register request. -/
structure RegisterBody where
  registration_number : Param
  email : Param
  password : Param
  first_name : Param
  last_name : Param
  role : Param
  department : Param
  phone_number : Param
deriving DecidableEq, Repr

/-- The query `SELECT * FROM users WHERE email = $1 OR registration_number = $2`. -/
def selectUserExists (st : Store) (email registration_number : Param) : List User :=
  st.users.filter (fun u =>
    (match email.toText with
     | none => false
     | some e => decide (u.email = e)) ||
    (match registration_number.toText with
     | none => false
     | some r => decide (u.registration_number = some r)))

/-- PostgreSQL's coercion of a text to `VARCHAR(n)`: a text of more than `n`
characters is cut to `n` characters when every character beyond them is a
space, and is the error `value too long` otherwise. -/
def varcharIn (n : Nat) (t : String) : Option String :=
  if t.length ≤ n then some t
  else if (t.toList.drop n).all (fun c => decide (c = ' ')) then
    some (String.mk (t.toList.take n))
  else none

/-- The constraints of `users` on a new row: primary key, the role check and
the two unique columns. -/
def userAdmissible (st : Store) (row : User) : Bool :=
  !(st.users.any (fun u => decide (u.id = row.id))) &&
  decide (row.role = "student" ∨ row.role = "lecturer" ∨ row.role = "admin") &&
  !(st.users.any (fun u => decide (u.email = row.email))) &&
  !(st.users.any (fun u =>
      decide (u.registration_number.isSome ∧ u.registration_number = row.registration_number)))

/-- The eight parameters of the `INSERT` of register coerced to the widths of
their columns; `none` when one of them is too long. -/
def userColumnsIn (registration_number email : Param) (password : String)
    (first_name last_name role department phone_number : Param) :
    Option (Option String × Option String × String × Option String × Option String ×
      Option String × Option String × Option String) :=
  (nullableIn (varcharIn 50) registration_number).bind fun rn =>
  (nullableIn (varcharIn 100) email).bind fun e =>
  (varcharIn 255 password).bind fun pw =>
  (nullableIn (varcharIn 50) first_name).bind fun f =>
  (nullableIn (varcharIn 50) last_name).bind fun l =>
  (nullableIn (varcharIn 20) role).bind fun r =>
  (nullableIn (varcharIn 100) department).bind fun d =>
  (nullableIn (varcharIn 20) phone_number).bind fun ph =>
  some (rn, e, pw, f, l, r, d, ph)

/-- The `INSERT INTO users ... RETURNING *` of register, at the store time `now`.
A value too long for its column is an error raised before the statement runs,
which leaves the sequence alone; a `NULL` in a `NOT NULL` column or a violated
constraint fails the statement after the sequence has advanced. -/
def insertUser (st : Store) (registration_number email : Param) (password : String)
    (first_name last_name role department phone_number : Param) (now : Int) :
    Option User × Store :=
  match userColumnsIn registration_number email password first_name last_name role
      department phone_number with
  | none => (none, st)
  | some (rn, e, pw, f, l, r, d, ph) =>
    let st1 : Store := { st with users_id_seq := st.users_id_seq + 1 }
    match e, f, l, r with
    | some e, some f, some l, some r =>
      let row : User :=
        { id := st.users_id_seq, registration_number := rn,
          email := e, password := pw, first_name := f, last_name := l, role := r,
          department := d, phone_number := ph,
          profile_picture := none, is_active := some true, created_at := now,
          updated_at := now }
      if userAdmissible st row then (some row, { st1 with users := st.users ++ [row] })
      else (none, st1)
    | _, _, _, _ => (none, st1)

/-- The register handler; `salt` is the result of `bcrypt.genSalt(10)`. -/
def register (env : Env) (st : Store) (body : RegisterBody) (salt : String) (now : Int) :
    Response × Store :=
  match selectUserExists st body.email body.registration_number with
  | _ :: _ => (⟨400, .error "User already exists"⟩, st)
  | [] =>
    match body.password with
    | .str password =>
      let hashedPassword := env.bcryptHash password salt
      match insertUser st body.registration_number body.email hashedPassword
          body.first_name body.last_name body.role body.department body.phone_number
          now with
      | (none, st1) => (internalError, st1)
      | (some row, st1) =>
        (⟨201, .registered "User registered successfully" row.withoutPassword⟩, st1)
    | _ => (internalError, st)

/-- The response user is the user row with every field but the password. -/
def SameButPassword (u : User) (r : UserWithoutPassword) : Prop :=
  r.id = u.id ∧ r.registration_number = u.registration_number ∧ r.email = u.email ∧
  r.first_name = u.first_name ∧ r.last_name = u.last_name ∧ r.role = u.role ∧
  r.department = u.department ∧ r.phone_number = u.phone_number ∧
  r.profile_picture = u.profile_picture ∧ r.is_active = u.is_active ∧
  r.created_at = u.created_at ∧ r.updated_at = u.updated_at

/-! ## `POST /api/admin/enrollments` -/

/-- Body of an enroll request. -/
structure EnrollBody where
  student_id : Param
  course_id : Param
deriving DecidableEq, Repr

/-- The row is an enrollment of the pair `(s, c)`, in the sense of the unique
index on `(student_id, course_id)`. -/
def enrollmentOf (s c : Option Int) (e : Enrollment) : Bool :=
  sqlEq e.student_id s && sqlEq e.course_id c

/-- The constraints of `enrollments` on a new row without a conflict: primary key
and the two foreign keys. -/
def enrollmentAdmissible (st : Store) (row : Enrollment) : Bool :=
  !(st.enrollments.any (fun e => decide (e.id = row.id))) &&
  (match row.student_id with
   | none => true
   | some u => st.users.any (fun x => decide (x.id = u))) &&
  (match row.course_id with
   | none => true
   | some c => st.courses.any (fun x => decide (x.id = c)))

/-- The enroll handler at the store time `now`: `INSERT INTO enrollments
(student_id, course_id) ... ON CONFLICT (student_id, course_id) DO UPDATE SET
status = 'active', enrollment_date = CURRENT_TIMESTAMP RETURNING *`.  The
sequence advances whenever the statement runs. -/
def enroll (st : Store) (body : EnrollBody) (now : Int) : Response × Store :=
  match body.student_id.toInt4, body.course_id.toInt4 with
  | some s, some c =>
    let st1 : Store := { st with enrollments_id_seq := st.enrollments_id_seq + 1 }
    match st.enrollments.filter (enrollmentOf s c) with
    | existing :: _ =>
      (⟨200, .enrolled "Student enrolled successfully"
          { existing with status := some "active", enrollment_date := now }⟩,
        { st1 with enrollments := st.enrollments.map (fun e =>
            if enrollmentOf s c e then
              { e with status := some "active", enrollment_date := now }
            else e) })
    | [] =>
      let row : Enrollment :=
        { id := st.enrollments_id_seq, student_id := s, course_id := c,
          enrollment_date := now, status := some "active" }
      if enrollmentAdmissible st row then
        (⟨200, .enrolled "Student enrolled successfully" row⟩,
          { st1 with enrollments := st.enrollments ++ [row] })
      else (internalError, st1)
  | _, _ => (internalError, st)

/-- Number of enrollments of the pair `(student_id, course_id) = (s, c)`. -/
def enrollmentCount (st : Store) (s c : Int) : Nat :=
  (st.enrollments.filter (enrollmentOf (some s) (some c))).length

/-- The uniqueness invariant of `enrollments`: at most one row for each pair. -/
def UniqueEnrollments (st : Store) : Prop :=
  ∀ s c : Int, enrollmentCount st s c ≤ 1

/-! ## `GET /api/admin/users` -/

/-- Query string of the user listing: the two filters as text, `page` and
`limit` as the numbers their text stands for, each absent or present. -/
structure UsersQuery where
  role : Option String
  department : Option String
  page : Option Nat
  limit : Option Nat
deriving DecidableEq, Repr

/-- JavaScript truthiness of an optional text: present and not empty. -/
def truthyText : Option String → Bool
  | none => false
  | some t => decide (t ≠ "")

/-- The `WHERE` clause of the page query: `role = $1` when `role` is truthy,
`department = $n` when `department` is truthy. -/
def pageFilter (q : UsersQuery) (u : User) : Bool :=
  (if truthyText q.role then decide (some u.role = q.role) else true) &&
  (if truthyText q.department then
    decide (u.department.isSome ∧ u.department = q.department)
   else true)

/-- The `WHERE` clause of the count query: `role = $1` when `role` is truthy. -/
def countFilter (q : UsersQuery) (u : User) : Bool :=
  if truthyText q.role then decide (some u.role = q.role) else true

/-- The columns the page query selects. -/
def User.listRow (u : User) : UserListRow :=
  { id := u.id, registration_number := u.registration_number, email := u.email,
    first_name := u.first_name, last_name := u.last_name, role := u.role,
    department := u.department, phone_number := u.phone_number,
    profile_picture := u.profile_picture, is_active := u.is_active,
    created_at := u.created_at }

/-- The value of `Math.ceil(count / limit)`: no finite number when `limit` is 0. -/
def totalPagesOf (count limit : Nat) : Option Nat :=
  if limit = 0 then none else some (Int.toNat ⌈((count : ℚ) / (limit : ℚ))⌉)

/-- The user listing handler: `page` defaults to 1 and `limit` to 20, the page
is ordered by `created_at` descending, and a negative `OFFSET` is an error of
the store. -/
def adminUsers (st : Store) (q : UsersQuery) : Response :=
  let page := q.page.getD 1
  let limit := q.limit.getD 20
  let offset : Int := ((page : Int) - 1) * (limit : Int)
  if offset < 0 then internalError
  else
    let users := (((sortByKey (fun u : User => -u.created_at)
      (st.users.filter (pageFilter q))).drop offset.toNat).take limit).map User.listRow
    let count := (st.users.filter (countFilter q)).length
    ⟨200, .userPage users
      { page := page, limit := limit, total := count,
        totalPages := totalPagesOf count limit }⟩

/-! ## Sequences of attendance operations -/

/-- A request that writes `attendance_records`. -/
inductive AttendanceOp where
  /-- A self-service record: `POST /api/student/mark-attendance`. -/
  | mark (user : Claims) (body : MarkBody) (ip : Option String) (clk : MarkClock)
  /-- A manual override: `POST /api/lecturer/manual-attendance`. -/
  | manual (body : ManualBody) (now : Int)
deriving DecidableEq, Repr

/-- The store after one attendance operation. -/
def AttendanceOp.apply (env : Env) (st : Store) : AttendanceOp → Store
  | .mark user body ip clk => (markAttendance env st user body ip clk).2
  | .manual body now => (manualAttendance st body now).2

/-- The store after a sequence of attendance operations. -/
def runOps (env : Env) (st : Store) (ops : List AttendanceOp) : Store :=
  ops.foldl (AttendanceOp.apply env) st

/-- Number of attendance records of the pair `(session_id, student_id) = (k, u)`. -/
def recordCount (st : Store) (k u : Int) : Nat :=
  (st.attendance_records.filter (fun r =>
    decide (r.session_id = some k ∧ r.student_id = some u))).length

/-- Number of attendance records whose `session_id` and `student_id` are the given
values, `NULL` (`none`) included. -/
def pairCount (st : Store) (k u : Option Int) : Nat :=
  (st.attendance_records.filter (fun r =>
    decide (r.session_id = k ∧ r.student_id = u))).length

/-- The row test of the session query of mark-attendance for the id `k` at the
store time `now`: `id = k AND status = 'active' AND qr_code_expiry > now`. -/
def liveSession (k now : Int) (s : Session) : Bool :=
  sqlEq (some s.id) (some k) && decide (s.status = some "active") &&
    (match s.qr_code_expiry with
     | some e => decide (e > now)
     | none => false)

/-- The store with every roll-call event rewritten by `f`. -/
def mapSessions (f : Session → Session) (st : Store) : Store :=
  { st with attendance_sessions := st.attendance_sessions.map f }

/-- What the caller of mark-attendance learns: the status code, the error
message if the body is an error, the attendance status if it is a success. -/
def outcome (r : Response) : Nat × Option String × Option String :=
  match r.body with
  | .error msg => (r.status, some msg, none)
  | .marked _ _ status => (r.status, none, some status)
  | _ => (r.status, none, none)

/-- A rewriting of the events keeps what mark-attendance reads of an event: id,
status, expiry, course, date and start time. -/
def KeepsGate (f : Session → Session) : Prop :=
  ∀ s, (f s).id = s.id ∧ (f s).status = s.status ∧
    (f s).qr_code_expiry = s.qr_code_expiry ∧ (f s).course_id = s.course_id ∧
    (f s).session_date = s.session_date ∧ (f s).start_time = s.start_time

/-- A character of `Number.prototype.toString(36)`: `0`-`9` or `a`-`z`. -/
def isBase36Char (c : Char) : Bool :=
  isDecDigit c || decide (97 ≤ c.toNat ∧ c.toNat ≤ 122)

/-- A character of a lower-case hexadecimal digest: `0`-`9` or `a`-`f`. -/
def isHexChar (c : Char) : Bool :=
  isDecDigit c || decide (97 ≤ c.toNat ∧ c.toNat ≤ 102)

/-- The uniqueness invariant: at most one attendance record for each
`(session_id, student_id)` pair. -/
def UniquePairs (st : Store) : Prop :=
  ∀ k u : Int, recordCount st k u ≤ 1

/-! ## Example data -/

/-- The claims of the student's token. -/
def studentClaims : Claims :=
  { id := 7, email := "student@edu.test", role := "student",
    registration_number := some "REG-007", iat := 1705300000, exp := 1705386400 }

/-- The claims of the lecturer's token. -/
def lecturerClaims : Claims :=
  { id := 2, email := "lecturer@edu.test", role := "lecturer",
    registration_number := none, iat := 1705300000, exp := 1705386400 }

/-- A toy keyed digest in lower-case hexadecimal, standing in for HMAC-SHA256. -/
def toyMac (key msg : String) : String :=
  String.mk (Nat.toDigits 16
    ((key ++ msg).toList.foldl (fun a c => (a * 31 + c.toNat) % 4294967296) 7))

/-- A toy token check: the tokens `token-` followed by the email of the student or
of the lecturer carry their claims under the key `secret` and expire at the
second `exp` of those claims; every other token is rejected. -/
def toyVerify (token secret : String) (nowSec : Int) : JwtResult :=
  if token = "token-student@edu.test" ∧ secret = "secret" then
    if nowSec ≥ studentClaims.exp then .error .TokenExpiredError else .ok studentClaims
  else if token = "token-lecturer@edu.test" ∧ secret = "secret" then
    if nowSec ≥ lecturerClaims.exp then .error .TokenExpiredError else .ok lecturerClaims
  else .error .JsonWebTokenError

/-- Name of the day of the week of a date of the Gregorian calendar, as
`Date.prototype.toString` prints it. -/
def weekdayName (y m d : Nat) : String :=
  let t := [0, 3, 2, 5, 0, 3, 5, 1, 4, 6, 2, 4]
  let y1 := if m < 3 then y - 1 else y
  ["Sun", "Mon", "Tue", "Wed", "Thu", "Fri", "Sat"].getD
    ((y1 + y1 / 4 - y1 / 100 + y1 / 400 + t.getD (m - 1) 0 + d) % 7) ""

/-- Name of a month as `Date.prototype.toString` prints it. -/
def monthName (m : Nat) : String :=
  ["Jan", "Feb", "Mar", "Apr", "May", "Jun", "Jul", "Aug", "Sep", "Oct", "Nov",
   "Dec"].getD (m - 1) ""

/-- The text a `DATE` column takes inside a template literal on a server whose
time zone is UTC: the driver hands the column `YYYY-MM-DD` over as the
JavaScript `Date` of local midnight, and the template literal prints it with
`Date.prototype.toString`. -/
def dateText (date : String) : String :=
  match date.toList with
  | [y1, y2, y3, y4, s1, m1, m2, s2, d1, d2] =>
    if [y1, y2, y3, y4, m1, m2, d1, d2].all isDecDigit ∧ s1 = '-' ∧ s2 = '-' then
      let y := (y1.toNat - 48) * 1000 + (y2.toNat - 48) * 100 + (y3.toNat - 48) * 10 +
        (y4.toNat - 48)
      let m := (m1.toNat - 48) * 10 + (m2.toNat - 48)
      let d := (d1.toNat - 48) * 10 + (d2.toNat - 48)
      if 1 ≤ m ∧ m ≤ 12 ∧ 1 ≤ d ∧ d ≤ 31 then
        weekdayName y m d ++ " " ++ monthName m ++ " " ++ String.mk [d1, d2] ++ " " ++
          String.mk [y1, y2, y3, y4] ++ " 00:00:00 GMT+0000 (Coordinated Universal Time)"
      else "Invalid Date"
    else "Invalid Date"
  | _ => "Invalid Date"

/-- An environment with toy library functions.  The driver hands a `DATE` over
as a JavaScript `Date`, whose text in a template literal is `dateText`; of the
texts the examples pass to `new Date` the one that is a date-time is
`2024-01-15T09:00:00` (epoch millisecond 1705309200000), and every other text,
the text of a `Date` followed by `T09:00:00` among them, gives `Invalid Date`. -/
def sampleEnv : Env :=
  { JWT_SECRET := "secret"
    jwtSign := fun c _ => "token-" ++ c.email
    hmacSha256Hex := toyMac
    jwtVerify := toyVerify
    bcryptCompare := fun p h => decide (h = "hash-of-" ++ p)
    newDate := fun t => if t = "2024-01-15T09:00:00" then some 1705309200000 else none
    showDate := dateText
    toDataURL := fun d => "data:image/png;" ++ d
    dateIn := fun d => some d
    timeIn := fun t => some t
    decimalIn := fun _ _ d => some d
    toCharTime := fun t => toString (t / 1000 % 86400)
    bcryptHash := fun p _ => "hash-of-" ++ p }

/-- A lecturer. -/
def sampleLecturer : User :=
  { id := 2, registration_number := none, email := "lecturer@edu.test",
    password := "hash-of-chalk", first_name := "Ada", last_name := "Lovelace",
    role := "lecturer", department := none, phone_number := none,
    profile_picture := none, is_active := some true, created_at := 0, updated_at := 0 }

/-- A student. -/
def sampleStudent : User :=
  { id := 7, registration_number := some "REG-007", email := "student@edu.test",
    password := "hash-of-pencil", first_name := "Alan", last_name := "Turing",
    role := "student", department := none, phone_number := none,
    profile_picture := none, is_active := some true, created_at := 0, updated_at := 0 }

/-- The course the lecturer teaches. -/
def sampleCourse : Course :=
  { id := 3, course_code := "CS101", course_name := "Computing", department := none,
    credit_hours := some 3, lecturer_id := some 2, semester := none,
    academic_year := none, created_at := 0 }

/-- The roll-call event with id 1: starts 2024-01-15 09:00:00, expires 30 minutes
later (epoch millisecond 1705311000000). -/
def sampleSession : Session :=
  { id := 1, course_id := some 3, lecturer_id := some 2, session_date := "2024-01-15",
    start_time := "09:00:00", end_time := none, qr_code_data := none,
    qr_code_expiry := some 1705311000000, latitude := none, longitude := none,
    radius := some 100, status := some "active", created_at := 1705309200000 }

/-- A store with the lecturer, the student, the course, an enrollment of the
student with the given status, the event, and no attendance record. -/
def sampleStoreWith (enrollmentStatus : String) : Store :=
  { users := [sampleLecturer, sampleStudent]
    courses := [sampleCourse]
    enrollments := [{ id := 1, student_id := some 7, course_id := some 3,
                      enrollment_date := 0, status := some enrollmentStatus }]
    attendance_sessions := [sampleSession]
    attendance_records := []
    users_id_seq := 8
    courses_id_seq := 4
    enrollments_id_seq := 2
    attendance_sessions_id_seq := 2
    attendance_records_id_seq := 1 }

/-- The store in which the student is actively enrolled. -/
def sampleStore : Store := sampleStoreWith "active"

/-- A mark-attendance body with the given payload and no location. -/
def markBodyOf (qr : String) : MarkBody :=
  { qr_data := .str qr, latitude := .null, longitude := .null }

/-- A clock all of whose readings are the same instant. -/
def clockAt (now : Int) : MarkClock :=
  { sessionQueryNow := now, jsNow := now, insertNow := now }

/-- The payload used by the examples for event 1. -/
def sampleQr : String := "1:1705309200000:5ca1ab1e"

/-- The store after the student marked attendance for event 1 at 09:10. -/
def sampleMarkedStore : Store :=
  (markAttendance sampleEnv sampleStore studentClaims (markBodyOf sampleQr) none
    (clockAt 1705309800000)).2

/-- The store before any roll-call event was created. -/
def sampleStoreNoSession : Store :=
  { sampleStore with attendance_sessions := [], attendance_sessions_id_seq := 1 }

/-- The create-session body for the course on 2024-01-15 at 09:00:00. -/
def sampleCreateBody : CreateSessionBody :=
  { course_id := .num 3, session_date := .str "2024-01-15", start_time := .str "09:00:00",
    end_time := .null, latitude := .null, longitude := .null, radius := .null }

/-- Readings of a create-session request at 09:00:00 (epoch millisecond
1705309200000, `lrep2g00` in base 36) with random tail `k3j9x`. -/
def sampleCreateClock : CreateClock :=
  { idNow := 1705309200000, randomTail := "k3j9x", timestampNow := 1705309200000,
    expiryBase := 1705309200000, insertNow := 1705309200000 }

/-- The lecturer creates the roll-call event at 09:00:00. -/
def sampleCreated : Response × Store :=
  createSession sampleEnv sampleStoreNoSession lecturerClaims sampleCreateBody
    sampleCreateClock

/-- The student's first of two concurrent submissions for event 1. -/
def raceFirst : MarkRequest :=
  { user := studentClaims, body := markBodyOf sampleQr, ip := none,
    clk := clockAt 1705309800000 }

/-- The student's second concurrent submission, one millisecond later. -/
def raceSecond : MarkRequest :=
  { user := studentClaims, body := markBodyOf sampleQr, ip := none,
    clk := clockAt 1705309800001 }

/-- The record written for the student at 09:10:00. -/
def sampleRecord : AttendanceRecord :=
  { id := 1, session_id := some 1, student_id := some 7, marked_at := 1705309800000,
    status := some "present", marked_by := "system", ip_address := none,
    device_info := none, location_data := some ⟨.null, .null⟩ }

/-- A second student whose registration number is the first student's email. -/
def sampleTwin : User :=
  { id := 9, registration_number := some "student@edu.test", email := "twin@edu.test",
    password := "hash-of-eraser", first_name := "Grace", last_name := "Hopper",
    role := "student", department := none, phone_number := none,
    profile_picture := none, is_active := some true, created_at := 0, updated_at := 0 }

/-- The sample store with the given user rows. -/
def sampleStoreUsers (users : List User) : Store :=
  { sampleStore with users := users }

/-- The row of the event the lecturer creates at 09:00:00. -/
def sampleCreatedRow : Session :=
  { id := 1, course_id := some 3, lecturer_id := some 2, session_date := "2024-01-15",
    start_time := "09:00:00", end_time := none,
    qr_code_data := some "lrep2g00k3j9x:1705309200000:87e2ffd9",
    qr_code_expiry := some 1705311000000, latitude := none, longitude := none,
    radius := some 100, status := some "active", created_at := 1705309200000 }

/-- Readings of a create-session request whose `new Date()` for the expiry comes
42 ms after the `Date.now()` of the payload timestamp. -/
def sampleLateClock : CreateClock :=
  { idNow := 1705309200000, randomTail := "k3j9x", timestampNow := 1705309200000,
    expiryBase := 1705309200042, insertNow := 1705309200042 }

/-- A mark-attendance body with a location. -/
def sampleLocatedBody : MarkBody :=
  { qr_data := .str sampleQr, latitude := .str "-1.2921", longitude := .str "36.8219" }

/-- A register request for a new student. -/
def sampleRegisterBody : RegisterBody :=
  { registration_number := .str "REG-010", email := .str "new@edu.test",
    password := .str "quill", first_name := .str "Edsger", last_name := .str "Dijkstra",
    role := .str "student", department := .str "Computing", phone_number := .null }

/-- The row the store holds after the sample register request at time 1705320000000. -/
def sampleRegisteredUser : User :=
  { id := 8, registration_number := some "REG-010", email := "new@edu.test",
    password := "hash-of-quill", first_name := "Edsger", last_name := "Dijkstra",
    role := "student", department := some "Computing", phone_number := none,
    profile_picture := none, is_active := some true, created_at := 1705320000000,
    updated_at := 1705320000000 }

/-- Three students, one of the department Mathematics and two of Computing. -/
def sampleDeptStore : Store :=
  sampleStoreUsers
    [{ sampleStudent with id := 11, registration_number := some "REG-011",
                          email := "m@edu.test", department := some "Mathematics",
                          created_at := 1705000000000 },
     { sampleStudent with id := 12, registration_number := some "REG-012",
                          email := "c1@edu.test", department := some "Computing",
                          created_at := 1705000001000 },
     { sampleStudent with id := 13, registration_number := some "REG-013",
                          email := "c2@edu.test", department := some "Computing",
                          created_at := 1705000002000 }]

/-- The listing of the students of Mathematics, one row a page. -/
def sampleUsersQuery : UsersQuery :=
  { role := some "student", department := some "Mathematics", page := some 1,
    limit := some 1 }

/-! ## Theorems -/

/-- SQL equality with a non-null value holds exactly for that value. -/
theorem sqlEq_some_iff (a : Option Int) (k : Int) : sqlEq a (some k) = true ↔ a = some k := by
  cases a <;> simp [sqlEq]

/-- An insert, successful or not, keeps the uniqueness invariant. -/
theorem insertRecord_uniquePairs (st : Store) (sid uid : Option Int) (status : Option String)
    (at_ : Int) (by_ : String) (ip : Option String) (loc : Option Location)
    (h : UniquePairs st) :
    UniquePairs (insertRecord st sid uid status at_ by_ ip loc).2 := by
  intro k u
  unfold insertRecord
  simp only []
  split
  · rename_i hadm
    simp only [recordCount, List.filter_append, List.length_append]
    by_cases hrow : sid = some k ∧ uid = some u
    · obtain ⟨h1, h2⟩ := hrow
      subst h1 h2
      simp only [recordAdmissible, Bool.and_eq_true, Bool.not_eq_true', List.any_eq_false] at hadm
      have hnone : st.attendance_records.filter (fun r =>
          decide (r.session_id = some k ∧ r.student_id = some u)) = [] := by
        rw [List.filter_eq_nil_iff]
        intro r hr
        have := hadm.2 r hr
        simp only [Bool.and_eq_true, sqlEq_some_iff, not_and] at this
        simpa using this
      rw [hnone]
      simp
    · have : List.filter (fun r : AttendanceRecord =>
          decide (r.session_id = some k ∧ r.student_id = some u))
          [{ id := st.attendance_records_id_seq, session_id := sid, student_id := uid,
             marked_at := at_, status := status, marked_by := by_, ip_address := ip,
             device_info := none, location_data := loc }] = [] := by
        simp [List.filter_cons, hrow]
      rw [this]
      simpa [recordCount] using h k u
  · simpa [recordCount] using h k u

/-- An insert known by its result keeps the uniqueness invariant. -/
theorem insertRecord_uniquePairs_of_eq {st st1 : Store} {sid uid : Option Int}
    {status : Option String} {at_ : Int} {by_ : String} {ip : Option String}
    {loc : Option Location} {o : Option AttendanceRecord} (h : UniquePairs st)
    (hi : insertRecord st sid uid status at_ by_ ip loc = (o, st1)) : UniquePairs st1 := by
  have := insertRecord_uniquePairs st sid uid status at_ by_ ip loc h
  rw [hi] at this
  exact this

/-- An update of status and time keeps the uniqueness invariant. -/
theorem updateRecordStatus_uniquePairs (st st1 : Store) (status : Option String)
    (now id : Int) (h : UniquePairs st) (hu : updateRecordStatus st status now id = some st1) :
    UniquePairs st1 := by
  intro k u
  unfold updateRecordStatus at hu
  split at hu
  · exact absurd hu (by simp)
  · simp only [Option.some.injEq] at hu
    subst hu
    have := h k u
    simp only [recordCount, List.filter_map, List.length_map] at this ⊢
    refine le_trans (le_of_eq ?_) this
    congr 1
    apply List.filter_congr
    intro r _
    simp only [Function.comp]
    split <;> rfl

/-- The last part of the handler leaves the store alone or performs one insert. -/
theorem markInsert_store (env : Env) (st : Store) (user : Claims) (body : MarkBody)
    (ip : Option String) (clk : MarkClock) (sessionId : String) (session : Session) :
    (markInsert env st user body ip clk sessionId session).2 = st ∨
    ∃ sid uid status at_ by_ ipa loc,
      (markInsert env st user body ip clk sessionId session).2 =
        (insertRecord st sid uid status at_ by_ ipa loc).2 := by
  unfold markInsert
  simp only []
  split
  · rename_i k u _ _
    split
    · right
      refine ⟨k, u, some (attendanceStatus env session clk.jsNow), clk.insertNow, "system",
        ip, some ⟨body.latitude, body.longitude⟩, ?_⟩
      generalize insertRecord st k u (some (attendanceStatus env session clk.jsNow))
        clk.insertNow "system" ip (some ⟨body.latitude, body.longitude⟩) = r
      obtain ⟨o, s1⟩ := r
      cases o <;> rfl
    · left; rfl
  · left; rfl

/-- The handler leaves the store alone or performs one insert. -/
theorem markAttendance_store (env : Env) (st : Store) (user : Claims) (body : MarkBody)
    (ip : Option String) (clk : MarkClock) :
    (markAttendance env st user body ip clk).2 = st ∨
    ∃ sid uid status at_ by_ ipa loc,
      (markAttendance env st user body ip clk).2 =
        (insertRecord st sid uid status at_ by_ ipa loc).2 := by
  unfold markAttendance markCheckEnrollment markCheckExisting
  repeat' split
  all_goals first
    | (left; rfl)
    | exact markInsert_store _ _ _ _ _ _ _ _

/-- The mark-attendance handler keeps the uniqueness invariant. -/
theorem markAttendance_uniquePairs (env : Env) (st : Store) (user : Claims) (body : MarkBody)
    (ip : Option String) (clk : MarkClock) (h : UniquePairs st) :
    UniquePairs (markAttendance env st user body ip clk).2 := by
  rcases markAttendance_store env st user body ip clk with h1 | h1
  · rw [h1]; exact h
  · obtain ⟨sid, uid, status, at_, by_, ipa, loc, h1⟩ := h1
    rw [h1]
    exact insertRecord_uniquePairs st _ _ _ _ _ _ _ h

/-- The manual-attendance handler keeps the uniqueness invariant. -/
theorem manualAttendance_uniquePairs (st : Store) (body : ManualBody) (now : Int)
    (h : UniquePairs st) : UniquePairs (manualAttendance st body now).2 := by
  unfold manualAttendance
  repeat' split
  all_goals first
    | exact h
    | (rename_i hu; exact updateRecordStatus_uniquePairs st _ _ _ _ h hu)
    | (rename_i hi; exact insertRecord_uniquePairs_of_eq h hi)

/-- Every sequence of attendance operations keeps the uniqueness invariant. -/
theorem runOps_uniquePairs (env : Env) (ops : List AttendanceOp) :
    ∀ st : Store, UniquePairs st → UniquePairs (runOps env st ops) := by
  induction ops with
  | nil => intro st h; exact h
  | cons op ops ih =>
    intro st h
    show UniquePairs (runOps env (AttendanceOp.apply env st op) ops)
    apply ih
    cases op with
    | mark user body ip clk => exact markAttendance_uniquePairs env st user body ip clk h
    | manual body now => exact manualAttendance_uniquePairs st body now h

/-- C1 as stated fails for a pair with a `NULL` id.  From the sample store, whose
`attendance_records` table is empty, two manual overrides sent without
`session_id` are both answered 200 and leave two records with the pair
`(NULL, 7)`; two sent without `student_id` leave two records with the pair
`(1, NULL)`.  The handler's query `session_id = $1 AND student_id = $2` and the
constraint `UNIQUE(session_id, student_id)` never find a `NULL` equal to
anything. -/
theorem C1_counterexample :
    sampleStore.attendance_records = [] ∧
    (manualAttendance sampleStore ⟨.null, .num 7, .str "present"⟩ 1705310000000).1 =
      ⟨200, .message "Attendance marked successfully"⟩ ∧
    (manualAttendance
        (manualAttendance sampleStore ⟨.null, .num 7, .str "present"⟩ 1705310000000).2
        ⟨.null, .num 7, .str "present"⟩ 1705310100000).1 =
      ⟨200, .message "Attendance marked successfully"⟩ ∧
    (runOps sampleEnv sampleStore
      [.manual ⟨.null, .num 7, .str "present"⟩ 1705310000000,
       .manual ⟨.null, .num 7, .str "present"⟩ 1705310100000]).attendance_records =
      [{ id := 1, session_id := none, student_id := some 7, marked_at := 1705310000000,
         status := some "present", marked_by := "manual", ip_address := none,
         device_info := none, location_data := none },
       { id := 2, session_id := none, student_id := some 7, marked_at := 1705310100000,
         status := some "present", marked_by := "manual", ip_address := none,
         device_info := none, location_data := none }] ∧
    pairCount (runOps sampleEnv sampleStore
      [.manual ⟨.null, .num 7, .str "present"⟩ 1705310000000,
       .manual ⟨.null, .num 7, .str "present"⟩ 1705310100000]) none (some 7) = 2 ∧
    pairCount (runOps sampleEnv sampleStore
      [.manual ⟨.num 1, .null, .str "present"⟩ 1705310000000,
       .manual ⟨.num 1, .null, .str "present"⟩ 1705310100000]) (some 1) none = 2 := by
  refine ⟨rfl, by decide!, by decide!, by decide!, by decide!, by decide!⟩

/-- C1, amended: in every store reachable from an empty `attendance_records`
table by a finite sequence of mark-attendance and manual-attendance operations
there is at most one attendance record for each pair of an event id and a
student id, that is, for each `(session_id, student_id)` neither of which is
`NULL`. -/
theorem C1_at_most_one_record_per_pair (env : Env) (st0 : Store) (ops : List AttendanceOp)
    (hempty : st0.attendance_records = []) (k u : Int) :
    recordCount (runOps env st0 ops) k u ≤ 1 := by
  apply runOps_uniquePairs env ops st0
  intro k1 u1
  simp [recordCount, hempty]

/-- C1, amended, at a concrete run: the student marks twice, the lecturer
overrides twice; exactly one record of the pair `(1, 7)` results. -/
theorem C1_at_most_one_record_per_pair_witness :
    sampleStore.attendance_records = [] ∧
    recordCount (runOps sampleEnv sampleStore
      [.mark studentClaims (markBodyOf "1:1705309200000:5ca1ab1e") none (clockAt 1705309800000),
       .mark studentClaims (markBodyOf "1:1705309200000:5ca1ab1e") none (clockAt 1705309900000),
       .manual ⟨.num 1, .num 7, .str "excused"⟩ 1705310000000,
       .manual ⟨.str "1", .num 7, .str "late"⟩ 1705310100000]) 1 7 = 1 ∧
    recordCount (runOps sampleEnv sampleStore
      [.mark studentClaims (markBodyOf "1:1705309200000:5ca1ab1e") none (clockAt 1705309800000),
       .mark studentClaims (markBodyOf "1:1705309200000:5ca1ab1e") none (clockAt 1705309900000),
       .manual ⟨.num 1, .num 7, .str "excused"⟩ 1705310000000,
       .manual ⟨.str "1", .num 7, .str "late"⟩ 1705310100000]) 1 7 ≤ 1 :=
  ⟨rfl, by decide!, C1_at_most_one_record_per_pair sampleEnv sampleStore _ rfl 1 7⟩

/-- A session query that succeeds has parsed the session id. -/
theorem selectActiveSession_some {st : Store} {sessionId : String} {now : Int}
    {rows : List Session} (h : selectActiveSession st (.str sessionId) now = some rows) :
    ∃ k, int4in sessionId = some k ∧
      rows = st.attendance_sessions.filter (fun s =>
        sqlEq (some s.id) (some k) && decide (s.status = some "active") &&
          (match s.qr_code_expiry with
           | some e => decide (e > now)
           | none => false)) := by
  unfold selectActiveSession at h
  simp only [Param.toInt4] at h
  cases hk : int4in sessionId with
  | none => simp [hk] at h
  | some k =>
    refine ⟨k, rfl, ?_⟩
    simp only [hk, Option.map_some', Option.some.injEq] at h
    exact h.symm

/-- An enrollment query that succeeds has accepted the student id. -/
theorem selectEnrollment_some {st : Store} {uid : Int} {course : Option Int}
    {rows : List (Enrollment × Course)}
    (h : selectEnrollment st (.num uid) course = some rows) : inInt4 uid = some uid := by
  unfold selectEnrollment at h
  simp only [Param.toInt4] at h
  unfold inInt4 at h ⊢
  split
  · rfl
  · rename_i hr
    simp [hr] at h

/-- C4: when the session and enrollment checks pass and a record of the same
`(session_id, student_id)` exists, mark-attendance answers 400 `Attendance
already marked` and returns the store exactly as it was. -/
theorem C4_already_marked_leaves_store (env : Env) (st : Store) (user : Claims)
    (body : MarkBody) (ip : Option String) (clk : MarkClock) (sessionId : String)
    (session : Session) (sessions : List Session) (e : Enrollment × Course)
    (es : List (Enrollment × Course)) (r : AttendanceRecord)
    (hid : qrSessionId body.qr_data = some sessionId)
    (hsession : selectActiveSession st (.str sessionId) clk.sessionQueryNow =
      some (session :: sessions))
    (henrolled : selectEnrollment st (.num user.id) session.course_id = some (e :: es))
    (hr : r ∈ st.attendance_records)
    (hrs : r.session_id = int4in sessionId)
    (hru : r.student_id = some user.id) :
    markAttendance env st user body ip clk =
      (⟨400, .error "Attendance already marked"⟩, st) := by
  obtain ⟨k, hk, -⟩ := selectActiveSession_some hsession
  have hu := selectEnrollment_some henrolled
  unfold markAttendance
  simp only [hid, hsession]
  unfold markCheckEnrollment
  simp only [henrolled]
  unfold markCheckExisting
  have hsel : ∃ x xs, selectRecords st (.str sessionId) (.num user.id) = some (x :: xs) := by
    unfold selectRecords
    simp only [Param.toInt4, hk, hu, Option.map_some']
    have hmem : r ∈ st.attendance_records.filter (fun r =>
        sqlEq r.session_id (some k) && sqlEq r.student_id (some user.id)) := by
      rw [List.mem_filter]
      refine ⟨hr, ?_⟩
      rw [Bool.and_eq_true, sqlEq_some_iff, sqlEq_some_iff]
      exact ⟨hrs.trans hk, hru⟩
    cases hf : st.attendance_records.filter (fun r =>
        sqlEq r.session_id (some k) && sqlEq r.student_id (some user.id)) with
    | nil => rw [hf] at hmem; exact absurd hmem (List.not_mem_nil _)
    | cons x xs => exact ⟨x, xs, rfl⟩
  obtain ⟨x, xs, hx⟩ := hsel
  simp only [hx]

/-- C4 at a concrete store: the student marks event 1 a second time. -/
theorem C4_already_marked_leaves_store_witness :
    markAttendance sampleEnv sampleMarkedStore studentClaims (markBodyOf sampleQr) none
        (clockAt 1705309900000) =
      (⟨400, .error "Attendance already marked"⟩, sampleMarkedStore) :=
  C4_already_marked_leaves_store sampleEnv sampleMarkedStore studentClaims
    (markBodyOf sampleQr) none (clockAt 1705309900000) "1" sampleSession []
    ({ id := 1, student_id := some 7, course_id := some 3, enrollment_date := 0,
       status := some "active" }, sampleCourse) []
    { id := 1, session_id := some 1, student_id := some 7, marked_at := 1705309800000,
      status := some "present", marked_by := "system", ip_address := none,
      device_info := none, location_data := some ⟨.null, .null⟩ }
    (by decide!) (by decide!) (by decide!) (by decide!) (by decide!) (by decide!)

/-- C6 as stated fails: an unknown event id and an expired event get the same
response; a submission at the instant of expiry is rejected, not passed on; a
first field that is no integer gets the 500 of the `catch` block. -/
theorem C6_counterexample :
    (markAttendance sampleEnv sampleStore studentClaims (markBodyOf "2:1705309200000:5ca1ab1e")
        none (clockAt 1705309800000)).1 =
      (markAttendance sampleEnv sampleStore studentClaims (markBodyOf sampleQr) none
        (clockAt 1705311000001)).1 ∧
    markAttendance sampleEnv sampleStore studentClaims (markBodyOf sampleQr) none
        (clockAt 1705311000000) =
      (⟨400, .error "Invalid or expired QR code"⟩, sampleStore) ∧
    markAttendance sampleEnv sampleStore studentClaims
        (markBodyOf "loyw3v28k3j9x:1705309200000:5ca1ab1e") none (clockAt 1705309800000) =
      (⟨500, .error "Internal server error"⟩, sampleStore) := by
  decide!

/-- C6, amended: for a submission whose first payload field is an integer id `k`,
unless an event with id `k`, status `active` and an expiry later than now exists
the handler answers 400 `Invalid or expired QR code` (the same response whether
the event is unknown, closed or expired) and returns the store unchanged;
otherwise it goes on to the enrollment check with such an event. -/
theorem C6_session_check (env : Env) (st : Store) (user : Claims) (body : MarkBody)
    (ip : Option String) (clk : MarkClock) (sessionId : String) (k : Int)
    (hid : qrSessionId body.qr_data = some sessionId) (hk : int4in sessionId = some k) :
    ((¬ ∃ s ∈ st.attendance_sessions, s.id = k ∧ s.status = some "active" ∧
          ∃ e, s.qr_code_expiry = some e ∧ clk.sessionQueryNow < e) →
      markAttendance env st user body ip clk =
        (⟨400, .error "Invalid or expired QR code"⟩, st)) ∧
    ((∃ s ∈ st.attendance_sessions, s.id = k ∧ s.status = some "active" ∧
          ∃ e, s.qr_code_expiry = some e ∧ clk.sessionQueryNow < e) →
      ∃ session ∈ st.attendance_sessions, session.id = k ∧ session.status = some "active" ∧
        (∃ e, session.qr_code_expiry = some e ∧ clk.sessionQueryNow < e) ∧
        markAttendance env st user body ip clk =
          markCheckEnrollment env st user body ip clk sessionId session) := by
  have hsel : selectActiveSession st (.str sessionId) clk.sessionQueryNow =
      some (st.attendance_sessions.filter (fun s =>
        sqlEq (some s.id) (some k) && decide (s.status = some "active") &&
          (match s.qr_code_expiry with
           | some e => decide (e > clk.sessionQueryNow)
           | none => false))) := by
    unfold selectActiveSession
    simp only [Param.toInt4, hk, Option.map_some']
  have hmem : ∀ s, s ∈ st.attendance_sessions.filter (fun s =>
        sqlEq (some s.id) (some k) && decide (s.status = some "active") &&
          (match s.qr_code_expiry with
           | some e => decide (e > clk.sessionQueryNow)
           | none => false)) ↔
      s ∈ st.attendance_sessions ∧ s.id = k ∧ s.status = some "active" ∧
        ∃ e, s.qr_code_expiry = some e ∧ clk.sessionQueryNow < e := by
    intro s
    rw [List.mem_filter, Bool.and_eq_true, Bool.and_eq_true, sqlEq_some_iff]
    cases he : s.qr_code_expiry <;> simp [and_assoc]
  constructor
  · intro hno
    have hnil : st.attendance_sessions.filter (fun s =>
        sqlEq (some s.id) (some k) && decide (s.status = some "active") &&
          (match s.qr_code_expiry with
           | some e => decide (e > clk.sessionQueryNow)
           | none => false)) = [] := by
      rw [List.eq_nil_iff_forall_not_mem]
      intro s hs
      rw [hmem] at hs
      exact hno ⟨s, hs⟩
    unfold markAttendance
    simp only [hid, hsel, hnil]
  · rintro ⟨s, hs⟩
    have hs1 := (hmem s).mpr hs
    cases hf : st.attendance_sessions.filter (fun s =>
        sqlEq (some s.id) (some k) && decide (s.status = some "active") &&
          (match s.qr_code_expiry with
           | some e => decide (e > clk.sessionQueryNow)
           | none => false)) with
    | nil => rw [hf] at hs1; exact absurd hs1 (List.not_mem_nil _)
    | cons x xs =>
      have hx : x ∈ st.attendance_sessions.filter (fun s =>
          sqlEq (some s.id) (some k) && decide (s.status = some "active") &&
            (match s.qr_code_expiry with
             | some e => decide (e > clk.sessionQueryNow)
             | none => false)) := by
        rw [hf]; exact List.mem_cons_self _ _
      rw [hmem] at hx
      refine ⟨x, hx.1, hx.2.1, hx.2.2.1, hx.2.2.2, ?_⟩
      unfold markAttendance
      simp only [hid, hsel, hf]

/-- C6, amended, at the sample store: event 1 is live at 09:10, so the handler
goes on to the enrollment check, and unknown event 2 is refused. -/
theorem C6_session_check_witness :
    (markAttendance sampleEnv sampleStore studentClaims (markBodyOf "2:0:00") none
        (clockAt 1705309800000) =
      (⟨400, .error "Invalid or expired QR code"⟩, sampleStore)) ∧
    (∃ session ∈ sampleStore.attendance_sessions, session.id = 1 ∧
        session.status = some "active" ∧
        (∃ e, session.qr_code_expiry = some e ∧ (clockAt 1705309800000).sessionQueryNow < e) ∧
        markAttendance sampleEnv sampleStore studentClaims (markBodyOf sampleQr) none
            (clockAt 1705309800000) =
          markCheckEnrollment sampleEnv sampleStore studentClaims (markBodyOf sampleQr) none
            (clockAt 1705309800000) "1" session) :=
  ⟨(C6_session_check sampleEnv sampleStore studentClaims (markBodyOf "2:0:00") none
      (clockAt 1705309800000) "2" 2 (by decide!) (by decide!)).1 (by decide!),
   (C6_session_check sampleEnv sampleStore studentClaims (markBodyOf sampleQr) none
      (clockAt 1705309800000) "1" 1 (by decide!) (by decide!)).2
      ⟨sampleSession, by decide!, by decide!, by decide!, 1705311000000, by decide!,
        by decide!⟩⟩

/-- C7, the code at the failing input: the student's only enrollment in the
course has status `inactive`, and mark-attendance still records `present`. -/
theorem C7_inactive_enrollment_accepted :
    markAttendance sampleEnv (sampleStoreWith "inactive") studentClaims (markBodyOf sampleQr)
        none (clockAt 1705309800000) =
      (⟨200, .marked "Attendance marked successfully"
          { id := 1, session_id := some 1, student_id := some 7, marked_at := 1705309800000,
            status := some "present", marked_by := "system", ip_address := none,
            device_info := none, location_data := some ⟨.null, .null⟩ } "present"⟩,
       { sampleStoreWith "inactive" with
         attendance_records :=
           [{ id := 1, session_id := some 1, student_id := some 7,
              marked_at := 1705309800000, status := some "present", marked_by := "system",
              ip_address := none, device_info := none,
              location_data := some ⟨.null, .null⟩ }],
         attendance_records_id_seq := 2 }) := by
  decide!

/-- The comparison of line 493 in exact arithmetic: were `new Date` of the
template literal an instant `start`, the computed status would be `late` exactly
when more than 900000 ms have passed since `start`. -/
theorem attendanceStatus_of_start (env : Env) (session : Session) (now start : Int)
    (hstart : env.newDate (env.showDate session.session_date ++ "T" ++ session.start_time) =
      some start) :
    attendanceStatus env session now = if now - start > 900000 then "late" else "present" := by
  unfold attendanceStatus
  simp only [hstart]
  have hiff : (((now - start : Int) : ℚ) / (1000 * 60) > 15) ↔ now - start > 900000 := by
    rw [gt_iff_lt, lt_div_iff₀ (by norm_num : (0 : ℚ) < 1000 * 60)]
    have : (15 : ℚ) * (1000 * 60) = ((900000 : Int) : ℚ) := by norm_num
    rw [this, Int.cast_lt]
  by_cases h : now - start > 900000
  · rw [if_pos (hiff.mpr h), if_pos h]
  · rw [if_neg (fun hq => h (hiff.mp hq)), if_neg h]

/-- A successful insert returns a row with the given status that is in the new table. -/
theorem insertRecord_some {st st1 : Store} {sid uid : Option Int} {status : Option String}
    {at_ : Int} {by_ : String} {ip : Option String} {loc : Option Location}
    {row : AttendanceRecord}
    (h : insertRecord st sid uid status at_ by_ ip loc = (some row, st1)) :
    row.status = status ∧ row ∈ st1.attendance_records := by
  unfold insertRecord at h
  simp only [] at h
  split at h
  · simp only [Prod.mk.injEq, Option.some.injEq] at h
    obtain ⟨h1, h2⟩ := h
    subst h1 h2
    simp
  · simp at h

/-- When `new Date` of the template literal is `Invalid Date`, the computed
status is `present` at every instant: `minutesLate` is `NaN` and `NaN > 15` is
false. -/
theorem attendanceStatus_invalid_date (env : Env) (session : Session) (now : Int)
    (hinvalid : env.newDate (env.showDate session.session_date ++ "T" ++ session.start_time) =
      none) :
    attendanceStatus env session now = "present" := by
  unfold attendanceStatus
  rw [hinvalid]

/-- C8 does not hold of the code: the status is never `late`.  The event of
2024-01-15 starts at 09:00:00 (epoch millisecond 1705309200000) and is open
until 09:30:00.  The driver hands `session_date` over as a `Date`, so the
template literal of line 490 is the text of that `Date` followed by `T09:00:00`,
of which `new Date` is `Invalid Date`; the accepted submissions 901000 ms and
20 minutes after the start are both recorded `present`. -/
theorem C8_late_submission_recorded_present :
    sampleEnv.showDate sampleSession.session_date ++ "T" ++ sampleSession.start_time =
      "Mon Jan 15 2024 00:00:00 GMT+0000 (Coordinated Universal Time)T09:00:00" ∧
    sampleEnv.newDate
      "Mon Jan 15 2024 00:00:00 GMT+0000 (Coordinated Universal Time)T09:00:00" = none ∧
    (1705310101000 : Int) - 1705309200000 = 901000 ∧
    markAttendance sampleEnv sampleStore studentClaims (markBodyOf sampleQr) none
        (clockAt 1705310101000) =
      (⟨200, .marked "Attendance marked successfully"
          { id := 1, session_id := some 1, student_id := some 7, marked_at := 1705310101000,
            status := some "present", marked_by := "system", ip_address := none,
            device_info := none, location_data := some ⟨.null, .null⟩ } "present"⟩,
       { sampleStore with
         attendance_records :=
           [{ id := 1, session_id := some 1, student_id := some 7,
              marked_at := 1705310101000, status := some "present", marked_by := "system",
              ip_address := none, device_info := none,
              location_data := some ⟨.null, .null⟩ }],
         attendance_records_id_seq := 2 }) ∧
    (1705310400000 : Int) - 1705309200000 = 20 * 60 * 1000 ∧
    markAttendance sampleEnv sampleStore studentClaims (markBodyOf sampleQr) none
        (clockAt 1705310400000) =
      (⟨200, .marked "Attendance marked successfully"
          { id := 1, session_id := some 1, student_id := some 7, marked_at := 1705310400000,
            status := some "present", marked_by := "system", ip_address := none,
            device_info := none, location_data := some ⟨.null, .null⟩ } "present"⟩,
       { sampleStore with
         attendance_records :=
           [{ id := 1, session_id := some 1, student_id := some 7,
              marked_at := 1705310400000, status := some "present", marked_by := "system",
              ip_address := none, device_info := none,
              location_data := some ⟨.null, .null⟩ }],
         attendance_records_id_seq := 2 }) := by
  refine ⟨by decide!, by decide!, by decide!, by decide!, by decide!, by decide!⟩

/-- C9: for a verified token, `authenticateToken(roles)` calls `next` with the
claims as `req.user` if and only if `roles` is empty or contains the token's
role; otherwise it answers 403 `Insufficient permissions`; two verified tokens
with the same role get the same decision. -/
theorem C9_authorize_iff_role_listed (env : Env) (roles : List String)
    (authHeader : Option String) (nowSec : Int) (token : String) (user : Claims)
    (htoken : authHeader.bind (fun h => (jsSplit h ' ').get? 1) = some token)
    (hne : token ≠ "")
    (hverified : env.jwtVerify token env.JWT_SECRET nowSec = .ok user) :
    (authenticateToken env roles authHeader nowSec = .next user ↔
      (roles = [] ∨ user.role ∈ roles)) ∧
    (¬ (roles = [] ∨ user.role ∈ roles) →
      authenticateToken env roles authHeader nowSec =
        .reject ⟨403, .error "Insufficient permissions"⟩) ∧
    (∀ (authHeader2 : Option String) (token2 : String) (user2 : Claims),
      authHeader2.bind (fun h => (jsSplit h ' ').get? 1) = some token2 → token2 ≠ "" →
      env.jwtVerify token2 env.JWT_SECRET nowSec = .ok user2 → user2.role = user.role →
      (authenticateToken env roles authHeader2 nowSec = .next user2 ↔
        authenticateToken env roles authHeader nowSec = .next user)) := by
  have key : ∀ (h : Option String) (t : String) (u : Claims),
      h.bind (fun h => (jsSplit h ' ').get? 1) = some t → t ≠ "" →
      env.jwtVerify t env.JWT_SECRET nowSec = .ok u →
      authenticateToken env roles h nowSec =
        if roles = [] ∨ u.role ∈ roles then .next u
        else .reject ⟨403, .error "Insufficient permissions"⟩ := by
    intro h t u ht hn hv
    unfold authenticateToken
    simp only [ht, hn, if_false, hv]
    by_cases hr : roles = [] ∨ u.role ∈ roles
    · rw [if_pos hr, if_neg]
      rintro ⟨hlen, hnot⟩
      rcases hr with hr | hr
      · rw [hr] at hlen; simp at hlen
      · exact hnot (by simpa using hr)
    · rw [if_neg hr, if_pos]
      push_neg at hr
      refine ⟨List.length_pos.mpr hr.1, ?_⟩
      simpa using hr.2
  have h1 := key authHeader token user htoken hne hverified
  refine ⟨?_, ?_, ?_⟩
  · rw [h1]
    by_cases hr : roles = [] ∨ user.role ∈ roles
    · simp [hr]
    · simp [hr]
  · intro hr
    rw [h1, if_neg hr]
  · intro authHeader2 token2 user2 ht2 hn2 hv2 hrole
    rw [h1, key authHeader2 token2 user2 ht2 hn2 hv2, hrole]
    by_cases hr : roles = [] ∨ user.role ∈ roles
    · simp [hr]
    · simp [hr]

/-- C9 at concrete requests: the student's token passes `isStudent`, and is
refused by `isLecturer` with 403 `Insufficient permissions`. -/
theorem C9_authorize_iff_role_listed_witness :
    authenticateToken sampleEnv ["student"] (some "Bearer token-student@edu.test")
        1705309800 =
      .next studentClaims ∧
    authenticateToken sampleEnv ["lecturer"] (some "Bearer token-student@edu.test")
        1705309800 =
      .reject ⟨403, .error "Insufficient permissions"⟩ :=
  ⟨(C9_authorize_iff_role_listed sampleEnv ["student"] (some "Bearer token-student@edu.test")
      1705309800 "token-student@edu.test" studentClaims (by decide!) (by decide!)
      (by decide!)).1.mpr (by decide!),
   (C9_authorize_iff_role_listed sampleEnv ["lecturer"] (some "Bearer token-student@edu.test")
      1705309800 "token-student@edu.test" studentClaims (by decide!) (by decide!)
      (by decide!)).2.1 (by decide!)⟩

/-- C10 as stated fails for a wrong secret that is no string.  With the number
12345 as password, the login with the student's email ends in the 500 of the
catch block (`bcrypt.compare` throws on a number), while the login with an email
nobody has is answered 401 `Invalid credentials`; the same holds when the
password is missing.  The two responses tell a known identifier from an
unknown one. -/
theorem C10_counterexample :
    login sampleEnv sampleStore ⟨.str "student@edu.test", .num 12345, .str "student"⟩
        1705309800 = ⟨500, .error "Internal server error"⟩ ∧
    login sampleEnv sampleStore ⟨.str "nobody@edu.test", .num 12345, .str "student"⟩
        1705309800 = ⟨401, .error "Invalid credentials"⟩ ∧
    login sampleEnv sampleStore ⟨.str "student@edu.test", .null, .str "student"⟩
        1705309800 = ⟨500, .error "Internal server error"⟩ ∧
    login sampleEnv sampleStore ⟨.str "nobody@edu.test", .null, .str "student"⟩
        1705309800 = ⟨401, .error "Invalid credentials"⟩ ∧
    login sampleEnv sampleStore ⟨.str "student@edu.test", .num 12345, .str "student"⟩
        1705309800 ≠
      login sampleEnv sampleStore ⟨.str "nobody@edu.test", .num 12345, .str "student"⟩
        1705309800 := by
  refine ⟨by decide!, by decide!, by decide!, by decide!, by decide!⟩

/-- C10, amended: a login whose secret is a string that `bcrypt.compare` rejects
for the identity found, and a login whose identifier equals no user's email or
registration number, get the same response: 401 `Invalid credentials`. -/
theorem C10_login_failures_identical (env : Env) (st : Store) (known unknown : LoginBody)
    (secret : String) (t1 t2 : Int)
    (hsecret : known.password = .str secret)
    (hwrong : ∀ u ∈ selectLoginUsers st known.identifier known.role,
      env.bcryptCompare secret u.password = false)
    (hunknown : ∀ i, unknown.identifier.toText = some i →
      ∀ u ∈ st.users, u.email ≠ i ∧ u.registration_number ≠ some i) :
    login env st known t1 = login env st unknown t2 ∧
    login env st known t1 = ⟨401, .error "Invalid credentials"⟩ ∧
    login env st unknown t2 = ⟨401, .error "Invalid credentials"⟩ := by
  have h2 : login env st unknown t2 = ⟨401, .error "Invalid credentials"⟩ := by
    have hnil : selectLoginUsers st unknown.identifier unknown.role = [] := by
      unfold selectLoginUsers
      rw [List.filter_eq_nil_iff]
      intro u hu
      cases hi : unknown.identifier.toText with
      | none => simp
      | some i =>
        have := hunknown i hi u hu
        simp [this.1, this.2]
    unfold login
    rw [hnil]
  have h1 : login env st known t1 = ⟨401, .error "Invalid credentials"⟩ := by
    unfold login
    cases hsel : selectLoginUsers st known.identifier known.role with
    | nil => rfl
    | cons u us =>
      have hw := hwrong u (by rw [hsel]; exact List.mem_cons_self _ _)
      simp only [hsecret, hw]
      rfl
  exact ⟨h1.trans h2.symm, h1, h2⟩

/-- C10, amended, at the sample store: the student's email with a wrong secret,
and an email nobody has. -/
theorem C10_login_failures_identical_witness :
    login sampleEnv sampleStore ⟨.str "student@edu.test", .str "crayon", .str "student"⟩
        1705309800 =
      login sampleEnv sampleStore ⟨.str "nobody@edu.test", .str "pencil", .str "student"⟩
        1705309800 ∧
    login sampleEnv sampleStore ⟨.str "student@edu.test", .str "crayon", .str "student"⟩
        1705309800 = ⟨401, .error "Invalid credentials"⟩ ∧
    login sampleEnv sampleStore ⟨.str "nobody@edu.test", .str "pencil", .str "student"⟩
        1705309800 = ⟨401, .error "Invalid credentials"⟩ :=
  C10_login_failures_identical sampleEnv sampleStore
    ⟨.str "student@edu.test", .str "crayon", .str "student"⟩
    ⟨.str "nobody@edu.test", .str "pencil", .str "student"⟩ "crayon" 1705309800 1705309800
    rfl (by decide!) (by
      intro i hi u hu
      simp only [Param.toText, Option.some.injEq] at hi
      subst hi
      simp only [sampleStore, sampleStoreWith, List.mem_cons, List.mem_singleton,
        List.not_mem_nil, or_false] at hu
      rcases hu with rfl | rfl <;> decide!)

/-- Splitting always yields at least one field. -/
theorem splitChars_ne_nil (sep : Char) (cs : List Char) : splitChars sep cs ≠ [] := by
  cases cs with
  | nil => simp [splitChars]
  | cons c cs =>
    unfold splitChars
    split
    · simp
    · split <;> simp

/-- The first field of a text that does not start with the separator starts with
the first character of the text. -/
theorem splitChars_cons_of_ne (sep c : Char) (cs : List Char) (h : c ≠ sep) :
    ∃ f fs, splitChars sep (c :: cs) = (c :: f) :: fs := by
  unfold splitChars
  rw [if_neg h]
  cases hs : splitChars sep cs with
  | nil => exact absurd hs (splitChars_ne_nil sep cs)
  | cons f fs => exact ⟨f, fs, rfl⟩

/-- The first field does not depend on what follows the first separator. -/
theorem splitChars_head_append (sep : Char) (a x y : List Char) :
    (splitChars sep (a ++ sep :: x)).head? = (splitChars sep (a ++ sep :: y)).head? := by
  induction a with
  | nil => simp [splitChars]
  | cons c a ih =>
    simp only [List.cons_append]
    unfold splitChars
    by_cases hc : c = sep
    · simp [hc]
    · rw [if_neg hc, if_neg hc]
      cases hx : splitChars sep (a ++ sep :: x) with
      | nil => exact absurd hx (splitChars_ne_nil sep _)
      | cons f fs =>
        cases hy : splitChars sep (a ++ sep :: y) with
        | nil => exact absurd hy (splitChars_ne_nil sep _)
        | cons g gs =>
          rw [hx, hy] at ih
          simp only [List.head?_cons, Option.some.injEq] at ih
          simp [ih]

/-- The session id read from a payload does not depend on what follows the
first colon. -/
theorem qrSessionId_append (p r1 r2 : String) :
    qrSessionId (.str (p ++ ":" ++ r1)) = qrSessionId (.str (p ++ ":" ++ r2)) := by
  unfold qrSessionId jsSplit
  simp only [List.head?_map, String.toList, String.data_append]
  rw [List.append_assoc, List.append_assoc, List.singleton_append,
    List.singleton_append, splitChars_head_append ':' p.data r1.data r2.data]

/-- The handler's outcome depends on the payload only through its first field. -/
theorem markAttendance_of_qrSessionId_eq (env : Env) (st : Store) (user : Claims)
    (b1 b2 : MarkBody) (ip : Option String) (clk : MarkClock)
    (hq : qrSessionId b1.qr_data = qrSessionId b2.qr_data)
    (hlat : b1.latitude = b2.latitude) (hlon : b1.longitude = b2.longitude) :
    markAttendance env st user b1 ip clk = markAttendance env st user b2 ip clk := by
  unfold markAttendance markCheckEnrollment markCheckExisting markInsert
  rw [hq, hlat, hlon]

/-- C2, the code: the outcome of mark-attendance is the same for every
signature field; a payload minted for session id `1` whose signature had its
last character changed is accepted and recorded; a payload minted at a real
clock value with a changed signature gets the 500 of the `catch` block. -/
theorem C2_signature_never_verified :
    (∀ (env : Env) (st : Store) (user : Claims) (ip : Option String) (clk : MarkClock)
        (lat lon : Param) (sessionId timestamp signature mutated : String),
      markAttendance env st user
          ⟨.str (sessionId ++ ":" ++ timestamp ++ ":" ++ mutated), lat, lon⟩ ip clk =
        markAttendance env st user
          ⟨.str (sessionId ++ ":" ++ timestamp ++ ":" ++ signature), lat, lon⟩ ip clk) ∧
    mintQrData sampleEnv ⟨1, "", 1705309200000, 1705309200000, 1705309200000⟩ =
      "1:1705309200000:22ee4b8f" ∧
    markAttendance sampleEnv sampleStore studentClaims
        (markBodyOf "1:1705309200000:22ee4b8e") none (clockAt 1705309800000) =
      (⟨200, .marked "Attendance marked successfully"
          { id := 1, session_id := some 1, student_id := some 7, marked_at := 1705309800000,
            status := some "present", marked_by := "system", ip_address := none,
            device_info := none, location_data := some ⟨.null, .null⟩ } "present"⟩,
       sampleMarkedStore) ∧
    sampleMarkedStore.attendance_records =
      [{ id := 1, session_id := some 1, student_id := some 7, marked_at := 1705309800000,
         status := some "present", marked_by := "system", ip_address := none,
         device_info := none, location_data := some ⟨.null, .null⟩ }] ∧
    mintQrData sampleEnv sampleCreateClock = "lrep2g00k3j9x:1705309200000:87e2ffd9" ∧
    markAttendance sampleEnv sampleCreated.2 studentClaims
        (markBodyOf "lrep2g00k3j9x:1705309200000:87e2ffd8") none (clockAt 1705309800000) =
      (⟨500, .error "Internal server error"⟩, sampleCreated.2) := by
  refine ⟨?_, by decide!, by decide!, by decide!, by decide!, by decide!⟩
  intro env st user ip clk lat lon sessionId timestamp signature mutated
  refine markAttendance_of_qrSessionId_eq env st user _ _ ip clk ?_ rfl rfl
  have h := qrSessionId_append sessionId (timestamp ++ ":" ++ mutated)
    (timestamp ++ ":" ++ signature)
  simpa only [String.append_assoc] using h

/-- The leading base-36 digit of a number with `k + 1` digits. -/
theorem toBase36Aux_head (k : Nat) : ∀ (fuel n : Nat) (acc : List Char),
    36 ^ k ≤ n → n < 36 ^ (k + 1) → k < fuel →
    ∃ tl, toBase36Aux fuel n acc = base36Digit (n / 36 ^ k) :: tl := by
  induction k with
  | zero =>
    intro fuel n acc _ h2 h3
    obtain ⟨f, rfl⟩ : ∃ f, fuel = f + 1 := ⟨fuel - 1, by omega⟩
    refine ⟨acc, ?_⟩
    unfold toBase36Aux
    rw [if_pos (by simpa using h2)]
    simp
  | succ k ih =>
    intro fuel n acc h1 h2 h3
    obtain ⟨f, rfl⟩ : ∃ f, fuel = f + 1 := ⟨fuel - 1, by omega⟩
    have h36 : 36 ≤ n := by
      have : 36 ^ 1 ≤ 36 ^ (k + 1) := Nat.pow_le_pow_right (by norm_num) (by omega)
      omega
    unfold toBase36Aux
    rw [if_neg (by omega)]
    have hlo : 36 ^ k ≤ n / 36 := by
      rw [Nat.le_div_iff_mul_le (by norm_num)]
      calc 36 ^ k * 36 = 36 ^ (k + 1) := by ring
        _ ≤ n := h1
    have hhi : n / 36 < 36 ^ (k + 1) := by
      rw [Nat.div_lt_iff_lt_mul (by norm_num)]
      calc n < 36 ^ (k + 1 + 1) := h2
        _ = 36 ^ (k + 1) * 36 := by ring
    obtain ⟨tl, htl⟩ := ih f (n / 36) (base36Digit (n % 36) :: acc) hlo hhi (by omega)
    refine ⟨tl, ?_⟩
    rw [htl, Nat.div_div_eq_div_mul]
    congr 2
    ring_nf

/-- The base-36 digits from ten on are the lower-case letters. -/
theorem base36Digit_letter (d : Nat) (h1 : 10 ≤ d) (h2 : d < 36) :
    97 ≤ (base36Digit d).toNat ∧ (base36Digit d).toNat ≤ 122 := by
  interval_cases d <;> decide

/-- PostgreSQL's integer input rejects a text that starts with a lower-case letter. -/
theorem int4in_of_letter (s : String) (c : Char) (tl : List Char)
    (hs : s.toList = c :: tl) (hc : 97 ≤ c.toNat ∧ c.toNat ≤ 122) : int4in s = none := by
  have hspace : isPgSpace c = false := by
    unfold isPgSpace
    rw [decide_eq_false_iff_not]
    omega
  have hdigit : isDecDigit c = false := by
    unfold isDecDigit
    rw [decide_eq_false_iff_not]
    omega
  have hminus : c ≠ '-' := by
    rintro rfl
    revert hc
    decide
  have hplus : c ≠ '+' := by
    rintro rfl
    revert hc
    decide
  have hzero : c ≠ '0' := by
    rintro rfl
    revert hc
    decide
  have hdigits : int4Digits (c :: tl) = none := by
    unfold int4Digits
    cases tl with
    | nil => simp [hdigit]
    | cons x rest => simp [hzero, hdigit]
  unfold int4in
  rw [hs, List.dropWhile_cons, hspace]
  simp [hminus, hplus, hdigits]

/-- For every clock value from 10 * 36 ^ 7 up to 36 ^ 8 (epoch milliseconds of
the years 1994 to 2059) the payload minted by create-session has a first field
that is no integer, so mark-attendance answers it with the 500 of the `catch`
block in every store. -/
theorem markAttendance_minted_payload (env : Env) (st : Store) (user : Claims)
    (lat lon : Param) (ip : Option String) (mclk : MarkClock) (clk : CreateClock)
    (h1 : 10 * 36 ^ 7 ≤ clk.idNow) (h2 : clk.idNow < 36 ^ 8) :
    markAttendance env st user ⟨.str (mintQrData env clk), lat, lon⟩ ip mclk =
      (internalError, st) := by
  obtain ⟨tl, htl⟩ := toBase36Aux_head 7 (clk.idNow + 1) clk.idNow []
    (by omega) h2 (by omega)
  have hletter := base36Digit_letter (clk.idNow / 36 ^ 7)
    (by rw [Nat.le_div_iff_mul_le (by norm_num)]; omega)
    (by rw [Nat.div_lt_iff_lt_mul (by norm_num)]; omega)
  generalize base36Digit (clk.idNow / 36 ^ 7) = c at htl hletter
  have hne : c ≠ ':' := by
    rintro rfl
    revert hletter
    decide
  have hdata : ∃ rest, (mintQrData env clk).toList = c :: rest := by
    unfold mintQrData mintSessionId toBase36
    simp only [String.toList, String.data_append, htl, List.cons_append]
    exact ⟨_, rfl⟩
  obtain ⟨rest, hrest⟩ := hdata
  obtain ⟨f, fs, hf⟩ := splitChars_cons_of_ne ':' c rest hne
  have hid : qrSessionId (.str (mintQrData env clk)) = some (String.mk (c :: f)) := by
    show (List.map String.mk (splitChars ':' (mintQrData env clk).toList)).head? = _
    rw [hrest, hf]
    rfl
  have hparse : int4in (String.mk (c :: f)) = none :=
    int4in_of_letter _ c f rfl hletter
  unfold markAttendance
  simp only [hid]
  unfold selectActiveSession
  simp only [Param.toInt4, hparse, Option.map_none']

/-- C3, the code: the lecturer creates an event starting 09:00 in a store
without events.  It is stored under id 1, the payload returned carries the
session id `lrep2g00k3j9x`, which is no integer, and the enrolled student
submitting that payload at 09:10 gets the 500 of the `catch` block and no record;
the same submission under the stored id 1 is recorded `present`. -/
theorem C3_payload_id_is_not_stored_id :
    sampleCreated.1 =
      ⟨200, .sessionCreated "Attendance session created"
        { id := 1, course_id := some 3, lecturer_id := some 2, session_date := "2024-01-15",
          start_time := "09:00:00", end_time := none,
          qr_code_data := some "lrep2g00k3j9x:1705309200000:87e2ffd9",
          qr_code_expiry := some 1705311000000, latitude := none, longitude := none,
          radius := some 100, status := some "active", created_at := 1705309200000 }
        "data:image/png;lrep2g00k3j9x:1705309200000:87e2ffd9"
        "lrep2g00k3j9x:1705309200000:87e2ffd9"⟩ ∧
    qrSessionId (.str "lrep2g00k3j9x:1705309200000:87e2ffd9") = some "lrep2g00k3j9x" ∧
    int4in "lrep2g00k3j9x" = none ∧
    markAttendance sampleEnv sampleCreated.2 studentClaims
        (markBodyOf "lrep2g00k3j9x:1705309200000:87e2ffd9") none (clockAt 1705309800000) =
      (⟨500, .error "Internal server error"⟩, sampleCreated.2) ∧
    sampleCreated.2.attendance_records = [] ∧
    (markAttendance sampleEnv sampleCreated.2 studentClaims
        (markBodyOf "1:1705309200000:87e2ffd9") none (clockAt 1705309800000)).1 =
      ⟨200, .marked "Attendance marked successfully" sampleRecord "present"⟩ := by
  decide!

/-- Run alone, the four store calls of a handler give the response and the store
of `markAttendance`. -/
theorem markStep_four (env : Env) (st : Store) (user : Claims) (body : MarkBody)
    (ip : Option String) (clk : MarkClock) :
    [(), (), (), ()].foldl
        (fun (c : MarkPc × Store) _ => markStep env user body ip clk c.2 c.1) (.start, st) =
      (.done (markAttendance env st user body ip clk).1,
        (markAttendance env st user body ip clk).2) := by
  simp only [List.foldl_cons, List.foldl_nil]
  unfold markAttendance
  cases hq : qrSessionId body.qr_data with
  | none => simp [markStep, hq]
  | some sessionId =>
    cases hs : selectActiveSession st (.str sessionId) clk.sessionQueryNow with
    | none => simp [markStep, hq, hs]
    | some sessions =>
      cases sessions with
      | nil => simp [markStep, hq, hs]
      | cons session rest =>
        unfold markCheckEnrollment
        cases he : selectEnrollment st (.num user.id) session.course_id with
        | none => simp [markStep, hq, hs, he]
        | some es =>
          cases es with
          | nil => simp [markStep, hq, hs, he]
          | cons e es =>
            unfold markCheckExisting
            cases hr : selectRecords st (.str sessionId) (.num user.id) with
            | none => simp [markStep, hq, hs, he, hr]
            | some rs =>
              cases rs with
              | nil => simp [markStep, hq, hs, he, hr]
              | cons r rs => simp [markStep, hq, hs, he, hr]

/-- A store call of a handler leaves the store alone or is the handler's insert. -/
theorem markStep_store (env : Env) (user : Claims) (body : MarkBody) (ip : Option String)
    (clk : MarkClock) (st : Store) (pc : MarkPc) :
    (markStep env user body ip clk st pc).2 = st ∨
    ∃ sid uid status at_ by_ ipa loc,
      (markStep env user body ip clk st pc).2 =
        (insertRecord st sid uid status at_ by_ ipa loc).2 := by
  cases pc with
  | start =>
    left
    simp only [markStep]
    repeat' split
    all_goals rfl
  | gotSession sessionId session =>
    left
    simp only [markStep]
    repeat' split
    all_goals rfl
  | gotEnrollment sessionId session =>
    left
    simp only [markStep]
    repeat' split
    all_goals rfl
  | gotNoRecord sessionId session =>
    exact markInsert_store env st user body ip clk sessionId session
  | done r => left; rfl

/-- An insert never changes or removes a record that is already in the table. -/
theorem insertRecord_prefix (st : Store) (sid uid : Option Int) (status : Option String)
    (at_ : Int) (by_ : String) (ip : Option String) (loc : Option Location) :
    st.attendance_records <+:
      (insertRecord st sid uid status at_ by_ ip loc).2.attendance_records := by
  unfold insertRecord
  simp only []
  split
  · exact List.prefix_append _ _
  · exact List.prefix_refl _

/-- Under every interleaving of the store calls of two handlers the uniqueness
invariant is kept and the records present at the start stay as they were. -/
theorem runTwo_safe (env : Env) (a b : MarkRequest) (schedule : List Bool) :
    ∀ (c : TwoMarks), UniquePairs c.store →
      UniquePairs (schedule.foldl (stepTwo env a b) c).store ∧
      c.store.attendance_records <+:
        (schedule.foldl (stepTwo env a b) c).store.attendance_records := by
  induction schedule with
  | nil => intro c h; exact ⟨h, List.prefix_refl _⟩
  | cons pick schedule ih =>
    intro c h
    have hstep : UniquePairs (stepTwo env a b c pick).store ∧
        c.store.attendance_records <+: (stepTwo env a b c pick).store.attendance_records := by
      unfold stepTwo
      cases pick with
      | true =>
        simp only [if_true]
        rcases markStep_store env a.user a.body a.ip a.clk c.store c.first with h1 | h1
        · rw [h1]; exact ⟨h, List.prefix_refl _⟩
        · obtain ⟨sid, uid, status, at_, by_, ipa, loc, h1⟩ := h1
          rw [h1]
          exact ⟨insertRecord_uniquePairs _ _ _ _ _ _ _ _ h,
            insertRecord_prefix _ _ _ _ _ _ _ _⟩
      | false =>
        simp only [Bool.false_eq_true, if_false]
        rcases markStep_store env b.user b.body b.ip b.clk c.store c.second with h1 | h1
        · rw [h1]; exact ⟨h, List.prefix_refl _⟩
        · obtain ⟨sid, uid, status, at_, by_, ipa, loc, h1⟩ := h1
          rw [h1]
          exact ⟨insertRecord_uniquePairs _ _ _ _ _ _ _ _ h,
            insertRecord_prefix _ _ _ _ _ _ _ _⟩
    obtain ⟨h2, h3⟩ := ih (stepTwo env a b c pick) hstep.1
    exact ⟨h2, hstep.2.trans h3⟩

/-- C5, the code: two submissions of the student for event 1 race.  Both run
their three queries before either inserts; the first insert succeeds, the
second violates `UNIQUE(session_id, student_id)` and its handler answers with
the 500 of the `catch` block, not with `Attendance already marked`.  One record
is stored.  When the first handler finishes before the second starts, the
second answers 400 `Attendance already marked`. -/
theorem C5_race_ends_in_internal_error :
    (runTwo sampleEnv raceFirst raceSecond sampleStore
        [true, true, true, false, false, false, true, false]).first =
      .done ⟨200, .marked "Attendance marked successfully" sampleRecord "present"⟩ ∧
    (runTwo sampleEnv raceFirst raceSecond sampleStore
        [true, true, true, false, false, false, true, false]).second =
      .done ⟨500, .error "Internal server error"⟩ ∧
    (runTwo sampleEnv raceFirst raceSecond sampleStore
        [true, true, true, false, false, false, true, false]).store.attendance_records =
      [sampleRecord] ∧
    (runTwo sampleEnv raceFirst raceSecond sampleStore
        [true, true, true, true, false, false, false, false]).second =
      .done ⟨400, .error "Attendance already marked"⟩ := by
  decide!

/-- The rows the login query returns. -/
theorem mem_selectLoginUsers (st : Store) (body : LoginBody) (u : User) :
    u ∈ selectLoginUsers st body.identifier body.role ↔
      u ∈ st.users ∧ IdentityMatches u body := by
  unfold selectLoginUsers IdentityMatches
  rw [List.mem_filter]
  apply and_congr_right
  intro _
  cases hi : body.identifier.toText with
  | none => simp
  | some i =>
    cases hr : body.role.toText with
    | none => simp
    | some r =>
      simp only [Bool.and_eq_true, Bool.or_eq_true, decide_eq_true_eq, Option.some.injEq]
      constructor
      · rintro ⟨⟨h1, h2⟩, h3⟩
        exact ⟨h3, h2.symm, i, rfl, h1⟩
      · rintro ⟨h3, h2, j, hj, h1⟩
        subst hj
        exact ⟨⟨h1, h2.symm⟩, h3⟩

/-- Login in terms of the first row of its query. -/
theorem login_eq (env : Env) (st : Store) (body : LoginBody) (nowSec : Int) :
    login env st body nowSec =
      match selectLoginUsers st body.identifier body.role with
      | [] => ⟨401, .error "Invalid credentials"⟩
      | u :: _ =>
        match body.password with
        | .str secret =>
          if env.bcryptCompare secret u.password then
            ⟨200, .loggedIn "Login successful"
              (env.jwtSign (loginClaims u nowSec) env.JWT_SECRET) u.withoutPassword⟩
          else ⟨401, .error "Invalid credentials"⟩
        | _ => internalError := by
  unfold login loginClaims
  rfl

/-- C11 as stated fails: a student whose registration number is another
student's email.  Whichever of the two rows the lookup returns first, a login
with the identifier they share and the secret of the other row fails, although
the store holds an active identity of the role with that identifier and a
matching hash. -/
theorem C11_counterexample :
    login sampleEnv (sampleStoreUsers [sampleLecturer, sampleStudent, sampleTwin])
        ⟨.str "student@edu.test", .str "eraser", .str "student"⟩ 1705300000 =
      ⟨401, .error "Invalid credentials"⟩ ∧
    login sampleEnv (sampleStoreUsers [sampleLecturer, sampleTwin, sampleStudent])
        ⟨.str "student@edu.test", .str "pencil", .str "student"⟩ 1705300000 =
      ⟨401, .error "Invalid credentials"⟩ ∧
    IdentityMatches sampleTwin ⟨.str "student@edu.test", .str "eraser", .str "student"⟩ ∧
    sampleEnv.bcryptCompare "eraser" sampleTwin.password = true ∧
    IdentityMatches sampleStudent ⟨.str "student@edu.test", .str "pencil", .str "student"⟩ ∧
    sampleEnv.bcryptCompare "pencil" sampleStudent.password = true := by
  refine ⟨by decide!, by decide!, ⟨by decide!, by decide!, "student@edu.test", rfl, ?_⟩,
    by decide!, ⟨by decide!, by decide!, "student@edu.test", rfl, ?_⟩, by decide!⟩
  · right; decide!
  · left; decide!

/-- C11, amended: a login with a string secret succeeds exactly when the first
row the lookup returns (an active identity of the requested role whose email or
registration number is the identifier) has a stored hash that matches the
secret, and then it returns the token signed for that row and the row without
its password; when at most one row qualifies, it succeeds exactly when the store
holds a matching identity whose hash matches; when it does not succeed it
answers 401 `Invalid credentials`, which carries no token. -/
theorem C11_login_succeeds_iff (env : Env) (st : Store) (body : LoginBody) (nowSec : Int)
    (secret : String) (hsecret : body.password = .str secret) :
    (LoginSucceeds env st body nowSec ↔
      ∃ u rest, selectLoginUsers st body.identifier body.role = u :: rest ∧
        env.bcryptCompare secret u.password = true) ∧
    (∀ u rest, selectLoginUsers st body.identifier body.role = u :: rest →
      env.bcryptCompare secret u.password = true →
      IdentityMatches u body ∧ u ∈ st.users ∧
      login env st body nowSec =
        ⟨200, .loggedIn "Login successful"
          (env.jwtSign (loginClaims u nowSec) env.JWT_SECRET) u.withoutPassword⟩) ∧
    ((selectLoginUsers st body.identifier body.role).length ≤ 1 →
      (LoginSucceeds env st body nowSec ↔
        ∃ u ∈ st.users, IdentityMatches u body ∧
          env.bcryptCompare secret u.password = true)) ∧
    (¬ LoginSucceeds env st body nowSec →
      login env st body nowSec = ⟨401, .error "Invalid credentials"⟩) := by
  have hhead : LoginSucceeds env st body nowSec ↔
      ∃ u rest, selectLoginUsers st body.identifier body.role = u :: rest ∧
        env.bcryptCompare secret u.password = true := by
    unfold LoginSucceeds
    rw [login_eq]
    cases hsel : selectLoginUsers st body.identifier body.role with
    | nil => simp
    | cons u rest =>
      simp only [hsecret]
      by_cases hc : env.bcryptCompare secret u.password = true
      · simp [hc]
      · simp [hc]
  refine ⟨hhead, ?_, ?_, ?_⟩
  · intro u rest hsel hc
    have hmem : u ∈ selectLoginUsers st body.identifier body.role := by
      rw [hsel]; exact List.mem_cons_self _ _
    rw [mem_selectLoginUsers] at hmem
    refine ⟨hmem.2, hmem.1, ?_⟩
    rw [login_eq, hsel]
    simp only [hsecret, hc, if_true]
  · intro hlen
    rw [hhead]
    constructor
    · rintro ⟨u, rest, hsel, hc⟩
      have hmem : u ∈ selectLoginUsers st body.identifier body.role := by
        rw [hsel]; exact List.mem_cons_self _ _
      rw [mem_selectLoginUsers] at hmem
      exact ⟨u, hmem.1, hmem.2, hc⟩
    · rintro ⟨u, hu, hm, hc⟩
      have hmem := (mem_selectLoginUsers st body u).mpr ⟨hu, hm⟩
      cases hsel : selectLoginUsers st body.identifier body.role with
      | nil => rw [hsel] at hmem; exact absurd hmem (List.not_mem_nil _)
      | cons v rest =>
        rw [hsel] at hlen hmem
        have hrest : rest = [] := by
          cases rest with
          | nil => rfl
          | cons w ws => simp at hlen
        subst hrest
        rw [List.mem_singleton] at hmem
        subst hmem
        exact ⟨u, [], rfl, hc⟩
  · intro hno
    rw [hhead] at hno
    rw [login_eq]
    cases hsel : selectLoginUsers st body.identifier body.role with
    | nil => rfl
    | cons u rest =>
      simp only [hsecret]
      by_cases hc : env.bcryptCompare secret u.password = true
      · exact absurd ⟨u, rest, hsel, hc⟩ hno
      · simp [hc]

/-- C11, amended, at the sample store: the student logs in with the right secret
and gets the token signed for the student's row. -/
theorem C11_login_succeeds_iff_witness :
    login sampleEnv sampleStore ⟨.str "student@edu.test", .str "pencil", .str "student"⟩
        1705300000 =
      ⟨200, .loggedIn "Login successful" "token-student@edu.test"
        sampleStudent.withoutPassword⟩ :=
  ((C11_login_succeeds_iff sampleEnv sampleStore
      ⟨.str "student@edu.test", .str "pencil", .str "student"⟩ 1705300000 "pencil" rfl).2.1
    sampleStudent [] (by decide!) (by decide!)).2.2

/-- A text without the separator is one field. -/
theorem splitChars_of_not_mem (sep : Char) (l : List Char) (h : sep ∉ l) :
    splitChars sep l = [l] := by
  induction l with
  | nil => rfl
  | cons c cs ih =>
    rw [List.mem_cons, not_or] at h
    unfold splitChars
    rw [if_neg (fun hc => h.1 hc.symm), ih h.2]

/-- The first field ends at the first separator. -/
theorem splitChars_append_sep (sep : Char) (a b : List Char) (h : sep ∉ a) :
    splitChars sep (a ++ sep :: b) = a :: splitChars sep b := by
  induction a with
  | nil =>
    rw [List.nil_append]
    conv_lhs => unfold splitChars
    rw [if_pos rfl]
  | cons c cs ih =>
    rw [List.mem_cons, not_or] at h
    rw [List.cons_append]
    conv_lhs => unfold splitChars
    rw [if_neg (fun hc => h.1 hc.symm), ih h.2]

/-- The header `Bearer <token>` with a token free of spaces splits into the
scheme and the token. -/
theorem jsSplit_bearer (token : String) (h : ' ' ∉ token.toList) :
    (jsSplit ("Bearer " ++ token) ' ').get? 1 = some token := by
  unfold jsSplit
  have hdata : ("Bearer " ++ token).toList =
      ['B', 'e', 'a', 'r', 'e', 'r'] ++ ' ' :: token.toList := by
    simp only [String.toList, String.data_append]
    rfl
  rw [hdata, splitChars_append_sep ' ' _ _ (by decide), splitChars_of_not_mem ' ' _ h]
  rfl

/-- A successful login found a first row, and signed and returned that row. -/
theorem login_success (env : Env) (st : Store) (body : LoginBody) (nowSec : Int)
    (message token : String) (user : UserWithoutPassword)
    (h : login env st body nowSec = ⟨200, .loggedIn message token user⟩) :
    ∃ u rest, selectLoginUsers st body.identifier body.role = u :: rest ∧
      token = env.jwtSign (loginClaims u nowSec) env.JWT_SECRET ∧
      user = u.withoutPassword := by
  rw [login_eq] at h
  cases hsel : selectLoginUsers st body.identifier body.role with
  | nil => rw [hsel] at h; simp at h
  | cons u rest =>
    rw [hsel] at h
    refine ⟨u, rest, rfl, ?_⟩
    cases hp : body.password with
    | null => rw [hp] at h; simp [internalError] at h
    | num n => rw [hp] at h; simp [internalError] at h
    | frac t => rw [hp] at h; simp [internalError] at h
    | str secret =>
      rw [hp] at h
      simp only [] at h
      by_cases hc : env.bcryptCompare secret u.password = true
      · rw [if_pos hc] at h
        simp only [Response.mk.injEq, Body.loggedIn.injEq, true_and] at h
        exact ⟨h.2.1.symm, h.2.2.symm⟩
      · rw [if_neg hc] at h
        simp at h

/-- C12: the token issued at login for an identity, sent as `Bearer <token>` and
verified by `authenticateToken` with the same `JWT_SECRET` before its expiry,
gives `req.user` the claims signed at login, whose id, role, registration number
and email are those of the identity.  The hypothesis `hlib` is the contract of
the JWT library for this token: before `exp`, `jwt.verify` returns the claims
that `jwt.sign` signed with the same secret. -/
theorem C12_verify_returns_login_claims (env : Env) (st : Store) (body : LoginBody)
    (nowSec now : Int) (roles : List String) (message token : String)
    (user : UserWithoutPassword) (u : User) (rest : List User)
    (hrow : selectLoginUsers st body.identifier body.role = u :: rest)
    (hlogin : login env st body nowSec = ⟨200, .loggedIn message token user⟩)
    (hcompact : ' ' ∉ token.toList ∧ token ≠ "")
    (hbefore : now < nowSec + 24 * 60 * 60)
    (hlib : now < (loginClaims u nowSec).exp →
      env.jwtVerify (env.jwtSign (loginClaims u nowSec) env.JWT_SECRET) env.JWT_SECRET now =
        .ok (loginClaims u nowSec))
    (hrole : roles = [] ∨ u.role ∈ roles) :
    ∃ c, authenticateToken env roles (some ("Bearer " ++ token)) now = .next c ∧
      c = loginClaims u nowSec ∧ c.id = u.id ∧ c.role = u.role ∧
      c.registration_number = u.registration_number ∧ c.email = u.email := by
  obtain ⟨v, rest1, hsel, htoken, -⟩ :=
    login_success env st body nowSec message token user hlogin
  rw [hrow] at hsel
  simp only [List.cons.injEq] at hsel
  obtain ⟨rfl, -⟩ := hsel
  have hv := hlib hbefore
  rw [← htoken] at hv
  refine ⟨loginClaims u nowSec, ?_, rfl, rfl, rfl, rfl, rfl⟩
  unfold authenticateToken
  simp only [Option.some_bind, jsSplit_bearer token hcompact.1, hcompact.2, if_false, hv]
  rw [if_neg]
  rintro ⟨hlen, hnot⟩
  rcases hrole with hr | hr
  · rw [hr] at hlen; simp at hlen
  · exact hnot (by simpa [loginClaims] using hr)

/-- C12 at the sample store: the student logs in at second 1705300000 and
presents the token 9800 seconds later to `isStudent`. -/
theorem C12_verify_returns_login_claims_witness :
    ∃ c, authenticateToken sampleEnv ["student"] (some ("Bearer " ++ "token-student@edu.test"))
        1705309800 = .next c ∧
      c = loginClaims sampleStudent 1705300000 ∧ c.id = sampleStudent.id ∧
      c.role = sampleStudent.role ∧
      c.registration_number = sampleStudent.registration_number ∧
      c.email = sampleStudent.email :=
  C12_verify_returns_login_claims sampleEnv sampleStore
    ⟨.str "student@edu.test", .str "pencil", .str "student"⟩ 1705300000 1705309800
    ["student"] "Login successful" "token-student@edu.test" sampleStudent.withoutPassword
    sampleStudent [] (by decide!) (by decide!) (by decide!) (by decide!)
    (fun _ => by decide!) (by decide!)

/-- C13 as stated fails: the student's token presented at the second of its
expiry, for which `jwt.verify` reports `TokenExpiredError`, and a token that is
no JWT, for which it reports `JsonWebTokenError`, get the same response. -/
theorem C13_counterexample :
    sampleEnv.jwtVerify "token-student@edu.test" sampleEnv.JWT_SECRET 1705386400 =
      .error .TokenExpiredError ∧
    sampleEnv.jwtVerify "garbage" sampleEnv.JWT_SECRET 1705386400 =
      .error .JsonWebTokenError ∧
    authenticateToken sampleEnv ["student"] (some "Bearer token-student@edu.test")
        1705386400 =
      authenticateToken sampleEnv ["student"] (some "Bearer garbage") 1705386400 ∧
    authenticateToken sampleEnv ["student"] (some "Bearer token-student@edu.test")
        1705386400 = .reject ⟨403, .error "Invalid or expired token"⟩ := by
  decide!

/-- C13, amended: for every bearer token that `jwt.verify` rejects, with
`TokenExpiredError` or with any other error, `authenticateToken` answers the one
response 403 `Invalid or expired token` and does not call the handler. -/
theorem C13_rejected_token_single_response (env : Env) (roles : List String)
    (authHeader : Option String) (nowSec : Int) (token : String) (err : JwtError)
    (htoken : authHeader.bind (fun h => (jsSplit h ' ').get? 1) = some token)
    (hne : token ≠ "")
    (hrejected : env.jwtVerify token env.JWT_SECRET nowSec = .error err) :
    authenticateToken env roles authHeader nowSec =
      .reject ⟨403, .error "Invalid or expired token"⟩ ∧
    ∀ user, authenticateToken env roles authHeader nowSec ≠ .next user := by
  have h : authenticateToken env roles authHeader nowSec =
      .reject ⟨403, .error "Invalid or expired token"⟩ := by
    unfold authenticateToken
    simp only [htoken, hne, if_false, hrejected]
  refine ⟨h, ?_⟩
  intro user hu
  rw [h] at hu
  exact AuthResult.noConfusion hu

/-- C13, amended, at the student's token one day and a second after its issue. -/
theorem C13_rejected_token_single_response_witness :
    authenticateToken sampleEnv [] (some "Bearer token-student@edu.test") 1705386401 =
      .reject ⟨403, .error "Invalid or expired token"⟩ ∧
    ∀ user, authenticateToken sampleEnv [] (some "Bearer token-student@edu.test")
      1705386401 ≠ .next user :=
  C13_rejected_token_single_response sampleEnv [] (some "Bearer token-student@edu.test")
    1705386401 "token-student@edu.test" .TokenExpiredError (by decide!) (by decide!)
    (by decide!)

/-- C14: the token a successful login returns is `jwt.sign` of claims that carry
the id, the role and the registration number of the identity returned, with
`iat` the second of the login and `exp - iat = 86400`. -/
theorem C14_token_claims_and_lifetime (env : Env) (st : Store) (body : LoginBody)
    (nowSec : Int) (message token : String) (user : UserWithoutPassword)
    (hlogin : login env st body nowSec = ⟨200, .loggedIn message token user⟩) :
    ∃ u ∈ st.users, ∃ c : Claims,
      user = u.withoutPassword ∧ token = env.jwtSign c env.JWT_SECRET ∧
      c.id = u.id ∧ c.role = u.role ∧ c.registration_number = u.registration_number ∧
      c.email = u.email ∧ c.iat = nowSec ∧ c.exp - c.iat = 86400 := by
  obtain ⟨u, rest, hsel, htoken, huser⟩ :=
    login_success env st body nowSec message token user hlogin
  have hmem : u ∈ selectLoginUsers st body.identifier body.role := by
    rw [hsel]; exact List.mem_cons_self _ _
  rw [mem_selectLoginUsers] at hmem
  refine ⟨u, hmem.1, loginClaims u nowSec, huser, htoken, rfl, rfl, rfl, rfl, rfl, ?_⟩
  simp only [loginClaims]
  omega

/-- C14 at the sample store: the student's login at second 1705300000. -/
theorem C14_token_claims_and_lifetime_witness :
    ∃ u ∈ sampleStore.users, ∃ c : Claims,
      sampleStudent.withoutPassword = u.withoutPassword ∧
      "token-student@edu.test" = sampleEnv.jwtSign c sampleEnv.JWT_SECRET ∧
      c.id = u.id ∧ c.role = u.role ∧ c.registration_number = u.registration_number ∧
      c.email = u.email ∧ c.iat = 1705300000 ∧ c.exp - c.iat = 86400 :=
  C14_token_claims_and_lifetime sampleEnv sampleStore
    ⟨.str "student@edu.test", .str "pencil", .str "student"⟩ 1705300000
    "Login successful" "token-student@edu.test" sampleStudent.withoutPassword (by decide!)

/-- A successful session insert returns a row under the next sequence value, with
the payload and the expiry it was given, and stores it. -/
theorem insertSession_some {env : Env} {st st1 : Store} {course_id lecturer_id session_date
    start_time end_time : Param} {qr : String} {expiry : Int}
    {latitude longitude radius : Param} {now : Int} {row : Session}
    (h : insertSession env st course_id lecturer_id session_date start_time end_time qr
      expiry latitude longitude radius now = (some row, st1)) :
    row.id = st.attendance_sessions_id_seq ∧ row.qr_code_data = some qr ∧
    row.qr_code_expiry = some expiry ∧ row.status = some "active" ∧
    row ∈ st1.attendance_sessions := by
  unfold insertSession at h
  split at h
  · simp only [] at h
    split at h
    · split at h
      · simp only [Prod.mk.injEq, Option.some.injEq] at h
        obtain ⟨h1, h2⟩ := h
        subst h1 h2
        simp
      · simp at h
    · simp at h
  · simp at h

/-- A successful create-session call returns the minted payload and the row the
insert stored with that payload and with the expiry 30 minutes after the
reading of `new Date()`. -/
theorem createSession_success {env : Env} {st st1 : Store} {user : Claims}
    {body : CreateSessionBody} {clk : CreateClock} {message url qr : String} {row : Session}
    (h : createSession env st user body clk =
      (⟨200, .sessionCreated message row url qr⟩, st1)) :
    qr = mintQrData env clk ∧ url = env.toDataURL qr ∧
    row.id = st.attendance_sessions_id_seq ∧ row.qr_code_data = some qr ∧
    row.qr_code_expiry = some (clk.expiryBase + 30 * 60 * 1000) ∧
    row.status = some "active" ∧ row ∈ st1.attendance_sessions := by
  unfold createSession at h
  simp only [] at h
  split at h
  · simp [internalError] at h
  · rename_i hins
    simp only [Prod.mk.injEq, Response.mk.injEq, Body.sessionCreated.injEq, true_and] at h
    obtain ⟨⟨-, hrow, hurl, hqr⟩, hst⟩ := h
    subst hrow hst
    obtain ⟨h1, h2, h3, h4, h5⟩ := insertSession_some hins
    rw [← hqr]
    exact ⟨rfl, hurl.symm, h1, h2, h3, h4, h5⟩

/-- The base-36 digits are no colons. -/
theorem base36Digit_ne_colon (d : Nat) (h : d < 36) : base36Digit d ≠ ':' := by
  interval_cases d <;> decide

/-- The base-36 form of a number contains no colon. -/
theorem toBase36Aux_no_colon : ∀ (fuel n : Nat) (acc : List Char),
    ':' ∉ acc → ':' ∉ toBase36Aux fuel n acc := by
  intro fuel
  induction fuel with
  | zero => intro n acc h; exact h
  | succ f ih =>
    intro n acc h
    unfold toBase36Aux
    split
    · rename_i hn
      rw [List.mem_cons, not_or]
      exact ⟨fun hc => base36Digit_ne_colon n hn hc.symm, h⟩
    · apply ih
      rw [List.mem_cons, not_or]
      exact ⟨fun hc => base36Digit_ne_colon (n % 36) (Nat.mod_lt _ (by norm_num)) hc.symm, h⟩

/-- The decimal digits are no colons. -/
theorem digitChar_ne_colon (d : Nat) (h : d < 10) : Nat.digitChar d ≠ ':' := by
  interval_cases d <;> decide

/-- The decimal form of a number contains no colon. -/
theorem toDigitsCore_no_colon : ∀ (fuel n : Nat) (acc : List Char),
    ':' ∉ acc → ':' ∉ Nat.toDigitsCore 10 fuel n acc := by
  intro fuel
  induction fuel with
  | zero => intro n acc h; exact h
  | succ f ih =>
    intro n acc h
    unfold Nat.toDigitsCore
    have hd : ':' ∉ Nat.digitChar (n % 10) :: acc := by
      rw [List.mem_cons, not_or]
      exact ⟨fun hc => digitChar_ne_colon (n % 10) (Nat.mod_lt _ (by norm_num)) hc.symm, h⟩
    simp only []
    split
    · exact hd
    · exact ih _ _ hd

/-- The text a template literal gives a non-negative integer contains no colon. -/
theorem toString_nat_no_colon (n : Nat) : ':' ∉ (toString n).toList := by
  show ':' ∉ (Nat.toDigits 10 n)
  exact toDigitsCore_no_colon _ _ _ (List.not_mem_nil _)

/-- Three fields free of colons, joined by colons, split into the three fields. -/
theorem jsSplit_three (a b c : String) (ha : ':' ∉ a.toList) (hb : ':' ∉ b.toList)
    (hc : ':' ∉ c.toList) : jsSplit (a ++ ":" ++ b ++ ":" ++ c) ':' = [a, b, c] := by
  unfold jsSplit
  have hdata : (a ++ ":" ++ b ++ ":" ++ c).toList =
      a.toList ++ ':' :: (b.toList ++ ':' :: c.toList) := by
    simp only [String.toList, String.data_append]
    simp
  rw [hdata, splitChars_append_sep ':' _ _ ha, splitChars_append_sep ':' _ _ hb,
    splitChars_of_not_mem ':' _ hc]
  rfl

/-- C15: the payload a successful create-session call returns and stores is
`s ++ ":" ++ decimal(t) ++ ":" ++ hmac(secret, s ++ ":" ++ decimal(t))` for
the session id `s` and the timestamp `t` it generated; with a random tail and a
digest free of colons (base-36 and hexadecimal digits) it splits on `:` into
exactly these three fields. -/
theorem C15_payload_format (env : Env) (st st1 : Store) (user : Claims)
    (body : CreateSessionBody) (clk : CreateClock) (message url qr : String) (row : Session)
    (hcreated : createSession env st user body clk =
      (⟨200, .sessionCreated message row url qr⟩, st1))
    (htail : ':' ∉ clk.randomTail.toList)
    (hhex : ':' ∉ (env.hmacSha256Hex env.JWT_SECRET
      (mintSessionId clk ++ ":" ++ toString clk.timestampNow)).toList) :
    qr = mintSessionId clk ++ ":" ++ toString clk.timestampNow ++ ":" ++
      env.hmacSha256Hex env.JWT_SECRET
        (mintSessionId clk ++ ":" ++ toString clk.timestampNow) ∧
    row.qr_code_data = some qr ∧
    jsSplit qr ':' = [mintSessionId clk, toString clk.timestampNow,
      env.hmacSha256Hex env.JWT_SECRET
        (mintSessionId clk ++ ":" ++ toString clk.timestampNow)] := by
  obtain ⟨hqr, -, -, hdata, -, -, -⟩ := createSession_success hcreated
  have hform : qr = mintSessionId clk ++ ":" ++ toString clk.timestampNow ++ ":" ++
      env.hmacSha256Hex env.JWT_SECRET
        (mintSessionId clk ++ ":" ++ toString clk.timestampNow) := by
    rw [hqr]; rfl
  refine ⟨hform, hdata, ?_⟩
  rw [hform]
  apply jsSplit_three _ _ _ _ (toString_nat_no_colon _) hhex
  unfold mintSessionId toBase36
  simp only [String.toList, String.data_append, List.mem_append, not_or]
  exact ⟨toBase36Aux_no_colon _ _ _ (List.not_mem_nil _), htail⟩

/-- C15 at the event the lecturer creates at 09:00:00. -/
theorem C15_payload_format_witness :
    "lrep2g00k3j9x:1705309200000:87e2ffd9" =
      mintSessionId sampleCreateClock ++ ":" ++ toString sampleCreateClock.timestampNow ++
        ":" ++ sampleEnv.hmacSha256Hex sampleEnv.JWT_SECRET
          (mintSessionId sampleCreateClock ++ ":" ++
            toString sampleCreateClock.timestampNow) ∧
    sampleCreatedRow.qr_code_data = some "lrep2g00k3j9x:1705309200000:87e2ffd9" ∧
    jsSplit "lrep2g00k3j9x:1705309200000:87e2ffd9" ':' =
      [mintSessionId sampleCreateClock, toString sampleCreateClock.timestampNow,
        sampleEnv.hmacSha256Hex sampleEnv.JWT_SECRET
          (mintSessionId sampleCreateClock ++ ":" ++
            toString sampleCreateClock.timestampNow)] :=
  C15_payload_format sampleEnv sampleStoreNoSession sampleCreated.2 lecturerClaims
    sampleCreateBody sampleCreateClock "Attendance session created"
    "data:image/png;lrep2g00k3j9x:1705309200000:87e2ffd9"
    "lrep2g00k3j9x:1705309200000:87e2ffd9" sampleCreatedRow (by decide!) (by decide!)
    (by decide!)

/-- C16, the code: payloads for the live event 1 with one field, with four
fields, and with a second field that is no number are all accepted and recorded
`present`; the handler reads only the first field (the defect of C2: neither the
timestamp nor the signature is ever examined). -/
theorem C16_malformed_payload_accepted :
    markAttendance sampleEnv sampleStore studentClaims (markBodyOf "1") none
        (clockAt 1705309800000) =
      (⟨200, .marked "Attendance marked successfully" sampleRecord "present"⟩,
        sampleMarkedStore) ∧
    markAttendance sampleEnv sampleStore studentClaims (markBodyOf "1:1705309200000:ab:cd")
        none (clockAt 1705309800000) =
      (⟨200, .marked "Attendance marked successfully" sampleRecord "present"⟩,
        sampleMarkedStore) ∧
    markAttendance sampleEnv sampleStore studentClaims (markBodyOf "1:yesterday:5ca1ab1e")
        none (clockAt 1705309800000) =
      (⟨200, .marked "Attendance marked successfully" sampleRecord "present"⟩,
        sampleMarkedStore) ∧
    sampleMarkedStore.attendance_records = [sampleRecord] := by
  decide!

/-- C17 as stated fails: when `new Date()` is read 42 ms after the `Date.now()`
of the payload timestamp, the stored expiry is 1705311000042, not the payload
timestamp 1705309200000 plus 1800000. -/
theorem C17_counterexample :
    (createSession sampleEnv sampleStoreNoSession lecturerClaims sampleCreateBody
        sampleLateClock).1 =
      ⟨200, .sessionCreated "Attendance session created"
        { sampleCreatedRow with qr_code_expiry := some 1705311000042,
                                created_at := 1705309200042 }
        "data:image/png;lrep2g00k3j9x:1705309200000:87e2ffd9"
        "lrep2g00k3j9x:1705309200000:87e2ffd9"⟩ ∧
    jsSplit "lrep2g00k3j9x:1705309200000:87e2ffd9" ':' =
      ["lrep2g00k3j9x", "1705309200000", "87e2ffd9"] ∧
    (1705311000042 : Int) ≠ 1705309200000 + 1800000 := by
  decide!

/-- C17, amended: the expiry a successful create-session call stores on the event
is the instant of `new Date()`, read after the payload was built, plus
1800000 ms; it is the payload timestamp plus 1800000 ms when the two clock
readings coincide, and not earlier than that when the second reading is not
before the first. -/
theorem C17_expiry_thirty_minutes_after_new_date (env : Env) (st st1 : Store) (user : Claims)
    (body : CreateSessionBody) (clk : CreateClock) (message url qr : String) (row : Session)
    (hcreated : createSession env st user body clk =
      (⟨200, .sessionCreated message row url qr⟩, st1)) :
    row ∈ st1.attendance_sessions ∧
    row.qr_code_expiry = some (clk.expiryBase + 1800000) ∧
    (clk.expiryBase = (clk.timestampNow : Int) →
      row.qr_code_expiry = some ((clk.timestampNow : Int) + 1800000)) ∧
    ((clk.timestampNow : Int) ≤ clk.expiryBase →
      ∃ e, row.qr_code_expiry = some e ∧ (clk.timestampNow : Int) + 1800000 ≤ e) := by
  obtain ⟨-, -, -, -, hexp, -, hmem⟩ := createSession_success hcreated
  have hexp1 : row.qr_code_expiry = some (clk.expiryBase + 1800000) := by
    rw [hexp]
    norm_num
  refine ⟨hmem, hexp1, ?_, ?_⟩
  · intro h
    rw [hexp1, h]
  · intro h
    exact ⟨_, hexp1, by omega⟩

/-- C17, amended, at the event the lecturer creates at 09:00:00 with all clock
readings in the same millisecond. -/
theorem C17_expiry_thirty_minutes_after_new_date_witness :
    sampleCreatedRow ∈ sampleCreated.2.attendance_sessions ∧
    sampleCreatedRow.qr_code_expiry = some (sampleCreateClock.expiryBase + 1800000) ∧
    (sampleCreateClock.expiryBase = (sampleCreateClock.timestampNow : Int) →
      sampleCreatedRow.qr_code_expiry =
        some ((sampleCreateClock.timestampNow : Int) + 1800000)) ∧
    ((sampleCreateClock.timestampNow : Int) ≤ sampleCreateClock.expiryBase →
      ∃ e, sampleCreatedRow.qr_code_expiry = some e ∧
        (sampleCreateClock.timestampNow : Int) + 1800000 ≤ e) :=
  C17_expiry_thirty_minutes_after_new_date sampleEnv sampleStoreNoSession sampleCreated.2
    lecturerClaims sampleCreateBody sampleCreateClock "Attendance session created"
    "data:image/png;lrep2g00k3j9x:1705309200000:87e2ffd9"
    "lrep2g00k3j9x:1705309200000:87e2ffd9" sampleCreatedRow (by decide!)

/-- The session query for a first field that is the integer `k` returns the rows
that pass `liveSession k`. -/
theorem selectActiveSession_of_int4in (st : Store) (sessionId : String) (k now : Int)
    (hk : int4in sessionId = some k) :
    selectActiveSession st (.str sessionId) now =
      some (st.attendance_sessions.filter (liveSession k now)) := by
  unfold selectActiveSession
  simp only [Param.toInt4, hk, Option.map_some']
  rfl

/-- A row passes `liveSession` when it has the id, is active and expires later. -/
theorem liveSession_iff (k now : Int) (s : Session) :
    liveSession k now s = true ↔
      s.id = k ∧ s.status = some "active" ∧ ∃ e, s.qr_code_expiry = some e ∧ now < e := by
  unfold liveSession
  rw [Bool.and_eq_true, Bool.and_eq_true, sqlEq_some_iff]
  cases he : s.qr_code_expiry <;> simp [and_assoc]

/-- C18 as stated fails: a submission for the active event 1 at the instant of
its expiry, 1705311000000, is rejected as expired; one millisecond earlier it is
accepted. -/
theorem C18_counterexample :
    sampleSession.qr_code_expiry = some 1705311000000 ∧
    sampleSession.status = some "active" ∧
    markAttendance sampleEnv sampleStore studentClaims (markBodyOf sampleQr) none
        (clockAt 1705311000000) =
      (⟨400, .error "Invalid or expired QR code"⟩, sampleStore) ∧
    (markAttendance sampleEnv sampleStore studentClaims (markBodyOf sampleQr) none
        (clockAt 1705310999999)).1.status = 200 := by
  decide!

/-- C18, amended: the session query tests `qr_code_expiry > NOW()`.  For an
active event with expiry `e`, a submission at store time `now` with `e ≤ now`,
the instant `now = e` included, is rejected with 400 `Invalid or expired QR
code` and the store unchanged; one with `now < e` is passed on to the
enrollment check. -/
theorem C18_expired_iff_now_not_before_expiry (env : Env) (st : Store) (user : Claims)
    (body : MarkBody) (ip : Option String) (clk : MarkClock) (sessionId : String)
    (session : Session) (e : Int)
    (hid : qrSessionId body.qr_data = some sessionId)
    (hk : int4in sessionId = some session.id)
    (hmem : session ∈ st.attendance_sessions)
    (hkey : ∀ s ∈ st.attendance_sessions, s.id = session.id → s = session)
    (hactive : session.status = some "active")
    (hexp : session.qr_code_expiry = some e) :
    (e ≤ clk.sessionQueryNow →
      markAttendance env st user body ip clk =
        (⟨400, .error "Invalid or expired QR code"⟩, st)) ∧
    (clk.sessionQueryNow < e →
      markAttendance env st user body ip clk =
        markCheckEnrollment env st user body ip clk sessionId session) := by
  have hsel := selectActiveSession_of_int4in st sessionId session.id clk.sessionQueryNow hk
  constructor
  · intro hle
    have hnil : st.attendance_sessions.filter (liveSession session.id clk.sessionQueryNow) =
        [] := by
      rw [List.filter_eq_nil_iff]
      intro s hs hlive
      rw [liveSession_iff] at hlive
      obtain ⟨h1, -, e1, h3, h4⟩ := hlive
      have := hkey s hs h1
      subst this
      rw [hexp] at h3
      simp only [Option.some.injEq] at h3
      omega
    unfold markAttendance
    simp only [hid, hsel, hnil]
  · intro hlt
    have hlive : session ∈
        st.attendance_sessions.filter (liveSession session.id clk.sessionQueryNow) := by
      rw [List.mem_filter, liveSession_iff]
      exact ⟨hmem, rfl, hactive, e, hexp, hlt⟩
    cases hf : st.attendance_sessions.filter (liveSession session.id clk.sessionQueryNow) with
    | nil => rw [hf] at hlive; exact absurd hlive (List.not_mem_nil _)
    | cons x xs =>
      have hx : x ∈
          st.attendance_sessions.filter (liveSession session.id clk.sessionQueryNow) := by
        rw [hf]; exact List.mem_cons_self _ _
      rw [List.mem_filter, liveSession_iff] at hx
      have hxs := hkey x hx.1 hx.2.1
      subst hxs
      unfold markAttendance
      simp only [hid, hsel, hf]

/-- C18, amended, at the sample store: event 1 at the instant of its expiry. -/
theorem C18_expired_iff_now_not_before_expiry_witness :
    markAttendance sampleEnv sampleStore studentClaims (markBodyOf sampleQr) none
        (clockAt 1705311000000) =
      (⟨400, .error "Invalid or expired QR code"⟩, sampleStore) :=
  (C18_expired_iff_now_not_before_expiry sampleEnv sampleStore studentClaims
    (markBodyOf sampleQr) none (clockAt 1705311000000) "1" sampleSession 1705311000000
    (by decide!) (by decide!) (by decide!) (by decide!) (by decide!) (by decide!)).1
    (by decide!)

/-- A successful insert returns the row it was given under the next sequence
value and appends it to the table. -/
theorem insertRecord_some_row {st st1 : Store} {sid uid : Option Int}
    {status : Option String} {at_ : Int} {by_ : String} {ip : Option String}
    {loc : Option Location} {row : AttendanceRecord}
    (h : insertRecord st sid uid status at_ by_ ip loc = (some row, st1)) :
    row = { id := st.attendance_records_id_seq, session_id := sid, student_id := uid,
            marked_at := at_, status := status, marked_by := by_, ip_address := ip,
            device_info := none, location_data := loc } ∧
    st1.attendance_records = st.attendance_records ++ [row] := by
  unfold insertRecord at h
  simp only [] at h
  split at h
  · simp only [Prod.mk.injEq, Option.some.injEq] at h
    obtain ⟨h1, h2⟩ := h
    subst h1 h2
    exact ⟨rfl, rfl⟩
  · simp at h

/-- An accepted submission ends in a successful insert of its row. -/
theorem markAttendance_accepted {env : Env} {st st1 : Store} {user : Claims}
    {body : MarkBody} {ip : Option String} {clk : MarkClock} {message status : String}
    {row : AttendanceRecord}
    (h : markAttendance env st user body ip clk =
      (⟨200, .marked message row status⟩, st1)) :
    ∃ k u, (Param.num user.id).toInt4 = some u ∧
      insertRecord st k u (some status) clk.insertNow "system" ip
        (some ⟨body.latitude, body.longitude⟩) = (some row, st1) := by
  unfold markAttendance at h
  split at h
  · simp [internalError] at h
  · split at h
    · simp [internalError] at h
    · simp at h
    · unfold markCheckEnrollment at h
      split at h
      · simp [internalError] at h
      · simp at h
      · unfold markCheckExisting at h
        split at h
        · simp [internalError] at h
        · simp at h
        · unfold markInsert at h
          simp only [] at h
          split at h
          swap
          · simp [internalError] at h
          rename_i k u _ hu
          split at h
          swap
          · simp [internalError] at h
          split at h
          · simp [internalError] at h
          · rename_i hins
            simp only [Prod.mk.injEq, Response.mk.injEq, Body.marked.injEq, true_and] at h
            obtain ⟨⟨-, hrow, hstatus⟩, hst1⟩ := h
            subst hrow hst1 hstatus
            exact ⟨k, u, hu, hins⟩

/-- C19 as stated fails: the record of an accepted submission sent from
203.0.113.9 with a location has `marked_by = 'system'` and no device information
at all; the handler has no input for device information. -/
theorem C19_counterexample :
    markAttendance sampleEnv sampleStore studentClaims sampleLocatedBody
        (some "203.0.113.9") (clockAt 1705309800000) =
      (⟨200, .marked "Attendance marked successfully"
          { id := 1, session_id := some 1, student_id := some 7, marked_at := 1705309800000,
            status := some "present", marked_by := "system",
            ip_address := some "203.0.113.9", device_info := none,
            location_data := some ⟨.str "-1.2921", .str "36.8219"⟩ } "present"⟩,
       { sampleStore with
         attendance_records :=
           [{ id := 1, session_id := some 1, student_id := some 7,
              marked_at := 1705309800000, status := some "present", marked_by := "system",
              ip_address := some "203.0.113.9", device_info := none,
              location_data := some ⟨.str "-1.2921", .str "36.8219"⟩ }],
         attendance_records_id_seq := 2 }) := by
  decide!

/-- C19, amended: the record created by an accepted mark-attendance submission is
stored with `marked_by = 'system'`, the column default that marks self-service
records, with the request's IP address and the submitted latitude and longitude
verbatim, for the authenticated student at the store time of the insert, and
with `device_info` left `NULL`. -/
theorem C19_record_metadata (env : Env) (st st1 : Store) (user : Claims) (body : MarkBody)
    (ip : Option String) (clk : MarkClock) (message status : String)
    (row : AttendanceRecord)
    (haccepted : markAttendance env st user body ip clk =
      (⟨200, .marked message row status⟩, st1)) :
    st1.attendance_records = st.attendance_records ++ [row] ∧
    row.marked_by = "system" ∧ row.ip_address = ip ∧
    row.location_data = some ⟨body.latitude, body.longitude⟩ ∧
    row.device_info = none ∧ row.student_id = some user.id ∧
    row.marked_at = clk.insertNow ∧ row.status = some status := by
  obtain ⟨k, u, hu, hins⟩ := markAttendance_accepted haccepted
  obtain ⟨hrow, hrecords⟩ := insertRecord_some_row hins
  have huid : u = some user.id := by
    simp only [Param.toInt4] at hu
    unfold inInt4 at hu
    split at hu
    · simp only [Option.map_some', Option.some.injEq] at hu
      exact hu.symm
    · simp at hu
  refine ⟨hrecords, ?_, ?_, ?_, ?_, ?_, ?_, ?_⟩ <;> rw [hrow]
  exact huid

/-- C19, amended, at the submission sent from 203.0.113.9 with a location. -/
theorem C19_record_metadata_witness :
    (markAttendance sampleEnv sampleStore studentClaims sampleLocatedBody
        (some "203.0.113.9") (clockAt 1705309800000)).2.attendance_records =
      sampleStore.attendance_records ++
        [{ id := 1, session_id := some 1, student_id := some 7, marked_at := 1705309800000,
           status := some "present", marked_by := "system",
           ip_address := some "203.0.113.9", device_info := none,
           location_data := some ⟨.str "-1.2921", .str "36.8219"⟩ }] :=
  (C19_record_metadata sampleEnv sampleStore
    (markAttendance sampleEnv sampleStore studentClaims sampleLocatedBody
      (some "203.0.113.9") (clockAt 1705309800000)).2 studentClaims sampleLocatedBody
    (some "203.0.113.9") (clockAt 1705309800000) "Attendance marked successfully" "present"
    { id := 1, session_id := some 1, student_id := some 7, marked_at := 1705309800000,
      status := some "present", marked_by := "system", ip_address := some "203.0.113.9",
      device_info := none, location_data := some ⟨.str "-1.2921", .str "36.8219"⟩ }
    (by decide!)).1

/-- The query for an existing record, for integer ids `k` and `u`, returns the
records of the pair `(k, u)`. -/
theorem selectRecords_of_ids (st : Store) (sid uid : Param) (k u : Int)
    (hk : sid.toInt4 = some (some k)) (hu : uid.toInt4 = some (some u)) :
    selectRecords st sid uid =
      some (st.attendance_records.filter (fun r =>
        decide (r.session_id = some k ∧ r.student_id = some u))) := by
  unfold selectRecords
  simp only [hk, hu]
  congr 1
  apply List.filter_congr
  intro r _
  rw [Bool.eq_iff_iff, Bool.and_eq_true, sqlEq_some_iff, sqlEq_some_iff, decide_eq_true_iff]

/-- A new row for the pair `(k, u)` passes the constraints when its id is fresh,
its status passes the check, the event and the user exist and the pair has no
record. -/
theorem recordAdmissible_of (st : Store) (row : AttendanceRecord) (k u : Int)
    (hsid : row.session_id = some k) (huid : row.student_id = some u)
    (hfresh : ∀ r ∈ st.attendance_records, r.id ≠ row.id)
    (hstatus : statusCheck row.status = true)
    (hsession : ∃ s ∈ st.attendance_sessions, s.id = k)
    (huser : ∃ x ∈ st.users, x.id = u)
    (hnone : ∀ r ∈ st.attendance_records,
      ¬ (r.session_id = some k ∧ r.student_id = some u)) :
    recordAdmissible st row = true := by
  unfold recordAdmissible
  rw [hsid, huid]
  simp only [Bool.and_eq_true, Bool.not_eq_true', List.any_eq_false, List.any_eq_true,
    decide_eq_true_eq, sqlEq_some_iff]
  refine ⟨⟨⟨⟨?_, hstatus⟩, hsession⟩, huser⟩, ?_⟩
  · intro r hr
    exact hfresh r hr
  · intro r hr
    simpa using hnone r hr

/-- C20 as stated fails: a manual override with a status outside the list of the
`CHECK` constraint, and one for an event that does not exist, end in the 500 of
the `catch` block and leave the pair without a record. -/
theorem C20_counterexample :
    (manualAttendance sampleStore ⟨.num 1, .num 7, .str "holiday"⟩ 1705310000000).1 =
      ⟨500, .error "Internal server error"⟩ ∧
    recordCount (manualAttendance sampleStore ⟨.num 1, .num 7, .str "holiday"⟩
      1705310000000).2 1 7 = 0 ∧
    (manualAttendance sampleStore ⟨.num 99, .num 7, .str "present"⟩ 1705310000000).1 =
      ⟨500, .error "Internal server error"⟩ ∧
    recordCount (manualAttendance sampleStore ⟨.num 99, .num 7, .str "present"⟩
      1705310000000).2 99 7 = 0 := by
  decide!

/-- C20, amended: in a store that keeps the pair-uniqueness constraint, for a
manual override whose ids are the integers `k` and `u` and whose status passes
the `CHECK` constraint, and, when the pair has no record yet, whose event and
student exist while the id sequence is ahead of the stored ids: the handler
answers 200, afterwards exactly one record of the pair exists and every record
of the pair has the given status; if none existed the table grew by exactly one
record and the pair has a record with `marked_by = 'manual'`; if one existed
the number of records is unchanged. -/
theorem C20_manual_override_upsert (st : Store) (body : ManualBody) (now k u : Int)
    (hk : body.session_id.toInt4 = some (some k))
    (hu : body.student_id.toInt4 = some (some u))
    (hstatus : statusCheck body.status.toText = true)
    (hunique : UniquePairs st)
    (hnew : recordCount st k u = 0 →
      (∃ s ∈ st.attendance_sessions, s.id = k) ∧ (∃ x ∈ st.users, x.id = u) ∧
      ∀ r ∈ st.attendance_records, r.id ≠ st.attendance_records_id_seq) :
    (manualAttendance st body now).1 = ⟨200, .message "Attendance marked successfully"⟩ ∧
    recordCount (manualAttendance st body now).2 k u = 1 ∧
    (∀ r ∈ (manualAttendance st body now).2.attendance_records,
      r.session_id = some k → r.student_id = some u → r.status = body.status.toText) ∧
    (recordCount st k u = 0 →
      (manualAttendance st body now).2.attendance_records.length =
        st.attendance_records.length + 1 ∧
      ∃ r ∈ (manualAttendance st body now).2.attendance_records,
        r.session_id = some k ∧ r.student_id = some u ∧ r.marked_by = "manual") ∧
    (recordCount st k u ≠ 0 →
      (manualAttendance st body now).2.attendance_records.length =
        st.attendance_records.length) := by
  have hsel := selectRecords_of_ids st body.session_id body.student_id k u hk hu
  cases hL : st.attendance_records.filter (fun r =>
      decide (r.session_id = some k ∧ r.student_id = some u)) with
  | nil =>
    have hcount : recordCount st k u = 0 := by
      unfold recordCount
      rw [hL]
      rfl
    obtain ⟨hsession, huser, hfresh⟩ := hnew hcount
    have hnone : ∀ r ∈ st.attendance_records,
        ¬ (r.session_id = some k ∧ r.student_id = some u) := by
      intro r hr hp
      have : r ∈ st.attendance_records.filter (fun r =>
          decide (r.session_id = some k ∧ r.student_id = some u)) := by
        rw [List.mem_filter]
        exact ⟨hr, by simpa using hp⟩
      rw [hL] at this
      exact absurd this (List.not_mem_nil _)
    have hadm := recordAdmissible_of st
      { id := st.attendance_records_id_seq, session_id := some k, student_id := some u,
        marked_at := now, status := body.status.toText, marked_by := "manual",
        ip_address := none, device_info := none, location_data := none }
      k u rfl rfl hfresh hstatus hsession huser hnone
    have hrun : manualAttendance st body now =
        (⟨200, .message "Attendance marked successfully"⟩,
          { st with
            attendance_records_id_seq := st.attendance_records_id_seq + 1,
            attendance_records := st.attendance_records ++
              [{ id := st.attendance_records_id_seq, session_id := some k,
                 student_id := some u, marked_at := now, status := body.status.toText,
                 marked_by := "manual", ip_address := none, device_info := none,
                 location_data := none }] }) := by
      unfold manualAttendance
      simp only [hsel, hL, hk, hu]
      unfold insertRecord
      simp only [hadm, if_true]
    rw [hrun]
    refine ⟨rfl, ?_, ?_, ?_, ?_⟩
    · simp only [recordCount, List.filter_append, hL]
      simp
    · intro r hr h1 h2
      simp only [List.mem_append, List.mem_singleton] at hr
      rcases hr with hr | hr
      · exact absurd ⟨h1, h2⟩ (hnone r hr)
      · rw [hr]
    · intro _
      refine ⟨by simp, _, List.mem_append_right _ (List.mem_singleton_self _), rfl, rfl, rfl⟩
    · intro h
      exact absurd hcount h
  | cons x xs =>
    have hxmem : x ∈ st.attendance_records.filter (fun r =>
        decide (r.session_id = some k ∧ r.student_id = some u)) := by
      rw [hL]; exact List.mem_cons_self _ _
    have hxs : xs = [] := by
      have h1 := hunique k u
      unfold recordCount at h1
      rw [hL] at h1
      cases xs with
      | nil => rfl
      | cons y ys => simp at h1
    subst hxs
    have hcount : recordCount st k u = 1 := by
      unfold recordCount
      rw [hL]
      rfl
    have hpair : ∀ r ∈ st.attendance_records,
        r.session_id = some k → r.student_id = some u → r = x := by
      intro r hr h1 h2
      have : r ∈ st.attendance_records.filter (fun r =>
          decide (r.session_id = some k ∧ r.student_id = some u)) := by
        rw [List.mem_filter]
        exact ⟨hr, by simpa using ⟨h1, h2⟩⟩
      rw [hL, List.mem_singleton] at this
      exact this
    have hrun : manualAttendance st body now =
        (⟨200, .message "Attendance marked successfully"⟩,
          { st with attendance_records := st.attendance_records.map (fun r =>
              if r.id = x.id then { r with status := body.status.toText, marked_at := now }
              else r) }) := by
      unfold manualAttendance
      simp only [hsel, hL]
      unfold updateRecordStatus
      simp only [hstatus, Bool.not_true, Bool.and_false, Bool.false_eq_true, if_false]
    rw [hrun]
    refine ⟨rfl, ?_, ?_, ?_, ?_⟩
    · rw [← hcount]
      simp only [recordCount, List.filter_map, List.length_map]
      congr 1
      apply List.filter_congr
      intro r _
      simp only [Function.comp]
      split <;> rfl
    · intro r hr h1 h2
      simp only [List.mem_map] at hr
      obtain ⟨r0, hr0, hr0eq⟩ := hr
      by_cases hid : r0.id = x.id
      · rw [if_pos hid] at hr0eq
        rw [← hr0eq]
      · rw [if_neg hid] at hr0eq
        subst hr0eq
        exact absurd (congrArg AttendanceRecord.id (hpair r0 hr0 h1 h2)) hid
    · intro h
      rw [hcount] at h
      exact absurd h (by decide)
    · intro _
      simp

/-- C20, amended, at the sample store: the lecturer marks the student `excused`
for event 1 while no record of the pair exists. -/
theorem C20_manual_override_upsert_witness :
    (manualAttendance sampleStore ⟨.num 1, .num 7, .str "excused"⟩ 1705310000000).1 =
      ⟨200, .message "Attendance marked successfully"⟩ ∧
    recordCount (manualAttendance sampleStore ⟨.num 1, .num 7, .str "excused"⟩
      1705310000000).2 1 7 = 1 :=
  ⟨(C20_manual_override_upsert sampleStore ⟨.num 1, .num 7, .str "excused"⟩ 1705310000000
      1 7 (by decide!) (by decide!) (by decide!) (fun _ _ => Nat.zero_le 1)
      (fun _ => by decide!)).1,
   (C20_manual_override_upsert sampleStore ⟨.num 1, .num 7, .str "excused"⟩ 1705310000000
      1 7 (by decide!) (by decide!) (by decide!) (fun _ _ => Nat.zero_le 1)
      (fun _ => by decide!)).2.1⟩

/-- C21: when a manual override for the pair `(k, u)` finds a record of the pair,
in a table whose ids are a key, every record keeps its id, session_id,
student_id, marked_by, ip_address, device_info and location_data, and every
record of another pair is unchanged; only status and marked_at of the pair's
record can differ. -/
theorem C21_manual_update_frame (st : Store) (body : ManualBody) (now k u : Int)
    (hk : body.session_id.toInt4 = some (some k))
    (hu : body.student_id.toInt4 = some (some u))
    (hkey : ∀ r1 ∈ st.attendance_records, ∀ r2 ∈ st.attendance_records,
      r1.id = r2.id → r1 = r2)
    (hexists : ∃ r ∈ st.attendance_records, r.session_id = some k ∧ r.student_id = some u) :
    ∃ f : AttendanceRecord → AttendanceRecord,
      (manualAttendance st body now).2.attendance_records = st.attendance_records.map f ∧
      ∀ r ∈ st.attendance_records,
        (f r).id = r.id ∧ (f r).session_id = r.session_id ∧
        (f r).student_id = r.student_id ∧ (f r).marked_by = r.marked_by ∧
        (f r).ip_address = r.ip_address ∧ (f r).device_info = r.device_info ∧
        (f r).location_data = r.location_data ∧
        (¬ (r.session_id = some k ∧ r.student_id = some u) → f r = r) := by
  have hsel := selectRecords_of_ids st body.session_id body.student_id k u hk hu
  obtain ⟨r0, hr0, hr0p⟩ := hexists
  have hr0f : r0 ∈ st.attendance_records.filter (fun r =>
      decide (r.session_id = some k ∧ r.student_id = some u)) := by
    rw [List.mem_filter]
    exact ⟨hr0, by simpa using hr0p⟩
  cases hL : st.attendance_records.filter (fun r =>
      decide (r.session_id = some k ∧ r.student_id = some u)) with
  | nil => rw [hL] at hr0f; exact absurd hr0f (List.not_mem_nil _)
  | cons x xs =>
    have hx : x ∈ st.attendance_records.filter (fun r =>
        decide (r.session_id = some k ∧ r.student_id = some u)) := by
      rw [hL]; exact List.mem_cons_self _ _
    rw [List.mem_filter] at hx
    have hxp : x.session_id = some k ∧ x.student_id = some u := by simpa using hx.2
    unfold manualAttendance
    simp only [hsel, hL]
    cases hup : updateRecordStatus st body.status.toText now x.id with
    | none =>
      refine ⟨id, by simp, ?_⟩
      intro r _
      simp
    | some st1 =>
      unfold updateRecordStatus at hup
      split at hup
      · simp at hup
      · simp only [Option.some.injEq] at hup
        subst hup
        refine ⟨fun r => if r.id = x.id then
          { r with status := body.status.toText, marked_at := now } else r, rfl, ?_⟩
        intro r hr
        by_cases hid : r.id = x.id
        · simp only [if_pos hid, true_and]
          intro hnot
          have := hkey r hr x hx.1 hid
          subst this
          exact absurd hxp hnot
        · simp only [if_neg hid, true_and, implies_true]

/-- C21 at the sample store after the student marked: the lecturer overrides the
status of the pair `(1, 7)`. -/
theorem C21_manual_update_frame_witness :
    ∃ f : AttendanceRecord → AttendanceRecord,
      (manualAttendance sampleMarkedStore ⟨.num 1, .num 7, .str "excused"⟩
        1705310000000).2.attendance_records = sampleMarkedStore.attendance_records.map f ∧
      ∀ r ∈ sampleMarkedStore.attendance_records,
        (f r).id = r.id ∧ (f r).session_id = r.session_id ∧
        (f r).student_id = r.student_id ∧ (f r).marked_by = r.marked_by ∧
        (f r).ip_address = r.ip_address ∧ (f r).device_info = r.device_info ∧
        (f r).location_data = r.location_data ∧
        (¬ (r.session_id = some 1 ∧ r.student_id = some 7) → f r = r) :=
  C21_manual_update_frame sampleMarkedStore ⟨.num 1, .num 7, .str "excused"⟩ 1705310000000
    1 7 (by decide!) (by decide!) (by decide!) (by decide!)

/-- The constraints on a new record look at the events only through their ids. -/
theorem recordAdmissible_mapSessions (f : Session → Session) (hf : ∀ s, (f s).id = s.id)
    (st : Store) (row : AttendanceRecord) :
    recordAdmissible (mapSessions f st) row = recordAdmissible st row := by
  unfold recordAdmissible mapSessions
  simp only [List.any_map]
  congr 3
  cases row.session_id with
  | none => rfl
  | some k =>
    simp only []
    congr 1
    funext s
    simp only [Function.comp, hf]

/-- An insert commutes with a rewriting of the events that keeps their ids. -/
theorem insertRecord_mapSessions (f : Session → Session) (hf : ∀ s, (f s).id = s.id)
    (st : Store) (sid uid : Option Int) (status : Option String) (at_ : Int) (by_ : String)
    (ip : Option String) (loc : Option Location) :
    insertRecord (mapSessions f st) sid uid status at_ by_ ip loc =
      ((insertRecord st sid uid status at_ by_ ip loc).1,
        mapSessions f (insertRecord st sid uid status at_ by_ ip loc).2) := by
  unfold insertRecord
  simp only []
  have hadm := recordAdmissible_mapSessions f hf st
    { id := st.attendance_records_id_seq, session_id := sid, student_id := uid,
      marked_at := at_, status := status, marked_by := by_, ip_address := ip,
      device_info := none, location_data := loc }
  have hseq : (mapSessions f st).attendance_records_id_seq = st.attendance_records_id_seq :=
    rfl
  rw [hseq, hadm]
  split <;> rfl

/-- The manual override commutes with a rewriting of the events that keeps
their ids. -/
theorem manualAttendance_mapSessions (f : Session → Session) (hf : ∀ s, (f s).id = s.id)
    (st : Store) (body : ManualBody) (now : Int) :
    manualAttendance (mapSessions f st) body now =
      ((manualAttendance st body now).1, mapSessions f (manualAttendance st body now).2) := by
  unfold manualAttendance
  have hsel : selectRecords (mapSessions f st) body.session_id body.student_id =
      selectRecords st body.session_id body.student_id := rfl
  rw [hsel]
  cases selectRecords st body.session_id body.student_id with
  | none => rfl
  | some rows =>
    cases rows with
    | nil =>
      simp only []
      cases body.session_id.toInt4 with
      | none => rfl
      | some k =>
        cases body.student_id.toInt4 with
        | none => rfl
        | some u =>
          simp only [insertRecord_mapSessions f hf]
          generalize insertRecord st k u body.status.toText now "manual" none none = r
          obtain ⟨o, s1⟩ := r
          cases o <;> rfl
    | cons x xs =>
      simp only []
      have hup : updateRecordStatus (mapSessions f st) body.status.toText now x.id =
          (updateRecordStatus st body.status.toText now x.id).map (mapSessions f) := by
        unfold updateRecordStatus
        have hrec : (mapSessions f st).attendance_records = st.attendance_records := rfl
        rw [hrec]
        split <;> rfl
      rw [hup]
      cases updateRecordStatus st body.status.toText now x.id <;> rfl

/-- C22: the manual override has no expiry gate.  Whatever status and expiry the
roll-call events are given (active or closed, before or after now), the
response of the override and the attendance records after it are the same. -/
theorem C22_manual_override_ignores_expiry (st : Store) (body : ManualBody) (now : Int)
    (status : Session → Option String) (expiry : Session → Option Int) :
    (manualAttendance
        (mapSessions (fun s => { s with status := status s, qr_code_expiry := expiry s }) st)
        body now).1 = (manualAttendance st body now).1 ∧
    (manualAttendance
        (mapSessions (fun s => { s with status := status s, qr_code_expiry := expiry s }) st)
        body now).2.attendance_records =
      (manualAttendance st body now).2.attendance_records := by
  have h := manualAttendance_mapSessions
    (fun s => { s with status := status s, qr_code_expiry := expiry s }) (fun _ => rfl)
    st body now
  rw [h]
  exact ⟨rfl, rfl⟩

/-- The constraints on a new record do not look at its location. -/
theorem insertRecord_location (st : Store) (sid uid : Option Int) (status : Option String)
    (at_ : Int) (by_ : String) (ip : Option String) (loc1 loc2 : Option Location) :
    insertRecord st sid uid status at_ by_ ip loc2 =
      ((insertRecord st sid uid status at_ by_ ip loc1).1.map
          (fun r => { r with location_data := loc2 }),
        { (insertRecord st sid uid status at_ by_ ip loc1).2 with
          attendance_records :=
            if (insertRecord st sid uid status at_ by_ ip loc1).1.isSome then
              st.attendance_records ++
                [{ id := st.attendance_records_id_seq, session_id := sid, student_id := uid,
                   marked_at := at_, status := status, marked_by := by_, ip_address := ip,
                   device_info := none, location_data := loc2 }]
            else st.attendance_records }) := by
  unfold insertRecord
  simp only []
  have hadm : recordAdmissible st
      { id := st.attendance_records_id_seq, session_id := sid, student_id := uid,
        marked_at := at_, status := status, marked_by := by_, ip_address := ip,
        device_info := none, location_data := loc2 } =
      recordAdmissible st
      { id := st.attendance_records_id_seq, session_id := sid, student_id := uid,
        marked_at := at_, status := status, marked_by := by_, ip_address := ip,
        device_info := none, location_data := loc1 } := rfl
  rw [hadm]
  split <;> rfl

/-- The last part of the handler with another location that the `JSONB` column
stores exactly when it stores the first: the same response up to the location
of the record. -/
theorem markInsert_location (env : Env) (st : Store) (user : Claims) (b1 b2 : MarkBody)
    (ip : Option String) (clk : MarkClock) (sessionId : String) (session : Session)
    (hjson : (Location.mk b2.latitude b2.longitude).jsonbAccepts =
      (Location.mk b1.latitude b1.longitude).jsonbAccepts) :
    outcome (markInsert env st user b2 ip clk sessionId session).1 =
      outcome (markInsert env st user b1 ip clk sessionId session).1 ∧
    ∀ message row status,
      (markInsert env st user b1 ip clk sessionId session).1 =
        ⟨200, .marked message row status⟩ →
      (markInsert env st user b2 ip clk sessionId session).1 =
        ⟨200, .marked message
          { row with location_data := some ⟨b2.latitude, b2.longitude⟩ } status⟩ := by
  unfold markInsert
  simp only []
  cases (Param.str sessionId).toInt4 with
  | none => exact ⟨rfl, fun _ _ _ h => by simp [internalError] at h⟩
  | some k =>
    cases (Param.num user.id).toInt4 with
    | none => exact ⟨rfl, fun _ _ _ h => by simp [internalError] at h⟩
    | some u =>
      simp only []
      rw [hjson]
      by_cases hbind :
          ((Location.mk b1.latitude b1.longitude).jsonbAccepts && ipFits ip) = true
      · rw [if_pos hbind, if_pos hbind]
        rw [insertRecord_location st k u (some (attendanceStatus env session clk.jsNow))
          clk.insertNow "system" ip (some ⟨b1.latitude, b1.longitude⟩)
          (some ⟨b2.latitude, b2.longitude⟩)]
        generalize insertRecord st k u (some (attendanceStatus env session clk.jsNow))
          clk.insertNow "system" ip (some ⟨b1.latitude, b1.longitude⟩) = r
        obtain ⟨o, s1⟩ := r
        cases o with
        | none => exact ⟨rfl, fun _ _ _ h => by simp [internalError] at h⟩
        | some row0 =>
          refine ⟨rfl, ?_⟩
          intro message row status h
          simp only [Response.mk.injEq, Body.marked.injEq, true_and] at h
          obtain ⟨h1, h2, h3⟩ := h
          subst h1 h2 h3
          rfl
      · rw [if_neg hbind, if_neg hbind]
        exact ⟨rfl, fun _ _ _ h => by simp [internalError] at h⟩

/-- The session query on rewritten events returns the rewritten rows. -/
theorem selectActiveSession_mapSessions (f : Session → Session) (hf : KeepsGate f)
    (st : Store) (sessionId : Param) (now : Int) :
    selectActiveSession (mapSessions f st) sessionId now =
      (selectActiveSession st sessionId now).map (List.map f) := by
  unfold selectActiveSession mapSessions
  cases sessionId.toInt4 with
  | none => rfl
  | some k =>
    simp only [Option.map_some', List.filter_map]
    congr 2
    apply List.filter_congr
    intro s _
    simp only [Function.comp, (hf s).1, (hf s).2.1, (hf s).2.2.1]

/-- The status computed for a rewritten event is the status of the event. -/
theorem attendanceStatus_keepsGate (env : Env) (f : Session → Session) (hf : KeepsGate f)
    (session : Session) (now : Int) :
    attendanceStatus env (f session) now = attendanceStatus env session now := by
  unfold attendanceStatus
  rw [(hf session).2.2.2.2.1, (hf session).2.2.2.2.2]

/-- Mark-attendance commutes with a rewriting of the events that keeps what the
handler reads of them. -/
theorem markAttendance_mapSessions (env : Env) (f : Session → Session) (hf : KeepsGate f)
    (st : Store) (user : Claims) (body : MarkBody) (ip : Option String) (clk : MarkClock) :
    markAttendance env (mapSessions f st) user body ip clk =
      ((markAttendance env st user body ip clk).1,
        mapSessions f (markAttendance env st user body ip clk).2) := by
  unfold markAttendance
  cases qrSessionId body.qr_data with
  | none => rfl
  | some sessionId =>
    simp only [selectActiveSession_mapSessions f hf]
    cases selectActiveSession st (.str sessionId) clk.sessionQueryNow with
    | none => rfl
    | some rows =>
      cases rows with
      | nil => rfl
      | cons session rest =>
        simp only [Option.map_some', List.map_cons]
        unfold markCheckEnrollment
        have he : selectEnrollment (mapSessions f st) (.num user.id) (f session).course_id =
            selectEnrollment st (.num user.id) session.course_id := by
          rw [(hf session).2.2.2.1]
          rfl
        rw [he]
        cases selectEnrollment st (.num user.id) session.course_id with
        | none => rfl
        | some es =>
          cases es with
          | nil => rfl
          | cons e es =>
            simp only []
            unfold markCheckExisting
            have hr : selectRecords (mapSessions f st) (.str sessionId) (.num user.id) =
                selectRecords st (.str sessionId) (.num user.id) := rfl
            rw [hr]
            cases selectRecords st (.str sessionId) (.num user.id) with
            | none => rfl
            | some rs =>
              cases rs with
              | cons r rs => rfl
              | nil =>
                simp only []
                unfold markInsert
                simp only [attendanceStatus_keepsGate env f hf]
                cases (Param.str sessionId).toInt4 with
                | none => rfl
                | some k =>
                  cases (Param.num user.id).toInt4 with
                  | none => rfl
                  | some u =>
                    simp only [insertRecord_mapSessions f (fun s => (hf s).1)]
                    split
                    · generalize insertRecord st k u
                        (some (attendanceStatus env session clk.jsNow)) clk.insertNow
                        "system" ip (some ⟨body.latitude, body.longitude⟩) = r
                      obtain ⟨o, s1⟩ := r
                      cases o <;> rfl
                    · rfl

/-- An accepted submission passed the conversion of its parameters: the `JSONB`
column stores its location and the address fits its column. -/
theorem markAttendance_accepted_bind {env : Env} {st : Store} {user : Claims}
    {body : MarkBody} {ip : Option String} {clk : MarkClock} {message status : String}
    {row : AttendanceRecord}
    (h : (markAttendance env st user body ip clk).1 = ⟨200, .marked message row status⟩) :
    (Location.mk body.latitude body.longitude).jsonbAccepts = true ∧ ipFits ip = true := by
  unfold markAttendance at h
  split at h
  · simp [internalError] at h
  · split at h
    · simp [internalError] at h
    · simp at h
    · unfold markCheckEnrollment at h
      split at h
      · simp [internalError] at h
      · simp at h
      · unfold markCheckExisting at h
        split at h
        · simp [internalError] at h
        · simp at h
        · unfold markInsert at h
          simp only [] at h
          split at h
          swap
          · simp [internalError] at h
          split at h
          · rename_i hbind
            simpa using hbind
          · simp [internalError] at h

/-- C25 as stated fails where the location cannot be stored.  The submission of
the enrolled student to the live event 1 with latitude `"0"` is accepted and
recorded `present`; the same submission with the one-character string U+0000
as latitude ends in the 500 of the catch block and leaves the store as it was:
`JSON.stringify` writes that character as an escape which the `JSONB` column
`location_data` refuses. -/
theorem C25_counterexample :
    outcome (markAttendance sampleEnv sampleStore studentClaims
        ⟨.str sampleQr, .str "0", .null⟩ none (clockAt 1705309800000)).1 =
      (200, none, some "present") ∧
    ("\x00".toList.map Char.toNat = [0]) ∧
    markAttendance sampleEnv sampleStore studentClaims
        ⟨.str sampleQr, .str "\x00", .null⟩ none (clockAt 1705309800000) =
      (⟨500, .error "Internal server error"⟩, sampleStore) ∧
    outcome (markAttendance sampleEnv sampleStore studentClaims
        ⟨.str sampleQr, .str "\x00", .null⟩ none (clockAt 1705309800000)).1 ≠
      outcome (markAttendance sampleEnv sampleStore studentClaims
        ⟨.str sampleQr, .str "0", .null⟩ none (clockAt 1705309800000)).1 := by
  refine ⟨by decide!, by decide!, by decide!, by decide!⟩

/-- C25, amended: the geofence does not gate acceptance.  Two submissions that
differ only in latitude and longitude, whose locations the `JSONB` column
`location_data` both stores or both refuses, get the same status code and the
same error message or the same attendance status, and the records they return
differ only in the location; a submission whose location the column refuses
(a string holding U+0000) is never accepted; and whatever latitude, longitude
and radius the events are given, the response is the same. -/
theorem C25_geofence_does_not_gate (env : Env) (st : Store) (user : Claims)
    (qr lat1 lon1 lat2 lon2 : Param) (ip : Option String) (clk : MarkClock)
    (latitude longitude : Session → Option String) (radius : Session → Option Int) :
    ((Location.mk lat2 lon2).jsonbAccepts = (Location.mk lat1 lon1).jsonbAccepts →
      outcome (markAttendance env st user ⟨qr, lat2, lon2⟩ ip clk).1 =
        outcome (markAttendance env st user ⟨qr, lat1, lon1⟩ ip clk).1 ∧
      (∀ message row status,
        (markAttendance env st user ⟨qr, lat1, lon1⟩ ip clk).1 =
          ⟨200, .marked message row status⟩ →
        (markAttendance env st user ⟨qr, lat2, lon2⟩ ip clk).1 =
          ⟨200, .marked message { row with location_data := some ⟨lat2, lon2⟩ }
            status⟩)) ∧
    ((Location.mk lat1 lon1).jsonbAccepts = false →
      ∀ message row status,
        (markAttendance env st user ⟨qr, lat1, lon1⟩ ip clk).1 ≠
          ⟨200, .marked message row status⟩) ∧
    (markAttendance env
        (mapSessions (fun s => { s with latitude := latitude s, longitude := longitude s,
                                        radius := radius s }) st)
        user ⟨qr, lat1, lon1⟩ ip clk).1 =
      (markAttendance env st user ⟨qr, lat1, lon1⟩ ip clk).1 := by
  refine ⟨fun hjson => ⟨?_, ?_⟩, ?_, ?_⟩
  · unfold markAttendance markCheckEnrollment markCheckExisting
    simp only []
    repeat' split
    all_goals first
      | rfl
      | exact (markInsert_location env st user ⟨qr, lat1, lon1⟩ ⟨qr, lat2, lon2⟩ ip clk
          _ _ hjson).1
  · unfold markAttendance markCheckEnrollment markCheckExisting
    simp only []
    repeat' split
    all_goals first
      | exact (markInsert_location env st user ⟨qr, lat1, lon1⟩ ⟨qr, lat2, lon2⟩ ip clk
          _ _ hjson).2
      | (intro message row status h; simp [internalError] at h)
  · intro hrefused message row status h
    have hb := (markAttendance_accepted_bind h).1
    rw [hrefused] at hb
    exact Bool.noConfusion hb
  · have h := markAttendance_mapSessions env
      (fun s => { s with latitude := latitude s, longitude := longitude s,
                         radius := radius s })
      (fun _ => ⟨rfl, rfl, rfl, rfl, rfl, rfl⟩) st user ⟨qr, lat1, lon1⟩ ip clk
    rw [h]

/-- C25, amended, at the sample store: the submission without a location and the
one with the coordinates -1.2921 and 36.8219 are both recorded `present`, and
the event's geofence of radius 100 around another place changes nothing. -/
theorem C25_geofence_does_not_gate_witness :
    (Location.mk (.frac "-1.2921") (.frac "36.8219")).jsonbAccepts =
      (Location.mk .null .null).jsonbAccepts ∧
    outcome (markAttendance sampleEnv sampleStore studentClaims
        ⟨.str sampleQr, .null, .null⟩ none (clockAt 1705309800000)).1 =
      (200, none, some "present") ∧
    outcome (markAttendance sampleEnv sampleStore studentClaims
        ⟨.str sampleQr, .frac "-1.2921", .frac "36.8219"⟩ none (clockAt 1705309800000)).1 =
      outcome (markAttendance sampleEnv sampleStore studentClaims
        ⟨.str sampleQr, .null, .null⟩ none (clockAt 1705309800000)).1 ∧
    (markAttendance sampleEnv
        (mapSessions (fun s => { s with latitude := some "51.50000000",
                                        longitude := some "-0.12000000",
                                        radius := some 100 }) sampleStore)
        studentClaims ⟨.str sampleQr, .null, .null⟩ none (clockAt 1705309800000)).1 =
      (markAttendance sampleEnv sampleStore studentClaims
        ⟨.str sampleQr, .null, .null⟩ none (clockAt 1705309800000)).1 :=
  ⟨by decide!, by decide!,
   ((C25_geofence_does_not_gate sampleEnv sampleStore studentClaims (.str sampleQr)
      .null .null (.frac "-1.2921") (.frac "36.8219") none (clockAt 1705309800000)
      (fun _ => none) (fun _ => none) (fun _ => none)).1 (by decide!)).1,
   (C25_geofence_does_not_gate sampleEnv sampleStore studentClaims (.str sampleQr)
      .null .null (.frac "-1.2921") (.frac "36.8219") none (clockAt 1705309800000)
      (fun _ => some "51.50000000") (fun _ => some "-0.12000000")
      (fun _ => some 100)).2.2⟩

/-- Every character of the base-36 form of a number has a property that all
base-36 digits have. -/
theorem toBase36Aux_forall (P : Char → Prop) (hP : ∀ d, d < 36 → P (base36Digit d)) :
    ∀ (fuel n : Nat) (acc : List Char),
      (∀ c ∈ acc, P c) → ∀ c ∈ toBase36Aux fuel n acc, P c := by
  intro fuel
  induction fuel with
  | zero => intro n acc h; exact h
  | succ f ih =>
    intro n acc h
    unfold toBase36Aux
    split
    · rename_i hn
      intro c hc
      rw [List.mem_cons] at hc
      rcases hc with rfl | hc
      · exact hP n hn
      · exact h c hc
    · apply ih
      intro c hc
      rw [List.mem_cons] at hc
      rcases hc with rfl | hc
      · exact hP _ (Nat.mod_lt _ (by norm_num))
      · exact h c hc

/-- Every character of the decimal form of a number has a property that all
decimal digits have. -/
theorem toDigitsCore_forall (P : Char → Prop) (hP : ∀ d, d < 10 → P (Nat.digitChar d)) :
    ∀ (fuel n : Nat) (acc : List Char),
      (∀ c ∈ acc, P c) → ∀ c ∈ Nat.toDigitsCore 10 fuel n acc, P c := by
  intro fuel
  induction fuel with
  | zero => intro n acc h; exact h
  | succ f ih =>
    intro n acc h
    unfold Nat.toDigitsCore
    have hd : ∀ c ∈ Nat.digitChar (n % 10) :: acc, P c := by
      intro c hc
      rw [List.mem_cons] at hc
      rcases hc with rfl | hc
      · exact hP _ (Nat.mod_lt _ (by norm_num))
      · exact h c hc
    simp only []
    split
    · exact hd
    · exact ih _ _ hd

/-- C28: a payload joined from a session id of base-36 characters, a timestamp of
decimal digits and a hexadecimal signature splits on `:` into exactly these
three fields, in order, and mark-attendance reads the session id back; the
base-36 form and the decimal form of every number, from which create-session
builds the id and the timestamp, consist of such characters. -/
theorem C28_split_undoes_join (s t sig : String)
    (hs : ∀ c ∈ s.toList, isBase36Char c = true)
    (ht : ∀ c ∈ t.toList, isDecDigit c = true)
    (hsig : ∀ c ∈ sig.toList, isHexChar c = true) :
    jsSplit (s ++ ":" ++ t ++ ":" ++ sig) ':' = [s, t, sig] ∧
    qrSessionId (.str (s ++ ":" ++ t ++ ":" ++ sig)) = some s ∧
    (∀ n : Nat, ∀ c ∈ (toBase36 n).toList, isBase36Char c = true) ∧
    (∀ n : Nat, ∀ c ∈ (toString n).toList, isDecDigit c = true) := by
  have h3 : jsSplit (s ++ ":" ++ t ++ ":" ++ sig) ':' = [s, t, sig] := by
    apply jsSplit_three
    · intro h; have := hs _ h; revert this; decide
    · intro h; have := ht _ h; revert this; decide
    · intro h; have := hsig _ h; revert this; decide
  refine ⟨h3, ?_, ?_, ?_⟩
  · show (jsSplit (s ++ ":" ++ t ++ ":" ++ sig) ':').head? = some s
    rw [h3]
    rfl
  · intro n
    exact toBase36Aux_forall (fun c => isBase36Char c = true)
      (by intro d hd; interval_cases d <;> decide) _ _ _ (fun _ h => absurd h (List.not_mem_nil _))
  · intro n
    show ∀ c ∈ Nat.toDigits 10 n, isDecDigit c = true
    exact toDigitsCore_forall (fun c => isDecDigit c = true)
      (by intro d hd; interval_cases d <;> decide) _ _ _ (fun _ h => absurd h (List.not_mem_nil _))

/-- C28 at the payload minted at 09:00:00. -/
theorem C28_split_undoes_join_witness :
    jsSplit ("lrep2g00k3j9x" ++ ":" ++ "1705309200000" ++ ":" ++ "87e2ffd9") ':' =
      ["lrep2g00k3j9x", "1705309200000", "87e2ffd9"] :=
  (C28_split_undoes_join "lrep2g00k3j9x" "1705309200000" "87e2ffd9" (by decide!)
    (by decide!) (by decide!)).1

/-- A header made of a scheme, a space and a token, neither holding a space, has
the token as its second field, also when further fields follow. -/
theorem jsSplit_scheme_token (scheme token rest : String) (hs : ' ' ∉ scheme.toList)
    (ht : ' ' ∉ token.toList) :
    (jsSplit (scheme ++ " " ++ token) ' ').get? 1 = some token ∧
    (jsSplit (scheme ++ " " ++ token ++ " " ++ rest) ' ').get? 1 = some token := by
  unfold jsSplit
  have h1 : (scheme ++ " " ++ token).toList = scheme.toList ++ ' ' :: token.toList := by
    simp only [String.toList, String.data_append]
    simp
  have h2 : (scheme ++ " " ++ token ++ " " ++ rest).toList =
      scheme.toList ++ ' ' :: (token.toList ++ ' ' :: rest.toList) := by
    simp only [String.toList, String.data_append]
    simp
  constructor
  · rw [h1, splitChars_append_sep ' ' _ _ hs, splitChars_of_not_mem ' ' _ ht]
    rfl
  · rw [h2, splitChars_append_sep ' ' _ _ hs, splitChars_append_sep ' ' _ _ ht]
    rfl

/-- C29: a request without an authorization header, or whose header has no
second space-separated field or an empty one, is answered 401 `Access token
required` whatever `jwt.verify` is, so no token is verified, and the handler is
not called.  A header whose second field is a non-empty `token` is decided by
`jwt.verify` of that field alone under `JWT_SECRET`: 403 `Invalid or expired
token` when it is rejected, otherwise `next` with its claims or 403
`Insufficient permissions` by the role.  The second field of a header
`scheme token` is `token` whatever the scheme is, also when further fields
follow. -/
theorem C29_access_token_required (env : Env) (roles : List String) (nowSec : Int) :
    (∀ authHeader : Option String,
      (authHeader.bind (fun h => (jsSplit h ' ').get? 1) = none ∨
        authHeader.bind (fun h => (jsSplit h ' ').get? 1) = some "") →
      (∀ verify : String → String → Int → JwtResult,
        authenticateToken { env with jwtVerify := verify } roles authHeader nowSec =
          .reject ⟨401, .error "Access token required"⟩) ∧
      authenticateToken env roles authHeader nowSec =
        .reject ⟨401, .error "Access token required"⟩ ∧
      (∀ user, authenticateToken env roles authHeader nowSec ≠ .next user)) ∧
    (∀ header token : String, (jsSplit header ' ').get? 1 = some token → token ≠ "" →
      authenticateToken env roles (some header) nowSec =
        match env.jwtVerify token env.JWT_SECRET nowSec with
        | .error _ => .reject ⟨403, .error "Invalid or expired token"⟩
        | .ok user =>
          if roles = [] ∨ user.role ∈ roles then .next user
          else .reject ⟨403, .error "Insufficient permissions"⟩) ∧
    (∀ scheme token rest : String, ' ' ∉ scheme.toList → ' ' ∉ token.toList → token ≠ "" →
      (jsSplit (scheme ++ " " ++ token) ' ').get? 1 = some token ∧
      (jsSplit (scheme ++ " " ++ token ++ " " ++ rest) ' ').get? 1 = some token ∧
      authenticateToken env roles (some (scheme ++ " " ++ token)) nowSec =
        authenticateToken env roles (some ("Bearer " ++ token)) nowSec ∧
      authenticateToken env roles (some (scheme ++ " " ++ token ++ " " ++ rest)) nowSec =
        authenticateToken env roles (some ("Bearer " ++ token)) nowSec) := by
  have hmiss : ∀ (e : Env) (authHeader : Option String),
      (authHeader.bind (fun h => (jsSplit h ' ').get? 1) = none ∨
        authHeader.bind (fun h => (jsSplit h ' ').get? 1) = some "") →
      authenticateToken e roles authHeader nowSec =
        .reject ⟨401, .error "Access token required"⟩ := by
    intro e authHeader hmissing
    unfold authenticateToken
    rcases hmissing with h | h
    · rw [h]
    · rw [h]
      simp
  have htok : ∀ header token : String, (jsSplit header ' ').get? 1 = some token →
      token ≠ "" →
      authenticateToken env roles (some header) nowSec =
        match env.jwtVerify token env.JWT_SECRET nowSec with
        | .error _ => .reject ⟨403, .error "Invalid or expired token"⟩
        | .ok user =>
          if roles = [] ∨ user.role ∈ roles then .next user
          else .reject ⟨403, .error "Insufficient permissions"⟩ := by
    intro header token htoken hne
    unfold authenticateToken
    simp only [Option.some_bind, htoken, hne, if_false]
    cases hv : env.jwtVerify token env.JWT_SECRET nowSec with
    | error err => rfl
    | ok user =>
      simp only []
      by_cases hr : roles = [] ∨ user.role ∈ roles
      · rw [if_pos hr, if_neg]
        rintro ⟨hlen, hnot⟩
        rcases hr with hr | hr
        · rw [hr] at hlen; simp at hlen
        · exact hnot (by simpa using hr)
      · rw [if_neg hr, if_pos]
        push_neg at hr
        refine ⟨List.length_pos.mpr hr.1, ?_⟩
        simpa using hr.2
  refine ⟨?_, htok, ?_⟩
  · intro authHeader hmissing
    refine ⟨fun verify => hmiss _ authHeader hmissing, hmiss env authHeader hmissing, ?_⟩
    intro user hu
    rw [hmiss env authHeader hmissing] at hu
    exact AuthResult.noConfusion hu
  · intro scheme token rest hs ht hne
    obtain ⟨h1, h2⟩ := jsSplit_scheme_token scheme token rest hs ht
    have hb := jsSplit_bearer token ht
    refine ⟨h1, h2, ?_, ?_⟩
    · rw [htok _ token h1 hne, htok _ token hb hne]
    · rw [htok _ token h2 hne, htok _ token hb hne]

/-- C29 at concrete headers: no header, a scheme alone, and a scheme followed by
a space and nothing are answered 401, also by a `jwt.verify` that accepts every
token; the student's token passes under the scheme `Basic` as under `Bearer`,
also with a third field, and a token that `jwt.verify` rejects is answered
403. -/
theorem C29_access_token_required_witness :
    authenticateToken sampleEnv ["student"] none 1705309800 =
      .reject ⟨401, .error "Access token required"⟩ ∧
    authenticateToken sampleEnv ["student"] (some "Bearer") 1705309800 =
      .reject ⟨401, .error "Access token required"⟩ ∧
    authenticateToken sampleEnv ["student"] (some "Bearer ") 1705309800 =
      .reject ⟨401, .error "Access token required"⟩ ∧
    authenticateToken { sampleEnv with jwtVerify := fun _ _ _ => .ok studentClaims }
        ["student"] (some "Bearer ") 1705309800 =
      .reject ⟨401, .error "Access token required"⟩ ∧
    authenticateToken sampleEnv ["student"] (some "Basic token-student@edu.test")
        1705309800 = .next studentClaims ∧
    authenticateToken sampleEnv ["student"] (some "Bearer token-student@edu.test")
        1705309800 = .next studentClaims ∧
    authenticateToken sampleEnv ["student"] (some "Basic token-student@edu.test ignored")
        1705309800 = .next studentClaims ∧
    authenticateToken sampleEnv ["student"] (some "token-student@edu.test Bearer")
        1705309800 = .reject ⟨403, .error "Invalid or expired token"⟩ ∧
    authenticateToken sampleEnv ["lecturer"] (some "Basic token-student@edu.test")
        1705309800 = .reject ⟨403, .error "Insufficient permissions"⟩ ∧
    (jsSplit "Basic token-student@edu.test ignored" ' ').get? 1 =
      some "token-student@edu.test" :=
  ⟨((C29_access_token_required sampleEnv ["student"] 1705309800).1 none (Or.inl rfl)).2.1,
   ((C29_access_token_required sampleEnv ["student"] 1705309800).1 (some "Bearer")
      (Or.inl (by decide!))).2.1,
   ((C29_access_token_required sampleEnv ["student"] 1705309800).1 (some "Bearer ")
      (Or.inr (by decide!))).2.1,
   ((C29_access_token_required sampleEnv ["student"] 1705309800).1 (some "Bearer ")
      (Or.inr (by decide!))).1 (fun _ _ _ => .ok studentClaims),
   ((C29_access_token_required sampleEnv ["student"] 1705309800).2.1
      "Basic token-student@edu.test" "token-student@edu.test" (by decide!)
      (by decide!)).trans (by decide!),
   ((C29_access_token_required sampleEnv ["student"] 1705309800).2.1
      "Bearer token-student@edu.test" "token-student@edu.test" (by decide!)
      (by decide!)).trans (by decide!),
   ((C29_access_token_required sampleEnv ["student"] 1705309800).2.1
      "Basic token-student@edu.test ignored" "token-student@edu.test" (by decide!)
      (by decide!)).trans (by decide!),
   ((C29_access_token_required sampleEnv ["student"] 1705309800).2.1
      "token-student@edu.test Bearer" "Bearer" (by decide!) (by decide!)).trans (by decide!),
   ((C29_access_token_required sampleEnv ["lecturer"] 1705309800).2.1
      "Basic token-student@edu.test" "token-student@edu.test" (by decide!)
      (by decide!)).trans (by decide!),
   ((C29_access_token_required sampleEnv ["student"] 1705309800).2.2
      "Basic" "token-student@edu.test" "ignored" (by decide!) (by decide!) (by decide!)).2.1⟩

/-- For a header whose token `jwt.verify` accepts, the middleware decides on the
role alone. -/
theorem authenticateToken_verified (env : Env) (roles : List String)
    (authHeader : Option String) (nowSec : Int) (token : String) (user : Claims)
    (htoken : authHeader.bind (fun h => (jsSplit h ' ').get? 1) = some token)
    (hne : token ≠ "")
    (hverified : env.jwtVerify token env.JWT_SECRET nowSec = .ok user) :
    authenticateToken env roles authHeader nowSec =
      if roles = [] ∨ user.role ∈ roles then .next user
      else .reject ⟨403, .error "Insufficient permissions"⟩ := by
  unfold authenticateToken
  simp only [htoken, hne, if_false, hverified]
  by_cases hr : roles = [] ∨ user.role ∈ roles
  · rw [if_pos hr, if_neg]
    rintro ⟨hlen, hnot⟩
    rcases hr with hr | hr
    · rw [hr] at hlen; simp at hlen
    · exact hnot (by simpa using hr)
  · rw [if_neg hr, if_pos]
    push_neg at hr
    refine ⟨List.length_pos.mpr hr.1, ?_⟩
    simpa using hr.2

/-- C23: a request with a verified token reaches the handler of submit attendance
exactly when the role is `student`, and the handlers of create roll-call
event, manual override and list event attendance exactly when the role is
`lecturer`; with any other role the route answers 403 `Insufficient
permissions` and returns the store unchanged. -/
theorem C23_role_gates (env : Env) (st : Store) (authHeader : Option String) (nowSec : Int)
    (token : String) (user : Claims)
    (htoken : authHeader.bind (fun h => (jsSplit h ' ').get? 1) = some token)
    (hne : token ≠ "")
    (hverified : env.jwtVerify token env.JWT_SECRET nowSec = .ok user) :
    (∀ body ip clk,
      (user.role = "student" →
        routeMarkAttendance env st authHeader nowSec body ip clk =
          markAttendance env st user body ip clk) ∧
      (user.role ≠ "student" →
        routeMarkAttendance env st authHeader nowSec body ip clk =
          (⟨403, .error "Insufficient permissions"⟩, st))) ∧
    (∀ body clk,
      (user.role = "lecturer" →
        routeCreateSession env st authHeader nowSec body clk =
          createSession env st user body clk) ∧
      (user.role ≠ "lecturer" →
        routeCreateSession env st authHeader nowSec body clk =
          (⟨403, .error "Insufficient permissions"⟩, st))) ∧
    (∀ body now,
      (user.role = "lecturer" →
        routeManualAttendance env st authHeader nowSec body now =
          manualAttendance st body now) ∧
      (user.role ≠ "lecturer" →
        routeManualAttendance env st authHeader nowSec body now =
          (⟨403, .error "Insufficient permissions"⟩, st))) ∧
    (∀ sessionId,
      (user.role = "lecturer" →
        routeSessionAttendance env st authHeader nowSec sessionId =
          sessionAttendance env st sessionId) ∧
      (user.role ≠ "lecturer" →
        routeSessionAttendance env st authHeader nowSec sessionId =
          (⟨403, .error "Insufficient permissions"⟩, st))) := by
  have hs := authenticateToken_verified env ["student"] authHeader nowSec token user
    htoken hne hverified
  have hl := authenticateToken_verified env ["lecturer"] authHeader nowSec token user
    htoken hne hverified
  simp only [List.cons_ne_nil, false_or, List.mem_singleton] at hs hl
  refine ⟨?_, ?_, ?_, ?_⟩
  · intro body ip clk
    unfold routeMarkAttendance isStudent
    rw [hs]
    exact ⟨fun h => by rw [if_pos h], fun h => by rw [if_neg h]⟩
  · intro body clk
    unfold routeCreateSession isLecturer
    rw [hl]
    exact ⟨fun h => by rw [if_pos h], fun h => by rw [if_neg h]⟩
  · intro body now
    unfold routeManualAttendance isLecturer
    rw [hl]
    exact ⟨fun h => by rw [if_pos h], fun h => by rw [if_neg h]⟩
  · intro sessionId
    unfold routeSessionAttendance isLecturer
    rw [hl]
    exact ⟨fun h => by rw [if_pos h], fun h => by rw [if_neg h]⟩

/-- C23 at the student's token: it reaches mark-attendance and is refused by
manual-attendance, which leaves the store as it was. -/
theorem C23_role_gates_witness :
    routeMarkAttendance sampleEnv sampleStore (some "Bearer token-student@edu.test")
        1705309800 (markBodyOf sampleQr) none (clockAt 1705309800000) =
      markAttendance sampleEnv sampleStore studentClaims (markBodyOf sampleQr) none
        (clockAt 1705309800000) ∧
    routeManualAttendance sampleEnv sampleStore (some "Bearer token-student@edu.test")
        1705309800 ⟨.num 1, .num 7, .str "present"⟩ 1705309800000 =
      (⟨403, .error "Insufficient permissions"⟩, sampleStore) :=
  ⟨((C23_role_gates sampleEnv sampleStore (some "Bearer token-student@edu.test") 1705309800
      "token-student@edu.test" studentClaims (by decide!) (by decide!) (by decide!)).1
      (markBodyOf sampleQr) none (clockAt 1705309800000)).1 (by decide!),
   ((C23_role_gates sampleEnv sampleStore (some "Bearer token-student@edu.test") 1705309800
      "token-student@edu.test" studentClaims (by decide!) (by decide!) (by decide!)).2.2.1
      ⟨.num 1, .num 7, .str "present"⟩ 1705309800000).2 (by decide!)⟩

/-- An insert fails and only advances the sequence, or appends its row. -/
theorem insertRecord_cases (st : Store) (sid uid : Option Int) (status : Option String)
    (at_ : Int) (by_ : String) (ip : Option String) (loc : Option Location) :
    insertRecord st sid uid status at_ by_ ip loc =
      (none, { st with attendance_records_id_seq := st.attendance_records_id_seq + 1 }) ∨
    insertRecord st sid uid status at_ by_ ip loc =
      (some { id := st.attendance_records_id_seq, session_id := sid, student_id := uid,
              marked_at := at_, status := status, marked_by := by_, ip_address := ip,
              device_info := none, location_data := loc },
        { st with
          attendance_records_id_seq := st.attendance_records_id_seq + 1,
          attendance_records := st.attendance_records ++
            [{ id := st.attendance_records_id_seq, session_id := sid, student_id := uid,
               marked_at := at_, status := status, marked_by := by_, ip_address := ip,
               device_info := none, location_data := loc }] }) := by
  unfold insertRecord
  simp only []
  split
  · right; rfl
  · left; rfl

/-- Mark-attendance leaves the table of records alone or appends one record of
the authenticated student. -/
theorem markAttendance_records (env : Env) (st : Store) (user : Claims) (body : MarkBody)
    (ip : Option String) (clk : MarkClock) :
    (markAttendance env st user body ip clk).2.attendance_records = st.attendance_records ∨
    ∃ row, (markAttendance env st user body ip clk).2.attendance_records =
        st.attendance_records ++ [row] ∧ row.student_id = some user.id := by
  have hins : ∀ sessionId session,
      (markInsert env st user body ip clk sessionId session).2.attendance_records =
        st.attendance_records ∨
      ∃ row, (markInsert env st user body ip clk sessionId session).2.attendance_records =
          st.attendance_records ++ [row] ∧ row.student_id = some user.id := by
    intro sessionId session
    unfold markInsert
    simp only []
    cases (Param.str sessionId).toInt4 with
    | none => left; rfl
    | some k =>
      cases hu : (Param.num user.id).toInt4 with
      | none => left; rfl
      | some u =>
        have huid : u = some user.id := by
          simp only [Param.toInt4] at hu
          unfold inInt4 at hu
          split at hu
          · simp only [Option.map_some', Option.some.injEq] at hu
            exact hu.symm
          · simp at hu
        subst huid
        simp only []
        split
        · rcases insertRecord_cases st k (some user.id)
            (some (attendanceStatus env session clk.jsNow)) clk.insertNow "system" ip
            (some ⟨body.latitude, body.longitude⟩) with h | h
          · rw [h]; left; rfl
          · rw [h]; right
            exact ⟨_, rfl, rfl⟩
        · left; rfl
  unfold markAttendance markCheckEnrollment markCheckExisting
  repeat' split
  all_goals first
    | (left; rfl)
    | exact hins _ _

/-- C24: a request with a verified token of role `student`, to any of the routes
that touch attendance records, leaves every record that existed in place and
unchanged; the table after it is the table before it, or that table followed
by one new record whose `student_id` is the id in the token. -/
theorem C24_student_cannot_mutate_records (env : Env) (st : Store)
    (authHeader : Option String) (nowSec : Int) (token : String) (user : Claims)
    (request : AttendanceRequest)
    (htoken : authHeader.bind (fun h => (jsSplit h ' ').get? 1) = some token)
    (hne : token ≠ "")
    (hverified : env.jwtVerify token env.JWT_SECRET nowSec = .ok user)
    (hrole : user.role = "student") :
    st.attendance_records <+:
      (handleRequest env st authHeader nowSec request).2.attendance_records ∧
    ((handleRequest env st authHeader nowSec request).2.attendance_records =
        st.attendance_records ∨
      ∃ row, (handleRequest env st authHeader nowSec request).2.attendance_records =
          st.attendance_records ++ [row] ∧ row.student_id = some user.id) := by
  have hs := authenticateToken_verified env ["student"] authHeader nowSec token user
    htoken hne hverified
  have hl := authenticateToken_verified env ["lecturer"] authHeader nowSec token user
    htoken hne hverified
  simp only [List.cons_ne_nil, false_or, List.mem_singleton] at hs hl
  rw [if_pos hrole] at hs
  rw [if_neg (by rw [hrole]; decide)] at hl
  have hmain : (handleRequest env st authHeader nowSec request).2.attendance_records =
        st.attendance_records ∨
      ∃ row, (handleRequest env st authHeader nowSec request).2.attendance_records =
          st.attendance_records ++ [row] ∧ row.student_id = some user.id := by
    cases request with
    | markAttendance body ip clk =>
      simp only [handleRequest, routeMarkAttendance, isStudent, hs]
      exact markAttendance_records env st user body ip clk
    | createSession body clk =>
      simp only [handleRequest, routeCreateSession, isLecturer, hl]
      left; trivial
    | manualAttendance body now =>
      simp only [handleRequest, routeManualAttendance, isLecturer, hl]
      left; trivial
    | sessionAttendance sessionId =>
      simp only [handleRequest, routeSessionAttendance, isLecturer, hl]
      left; trivial
  refine ⟨?_, hmain⟩
  rcases hmain with h | ⟨row, h, -⟩
  · rw [h]
  · rw [h]; exact List.prefix_append _ _

/-- C24 at the student's token: a manual override sent by the student changes
nothing, a submission appends the student's record. -/
theorem C24_student_cannot_mutate_records_witness :
    sampleMarkedStore.attendance_records <+:
      (handleRequest sampleEnv sampleMarkedStore (some "Bearer token-student@edu.test")
        1705309800 (.manualAttendance ⟨.num 1, .num 7, .str "excused"⟩
          1705309900000)).2.attendance_records :=
  (C24_student_cannot_mutate_records sampleEnv sampleMarkedStore
    (some "Bearer token-student@edu.test") 1705309800 "token-student@edu.test"
    studentClaims (.manualAttendance ⟨.num 1, .num 7, .str "excused"⟩ 1705309900000)
    (by decide!) (by decide!) (by decide!) (by decide!)).1

/-- A successful user insert returns a row that the new table holds. -/
theorem insertUser_some {st st1 : Store} {registration_number email : Param}
    {password : String} {first_name last_name role department phone_number : Param}
    {now : Int} {row : User}
    (h : insertUser st registration_number email password first_name last_name role
      department phone_number now = (some row, st1)) :
    row ∈ st1.users := by
  unfold insertUser at h
  split at h
  · simp at h
  · simp only [] at h
    split at h
    · split at h
      · simp only [Prod.mk.injEq, Option.some.injEq] at h
        obtain ⟨h1, h2⟩ := h
        subst h1 h2
        simp
      · simp at h
    · simp at h

/-- A successful register answers with the stored row, stripped of its password. -/
theorem register_success {env : Env} {st st1 : Store} {body : RegisterBody} {salt : String}
    {now : Int} {message : String} {user : UserWithoutPassword}
    (h : register env st body salt now = (⟨201, .registered message user⟩, st1)) :
    ∃ row ∈ st1.users, user = row.withoutPassword := by
  unfold register at h
  split at h
  · simp at h
  · split at h
    · simp only [] at h
      split at h
      · simp [internalError] at h
      · rename_i hins
        simp only [Prod.mk.injEq, Response.mk.injEq, Body.registered.injEq, true_and] at h
        obtain ⟨⟨-, huser⟩, hst⟩ := h
        subst hst
        exact ⟨_, insertUser_some hins, huser.symm⟩
    · simp [internalError] at h

/-- C26: the user in the response of a successful login is a stored user row
without its password and with every other field as stored, and so is the user
in the response of a successful register, for the row it has just stored; the
type of the response user has no field for the credential hash. -/
theorem C26_identity_without_password (env : Env) (st : Store) :
    (∀ (body : LoginBody) (nowSec : Int) (message token : String)
        (user : UserWithoutPassword),
      login env st body nowSec = ⟨200, .loggedIn message token user⟩ →
      ∃ u ∈ st.users, user = u.withoutPassword ∧ SameButPassword u user) ∧
    (∀ (body : RegisterBody) (salt : String) (now : Int) (st1 : Store) (message : String)
        (user : UserWithoutPassword),
      register env st body salt now = (⟨201, .registered message user⟩, st1) →
      ∃ u ∈ st1.users, user = u.withoutPassword ∧ SameButPassword u user) := by
  have hsame : ∀ u : User, SameButPassword u u.withoutPassword := by
    intro u
    exact ⟨rfl, rfl, rfl, rfl, rfl, rfl, rfl, rfl, rfl, rfl, rfl, rfl⟩
  constructor
  · intro body nowSec message token user h
    obtain ⟨u, rest, hsel, -, huser⟩ := login_success env st body nowSec message token user h
    have hmem : u ∈ selectLoginUsers st body.identifier body.role := by
      rw [hsel]; exact List.mem_cons_self _ _
    rw [mem_selectLoginUsers] at hmem
    exact ⟨u, hmem.1, huser, huser ▸ hsame u⟩
  · intro body salt now st1 message user h
    obtain ⟨row, hrow, huser⟩ := register_success h
    exact ⟨row, hrow, huser, huser ▸ hsame row⟩

/-- C26 at the sample store: the student logs in, and an admin registers a new
student. -/
theorem C26_identity_without_password_witness :
    (∃ u ∈ sampleStore.users, sampleStudent.withoutPassword = u.withoutPassword ∧
      SameButPassword u sampleStudent.withoutPassword) ∧
    (∃ u ∈ (register sampleEnv sampleStore sampleRegisterBody "salt" 1705320000000).2.users,
      sampleRegisteredUser.withoutPassword = u.withoutPassword ∧
      SameButPassword u sampleRegisteredUser.withoutPassword) :=
  ⟨(C26_identity_without_password sampleEnv sampleStore).1
      ⟨.str "student@edu.test", .str "pencil", .str "student"⟩ 1705300000
      "Login successful" "token-student@edu.test" sampleStudent.withoutPassword
      (by decide!),
   (C26_identity_without_password sampleEnv sampleStore).2 sampleRegisterBody "salt"
      1705320000000 (register sampleEnv sampleStore sampleRegisterBody "salt"
        1705320000000).2
      "User registered successfully" sampleRegisteredUser.withoutPassword (by decide!)⟩

/-- A row is an enrollment of the pair `(s, c)` when it carries both ids. -/
theorem enrollmentOf_iff (s c : Int) (e : Enrollment) :
    enrollmentOf (some s) (some c) e = true ↔
      e.student_id = some s ∧ e.course_id = some c := by
  unfold enrollmentOf
  rw [Bool.and_eq_true, sqlEq_some_iff, sqlEq_some_iff]

/-- C27 as stated fails: an enroll request for a student id that no user has, and
one for a course id that no course has, violate a foreign key, end in the 500
of the `catch` block and leave the pair without an enrollment. -/
theorem C27_counterexample :
    (enroll sampleStore ⟨.num 99, .num 3⟩ 1705320000000).1 =
      ⟨500, .error "Internal server error"⟩ ∧
    enrollmentCount (enroll sampleStore ⟨.num 99, .num 3⟩ 1705320000000).2 99 3 = 0 ∧
    (enroll sampleStore ⟨.num 7, .num 44⟩ 1705320000000).1 =
      ⟨500, .error "Internal server error"⟩ ∧
    enrollmentCount (enroll sampleStore ⟨.num 7, .num 44⟩ 1705320000000).2 7 44 = 0 := by
  decide!

/-- C27, amended: in a store that keeps the unique index of enrollments, an enroll request
for the integer ids `(s, c)`, whose student and course exist when the pair has
no enrollment yet (with the id sequence ahead of the stored ids), answers 200;
afterwards exactly one enrollment of the pair exists and it is `active`,
whatever was stored for the pair before; the enrollments of every other pair
are unchanged; and the unique index still holds, so that repeating the request
gives the same again. -/
theorem C27_enroll_upsert (st : Store) (body : EnrollBody) (now s c : Int)
    (hs : body.student_id.toInt4 = some (some s))
    (hc : body.course_id.toInt4 = some (some c))
    (hunique : UniqueEnrollments st)
    (hnew : enrollmentCount st s c = 0 →
      (∃ x ∈ st.users, x.id = s) ∧ (∃ x ∈ st.courses, x.id = c) ∧
      ∀ e ∈ st.enrollments, e.id ≠ st.enrollments_id_seq) :
    (enroll st body now).1.status = 200 ∧
    enrollmentCount (enroll st body now).2 s c = 1 ∧
    (∀ e ∈ (enroll st body now).2.enrollments,
      e.student_id = some s → e.course_id = some c → e.status = some "active") ∧
    (enroll st body now).2.enrollments.filter
        (fun e => !enrollmentOf (some s) (some c) e) =
      st.enrollments.filter (fun e => !enrollmentOf (some s) (some c) e) ∧
    UniqueEnrollments (enroll st body now).2 := by
  cases hL : st.enrollments.filter (enrollmentOf (some s) (some c)) with
  | nil =>
    have hcount : enrollmentCount st s c = 0 := by
      unfold enrollmentCount
      rw [hL]
      rfl
    obtain ⟨huser, hcourse, hfresh⟩ := hnew hcount
    have hnone : ∀ e ∈ st.enrollments, enrollmentOf (some s) (some c) e = false := by
      intro e he
      have := List.filter_eq_nil_iff.mp hL e he
      simpa using this
    have hadm : enrollmentAdmissible st
        { id := st.enrollments_id_seq, student_id := some s, course_id := some c,
          enrollment_date := now, status := some "active" } = true := by
      unfold enrollmentAdmissible
      simp only [Bool.and_eq_true, Bool.not_eq_true', List.any_eq_false, List.any_eq_true,
        decide_eq_true_eq]
      exact ⟨⟨fun e he => hfresh e he, huser⟩, hcourse⟩
    have hrun : enroll st body now =
        (⟨200, .enrolled "Student enrolled successfully"
            { id := st.enrollments_id_seq, student_id := some s, course_id := some c,
              enrollment_date := now, status := some "active" }⟩,
          { st with
            enrollments_id_seq := st.enrollments_id_seq + 1,
            enrollments := st.enrollments ++
              [{ id := st.enrollments_id_seq, student_id := some s, course_id := some c,
                 enrollment_date := now, status := some "active" }] }) := by
      unfold enroll
      simp only [hs, hc, hL, hadm, if_true]
    rw [hrun]
    have hrow : enrollmentOf (some s) (some c)
        { id := st.enrollments_id_seq, student_id := some s, course_id := some c,
          enrollment_date := now, status := some "active" } = true := by
      rw [enrollmentOf_iff]
      exact ⟨rfl, rfl⟩
    refine ⟨rfl, ?_, ?_, ?_, ?_⟩
    · simp only [enrollmentCount, List.filter_append, hL, List.nil_append]
      rw [List.filter_cons_of_pos hrow]
      rfl
    · intro e he h1 h2
      simp only [List.mem_append, List.mem_singleton] at he
      rcases he with he | he
      · have := hnone e he
        rw [(enrollmentOf_iff s c e).mpr ⟨h1, h2⟩] at this
        exact absurd this (by decide)
      · rw [he]
    · simp only [List.filter_append]
      rw [List.filter_cons_of_neg (by simp [hrow])]
      simp
    · intro s1 c1
      simp only [enrollmentCount, List.filter_append, List.length_append]
      by_cases hp : enrollmentOf (some s1) (some c1)
          { id := st.enrollments_id_seq, student_id := some s, course_id := some c,
            enrollment_date := now, status := some "active" } = true
      · have hsc := (enrollmentOf_iff s1 c1 _).mp hp
        simp only [Option.some.injEq] at hsc
        obtain ⟨h1, h2⟩ := hsc
        subst h1 h2
        rw [hL, List.filter_cons_of_pos hp]
        simp
      · rw [List.filter_cons_of_neg hp]
        simpa [enrollmentCount] using hunique s1 c1
  | cons x xs =>
    have hxs : xs = [] := by
      have h1 := hunique s c
      unfold enrollmentCount at h1
      rw [hL] at h1
      cases xs with
      | nil => rfl
      | cons y ys => simp at h1
    subst hxs
    have hrun : (enroll st body now).1.status = 200 ∧
        (enroll st body now).2.enrollments = st.enrollments.map (fun e =>
          if enrollmentOf (some s) (some c) e then
            { e with status := some "active", enrollment_date := now }
          else e) := by
      unfold enroll
      simp only [hs, hc, hL]
      exact ⟨trivial, trivial⟩
    have hkeep : ∀ (s1 c1 : Option Int) (e : Enrollment),
        enrollmentOf s1 c1
          (if enrollmentOf (some s) (some c) e then
            { e with status := some "active", enrollment_date := now }
          else e) = enrollmentOf s1 c1 e := by
      intro s1 c1 e
      split <;> rfl
    have hfilter : ∀ s1 c1 : Option Int,
        (enroll st body now).2.enrollments.filter (enrollmentOf s1 c1) =
          (st.enrollments.filter (enrollmentOf s1 c1)).map (fun e =>
            if enrollmentOf (some s) (some c) e then
              { e with status := some "active", enrollment_date := now }
            else e) := by
      intro s1 c1
      rw [hrun.2, List.filter_map]
      congr 1
      apply List.filter_congr
      intro e _
      exact hkeep s1 c1 e
    refine ⟨hrun.1, ?_, ?_, ?_, ?_⟩
    · unfold enrollmentCount
      rw [hfilter, hL]
      rfl
    · intro e he h1 h2
      rw [hrun.2, List.mem_map] at he
      obtain ⟨e0, -, he0⟩ := he
      have hp : enrollmentOf (some s) (some c) e = true := (enrollmentOf_iff s c e).mpr ⟨h1, h2⟩
      rw [← he0, hkeep] at hp
      rw [if_pos hp] at he0
      rw [← he0]
    · rw [hrun.2, List.filter_map]
      have hcongr : st.enrollments.filter ((fun e => !enrollmentOf (some s) (some c) e) ∘
          (fun e => if enrollmentOf (some s) (some c) e then
            { e with status := some "active", enrollment_date := now } else e)) =
          st.enrollments.filter (fun e => !enrollmentOf (some s) (some c) e) := by
        apply List.filter_congr
        intro e _
        simp only [Function.comp, hkeep]
      rw [hcongr]
      conv_rhs => rw [← List.map_id (st.enrollments.filter
        (fun e => !enrollmentOf (some s) (some c) e))]
      apply List.map_congr_left
      intro e he
      rw [List.mem_filter] at he
      have hne : enrollmentOf (some s) (some c) e = false := by simpa using he.2
      simp only [hne, Bool.false_eq_true, if_false, id]
    · intro s1 c1
      unfold enrollmentCount
      rw [hfilter, List.length_map]
      exact hunique s1 c1

/-- C27, amended, at the sample store with the student's enrollment inactive: enrolling
the student in the course again leaves one enrollment, now active. -/
theorem C27_enroll_upsert_witness :
    (enroll (sampleStoreWith "inactive") ⟨.num 7, .num 3⟩ 1705320000000).1.status = 200 ∧
    enrollmentCount (enroll (sampleStoreWith "inactive") ⟨.num 7, .num 3⟩
      1705320000000).2 7 3 = 1 ∧
    (∀ e ∈ (enroll (sampleStoreWith "inactive") ⟨.num 7, .num 3⟩
        1705320000000).2.enrollments,
      e.student_id = some 7 → e.course_id = some 3 → e.status = some "active") :=
  ⟨(C27_enroll_upsert (sampleStoreWith "inactive") ⟨.num 7, .num 3⟩ 1705320000000 7 3
      (by decide!) (by decide!)
      (fun s c => by
        simp only [enrollmentCount, sampleStoreWith, List.filter_cons, List.filter_nil]
        split <;> simp)
      (fun h => absurd h (by decide!))).1,
   (C27_enroll_upsert (sampleStoreWith "inactive") ⟨.num 7, .num 3⟩ 1705320000000 7 3
      (by decide!) (by decide!)
      (fun s c => by
        simp only [enrollmentCount, sampleStoreWith, List.filter_cons, List.filter_nil]
        split <;> simp)
      (fun h => absurd h (by decide!))).2.1,
   (C27_enroll_upsert (sampleStoreWith "inactive") ⟨.num 7, .num 3⟩ 1705320000000 7 3
      (by decide!) (by decide!)
      (fun s c => by
        simp only [enrollmentCount, sampleStoreWith, List.filter_cons, List.filter_nil]
        split <;> simp)
      (fun h => absurd h (by decide!))).2.2.1⟩

/-- The number of pages: for a positive limit, `Math.ceil(count / limit)` is
the least number of pages of that size that hold `count` rows. -/
theorem totalPagesOf_bounds (count limit : Nat) (hlimit : 0 < limit) :
    ∃ tp, totalPagesOf count limit = some tp ∧ count ≤ tp * limit ∧
      (0 < count → (tp - 1) * limit < count) := by
  have hl : (0 : ℚ) < (limit : ℚ) := by exact_mod_cast hlimit
  have hx0 : (0 : ℚ) ≤ (count : ℚ) / (limit : ℚ) := div_nonneg (Nat.cast_nonneg _) hl.le
  have hc0 : 0 ≤ ⌈(count : ℚ) / (limit : ℚ)⌉ := Int.ceil_nonneg hx0
  have htp : ((Int.toNat ⌈(count : ℚ) / (limit : ℚ)⌉ : ℕ) : ℤ) =
      ⌈(count : ℚ) / (limit : ℚ)⌉ := Int.toNat_of_nonneg hc0
  have h1 : (count : ℚ) / (limit : ℚ) ≤ ((⌈(count : ℚ) / (limit : ℚ)⌉ : ℤ) : ℚ) :=
    Int.le_ceil _
  have h2 : ((⌈(count : ℚ) / (limit : ℚ)⌉ : ℤ) : ℚ) < (count : ℚ) / (limit : ℚ) + 1 :=
    Int.ceil_lt_add_one _
  refine ⟨Int.toNat ⌈(count : ℚ) / (limit : ℚ)⌉, ?_, ?_, ?_⟩
  · unfold totalPagesOf
    rw [if_neg (by omega)]
  · have h3 : (count : ℚ) ≤ ((⌈(count : ℚ) / (limit : ℚ)⌉ : ℤ) : ℚ) * (limit : ℚ) :=
      (div_le_iff₀ hl).mp h1
    rw [← htp] at h3
    exact_mod_cast h3
  · intro hcount
    rw [← htp] at h2
    generalize Int.toNat ⌈(count : ℚ) / (limit : ℚ)⌉ = tp at h2
    cases tp with
    | zero => simpa using hcount
    | succ k =>
      simp only [Nat.add_sub_cancel]
      have h4 : (k : ℚ) < (count : ℚ) / (limit : ℚ) := by
        push_cast at h2
        linarith
      have h5 : (k : ℚ) * (limit : ℚ) < (count : ℚ) := (lt_div_iff₀ hl).mp h4
      exact_mod_cast h5

/-- The part of the pagination that holds: for a page from 1 on and a positive
limit the listing answers 200, `total` is the number of users that pass the role
filter, which is the number that pass the filters of the page when no
department filter is set, and `totalPages` is the least number of pages of
`limit` rows that hold `total` rows. -/
theorem adminUsers_pagination (st : Store) (q : UsersQuery)
    (hpage : 1 ≤ q.page.getD 1) (hlimit : 0 < q.limit.getD 20) :
    ∃ users tp, adminUsers st q =
        ⟨200, .userPage users
          { page := q.page.getD 1, limit := q.limit.getD 20,
            total := (st.users.filter (countFilter q)).length, totalPages := some tp }⟩ ∧
      (st.users.filter (countFilter q)).length ≤ tp * q.limit.getD 20 ∧
      (0 < (st.users.filter (countFilter q)).length →
        (tp - 1) * q.limit.getD 20 < (st.users.filter (countFilter q)).length) ∧
      (truthyText q.department = false →
        (st.users.filter (countFilter q)).length =
          (st.users.filter (pageFilter q)).length) := by
  obtain ⟨tp, htp, h1, h2⟩ :=
    totalPagesOf_bounds (st.users.filter (countFilter q)).length (q.limit.getD 20) hlimit
  refine ⟨(((sortByKey (fun u : User => -u.created_at)
      (st.users.filter (pageFilter q))).drop
        ((((q.page.getD 1 : Nat) : Int) - 1) * ((q.limit.getD 20 : Nat) : Int)).toNat).take
          (q.limit.getD 20)).map User.listRow, tp, ?_, h1, h2, ?_⟩
  · unfold adminUsers
    simp only []
    rw [if_neg, htp]
    have : (0 : Int) ≤ ((q.page.getD 1 : Nat) : Int) - 1 := by omega
    have hmul := mul_nonneg this (Int.ofNat_nonneg (q.limit.getD 20))
    simpa using hmul
  · intro hdept
    congr 1
    apply List.filter_congr
    intro u _
    unfold countFilter pageFilter
    simp [hdept]

/-- C30, the code: the listing of the students of Mathematics, one row a page, in
a store with one such student and two students of Computing.  The page holds
the one matching user, while `total` is 3 and `totalPages` is 3: the count
query filters on the role and leaves the department filter out. -/
theorem C30_total_ignores_department :
    adminUsers sampleDeptStore sampleUsersQuery =
      ⟨200, .userPage
        [{ id := 11, registration_number := some "REG-011", email := "m@edu.test",
           first_name := "Alan", last_name := "Turing", role := "student",
           department := some "Mathematics", phone_number := none,
           profile_picture := none, is_active := some true,
           created_at := 1705000000000 }]
        { page := 1, limit := 1, total := 3, totalPages := some 3 }⟩ ∧
    (sampleDeptStore.users.filter (pageFilter sampleUsersQuery)).length = 1 ∧
    (sampleDeptStore.users.filter (countFilter sampleUsersQuery)).length = 3 := by
  decide!

end EduFlow
